import Mathlib

/-!
# ttlock: the credential lifecycle of the TTLock API client

A shallow embedding of the Go package `ttlock` (client.go, errors.go, lock.go,
passcode.go, key.go) and theorems about it.

Conventions of the embedding

* A Go `int` / `int64` is a Lean `Int`; where the source multiplies durations the
  result is wrapped to 64 bits with `wrapInt64`.
* A Go result pair `(*T, error)` is an `Except GoError T`.
* The network is an input: one HTTP round trip (http.NewRequest, HTTPClient.Do,
  io.ReadAll, json.Unmarshal) is an `Exchange`, chosen by the environment for the
  request that was built.
* A call that does not return normally halts with a `Halt`: a Go panic, or a
  goroutine that cannot proceed on the mutex.
-/

namespace TTLock

/-! ## Machine integers and time.Duration -/

/-- Least value of a Go int64. -/
def minInt64 : Int := -(2 ^ 63)

/-- Greatest value of a Go int64. -/
def maxInt64 : Int := 2 ^ 63 - 1

/-- Two-complement wrap-around of an integer into the int64 range, the result of
64-bit signed arithmetic in Go. -/
def wrapInt64 (x : Int) : Int := (x + 2 ^ 63) % 2 ^ 64 - 2 ^ 63

/-- Go integer division: the quotient truncated toward zero. -/
def goDiv (a b : Int) : Int := Int.tdiv a b

/-- The constant time.Nanosecond: a Duration counts nanoseconds. -/
def Nanosecond : Int := 1

/-- The constant time.Microsecond. -/
def Microsecond : Int := 1000 * Nanosecond

/-- The constant time.Millisecond. -/
def Millisecond : Int := 1000 * Microsecond

/-- The constant time.Second. -/
def Second : Int := 1000 * Millisecond

/-- The constant time.Minute. -/
def Minute : Int := 60 * Second

/-- The constant time.Hour. -/
def Hour : Int := 60 * Minute

/-- Lines 85-89 of client.go: the argument that refresh_access_token passes to
time.Sleep, in nanoseconds, from the ExpiresIn read out of the store.
`time.Duration(expiresIn/2) * time.Second` is an int64 multiplication. -/
def refreshInterval (expiresIn : Int) : Int :=
  let refreshInterval := wrapInt64 (goDiv expiresIn 2 * Second)
  if refreshInterval > 24 * Hour then 24 * Hour else refreshInterval

/-! ## errors.go -/

/-- The Go type ErrorCode, an int. -/
abbrev ErrorCode := Int

def ErrOperationFailed : ErrorCode := 1
def ErrClientIDNotExist : ErrorCode := 10000
def ErrInvalidClient : ErrorCode := 10001
def ErrTokenNotExist : ErrorCode := 10003
def ErrTokenUnauthorized : ErrorCode := 10004
def ErrInvalidUsernameOrPass : ErrorCode := 10007
def ErrInvalidRefreshToken : ErrorCode := 10011
def ErrNotLockAdmin : ErrorCode := 20002
def ErrInvalidUsernameFormat : ErrorCode := 30002
def ErrUserAlreadyExists : ErrorCode := 30003
def ErrInvalidDeleteUserID : ErrorCode := 30004
def ErrPasswordMustBeMD5 : ErrorCode := 30005
def ErrRateLimitExceeded : ErrorCode := 30006
def ErrInvalidRequestTime : ErrorCode := 80000
def ErrInvalidJSONFormat : ErrorCode := 80002
def ErrSystemInternalError : ErrorCode := 90000
def ErrInvalidParameter : ErrorCode := -3
def ErrPermissionDenied : ErrorCode := -2018
def ErrDeleteOrTransferLocks : ErrorCode := -4063
def ErrLockNotExist : ErrorCode := -1003
def ErrLockFrozen : ErrorCode := -2025
def ErrCannotTransferLockToSelf : ErrorCode := -3011
def ErrLockOperationNotSupported : ErrorCode := -4043
def ErrStorageFull : ErrorCode := -4056
def ErrNBDeviceNotRegistered : ErrorCode := -4067
def ErrAutoLockTimeLimitExceeded : ErrorCode := -4082
def ErrKeyNotExist : ErrorCode := -1008
def ErrGroupNameExists : ErrorCode := -1016
def ErrGroupNotExist : ErrorCode := -1018
def ErrAccountBoundCannotReceiveKey : ErrorCode := -1027
def ErrCannotSendKeyToSelf : ErrorCode := -2019
def ErrCannotSendKeyToAdmin : ErrorCode := -2020
def ErrCannotModifyKeyValidity : ErrorCode := -2023
def ErrReceiverNotRegistered : ErrorCode := -4064
def ErrLockNoPasscodeData : ErrorCode := -1007
def ErrPasscodeNotExist : ErrorCode := -2009
def ErrInvalidPasscodeLength : ErrorCode := -3006
def ErrPasscodeAlreadyExists : ErrorCode := -3007
def ErrCannotModifyUnusedPasscode : ErrorCode := -3008
def ErrCustomPasscodeSpaceFull : ErrorCode := -3009
def ErrNoAvailableGateway : ErrorCode := -2012
def ErrGatewayOffline : ErrorCode := -3002
def ErrGatewayBusy : ErrorCode := -3003
def ErrCannotTransferGatewayToSelf : ErrorCode := -3016
def ErrWifiLockNotConfigured : ErrorCode := -3034
def ErrWifiInPowerSavingMode : ErrorCode := -3035
def ErrLockOffline : ErrorCode := -3036
def ErrLockBusy : ErrorCode := -3037
def ErrGatewayNotExist : ErrorCode := -4037
def ErrICCardNotExist : ErrorCode := -1021
def ErrFingerprintNotExist : ErrorCode := -1023

/-- The Go map errorMessages; the keys are pairwise distinct. -/
def errorMessages : List (ErrorCode × String) :=
  [
    (ErrOperationFailed, "操作失败"),
    (ErrClientIDNotExist, "client_id不存在"),
    (ErrInvalidClient, "无效的client，client_id或client_secret错"),
    (ErrTokenNotExist, "token不存在"),
    (ErrTokenUnauthorized, "token无授权，token已失效或被撤销授权"),
    (ErrInvalidUsernameOrPass, "username或password错误"),
    (ErrInvalidRefreshToken, "refresh_token无效"),
    (ErrNotLockAdmin, "不是锁管理员"),
    (ErrInvalidUsernameFormat, "用户名只能包含数字和字母"),
    (ErrUserAlreadyExists, "用户已存在"),
    (ErrInvalidDeleteUserID, "要删除的用户的userid不合法，只能删除当前应用注册的账号"),
    (ErrPasswordMustBeMD5, "密码必需MD5加密"),
    (ErrRateLimitExceeded, "超过接口调用次数限制"),
    (ErrInvalidRequestTime, "请求时间必需为当前时间前后五分钟以内"),
    (ErrInvalidJSONFormat, "JSON格式不正确"),
    (ErrSystemInternalError, "系统内部错误"),
    (ErrInvalidParameter, "参数不合法"),
    (ErrPermissionDenied, "没有权限，很多接口只允许锁的最高管理员或授权管理员请求，有些接口只要有效的普通钥匙用户即可，请使用合法用户的账号和密码获取的访问令牌请求接口。"),
    (ErrDeleteOrTransferLocks, "请先删除或转移账号里所有的锁"),
    (ErrLockNotExist, "锁不存在"),
    (ErrLockFrozen, "锁已被冻结，目前无法操作"),
    (ErrCannotTransferLockToSelf, "不能把锁转移给自己"),
    (ErrLockOperationNotSupported, "此锁不支持该操作"),
    (ErrStorageFull, "存储空间已满,操作失败"),
    (ErrNBDeviceNotRegistered, "NB设备未注册，无法发起NB操作"),
    (ErrAutoLockTimeLimitExceeded, "自动闭锁时间超限"),
    (ErrKeyNotExist, "钥匙不存在"),
    (ErrGroupNameExists, "组名已存在，请重新输入"),
    (ErrGroupNotExist, "分组不存在"),
    (ErrAccountBoundCannotReceiveKey, "此账号已被绑定在其它账号上，无法接收电子钥匙"),
    (ErrCannotSendKeyToSelf, "不能给自己的账号发送钥匙"),
    (ErrCannotSendKeyToAdmin, "不能发送钥匙给管理员"),
    (ErrCannotModifyKeyValidity, "当前不允许修改钥匙期限"),
    (ErrReceiverNotRegistered, "发送失败，接收者账号未注册，请注册后再试"),
    (ErrLockNoPasscodeData, "该锁不存在键盘密码数据"),
    (ErrPasscodeNotExist, "密码不存在"),
    (ErrInvalidPasscodeLength, "密码长度非法，必需为4-9位"),
    (ErrPasscodeAlreadyExists, "已存在相同的密码，请更换"),
    (ErrCannotModifyUnusedPasscode, "无法修改从未在锁上使用过的密码"),
    (ErrCustomPasscodeSpaceFull, "自定义密码空间已满，请删除无用密码后再试"),
    (ErrNoAvailableGateway, "锁附近没有可用的网关"),
    (ErrGatewayOffline, "网关离线，请检查后再试"),
    (ErrGatewayBusy, "网关正忙，请稍后再试"),
    (ErrCannotTransferGatewayToSelf, "不能把网关转移给自己"),
    (ErrWifiLockNotConfigured, "Wifi锁未配置网络，请配置网络后重试"),
    (ErrWifiInPowerSavingMode, "Wifi处于省电模式，请关闭省电模式后重试"),
    (ErrLockOffline, "锁离线，请检查后再试"),
    (ErrLockBusy, "锁正忙，请稍后再试"),
    (ErrGatewayNotExist, "网关不存在"),
    (ErrICCardNotExist, "该IC卡已不存在"),
    (ErrFingerprintNotExist, "该指纹已不存在")
  ]

/-- The Go struct Error: a TTLock API error. -/
structure Error where
  Code : ErrorCode
  Message : String
  deriving DecidableEq

/-- The method (*Error).Error: fmt.Sprintf("ttlock error %d: %s", e.Code, e.Message). -/
def Error.Error (e : Error) : String :=
  "ttlock error " ++ toString e.Code ++ ": " ++ e.Message

/-- NewError creates a new Error from a code: the table entry, or "unknown error". -/
def NewError (code : ErrorCode) : Error :=
  match errorMessages.lookup code with
  | some msg => { Code := code, Message := msg }
  | none => { Code := code, Message := "unknown error" }

/-- A non-nil value of the Go interface `error` as this package produces it:
either a `*Error`, or the result of `fmt.Errorf(context + ": %w", cause)` around an
error of the standard library, of which only the text is kept. -/
inductive GoError where
  | api (e : Error)
  | wrapped (context : String) (cause : String)
  deriving DecidableEq

/-- The method Error() of an error value. -/
def GoError.Error : GoError → String
  | .api e => e.Error
  | .wrapped context cause => context ++ ": " ++ cause

/-- IsErrorCode checks if an error corresponds to a specific ErrorCode. The
argument is `none` for a nil error. The type assertion `err.(*Error)` succeeds
only on a `*Error`. -/
def IsErrorCode (err : Option GoError) (code : ErrorCode) : Bool :=
  match err with
  | some (.api e) => e.Code == code
  | _ => false

/-! ## Response types (client.go, lock.go, passcode.go, key.go) -/

structure AccessTokenResponse where
  AccessToken : String
  UID : Int
  RefreshToken : String
  ExpiresIn : Int
  Errcode : Int
  Errmsg : String
  deriving DecidableEq

structure Lock where
  LockID : Int
  LockName : String
  LockAlias : String
  LockMac : String
  ElectricQuantity : Int
  FeatureValue : String
  HasGateway : Int
  LockData : String
  GroupID : Int
  GroupName : String
  Date : Int
  deriving DecidableEq

structure LockListResponse where
  List : List Lock
  PageNo : Int
  PageSize : Int
  Pages : Int
  Total : Int
  Errcode : Int
  Errmsg : String
  deriving DecidableEq

structure LockDetail where
  LockID : Int
  LockName : String
  LockAlias : String
  LockMac : String
  NoKeyPwd : String
  ElectricQuantity : Int
  FeatureValue : String
  TimezoneRawOffset : Int
  ModelNum : String
  HardwareRevision : String
  FirmwareRevision : String
  AutoLockTime : Int
  LockSound : Int
  PrivacyLock : Int
  TamperAlert : Int
  ResetButton : Int
  OpenDirection : Int
  PassageMode : Int
  PassageModeAutoUnlock : Int
  Date : Int
  Errcode : Int
  Errmsg : String
  deriving DecidableEq

structure Passcode where
  KeyboardPwdID : Int
  LockID : Int
  KeyboardPwd : String
  KeyboardPwdName : String
  KeyboardPwdType : Int
  StartDate : Int
  EndDate : Int
  SendDate : Int
  IsCustom : Int
  SenderUsername : String
  deriving DecidableEq

structure RandomPasscodeResponse where
  KeyboardPwd : String
  KeyboardPwdID : Int
  Errcode : Int
  Errmsg : String
  deriving DecidableEq

structure PasscodeListResponse where
  List : List Passcode
  PageNo : Int
  PageSize : Int
  Pages : Int
  Total : Int
  Errcode : Int
  Errmsg : String
  deriving DecidableEq

structure SendKeyResponse where
  KeyID : Int
  Errcode : Int
  Errmsg : String
  deriving DecidableEq

structure SendKeyOptions where
  Remarks : String
  RemoteEnable : Int
  KeyRight : Int
  CreateUser : Int
  deriving DecidableEq

/-! ## The environment: HTTP round trips, halting, sync.RWMutex -/

/-- The Go type url.Values as this package uses it: every key is written with Set,
so it holds one value. The order of the entries carries no meaning. -/
abbrev Values := List (String × String)

/-- The method url.Values.Set: the key gets this one value, replacing any other. -/
def Values.Set (v : Values) (key value : String) : Values :=
  v.filter (fun p => p.1 != key) ++ [(key, value)]

/-- The value stored under a key, if the key is present. -/
def Values.Get (v : Values) (key : String) : Option String :=
  v.lookup key

/-- What a function of this package hands to the transport: the method, the
endpoint, the query parameters (GET) or form fields (POST) before Encode, and the
Content-Type header when one is set. -/
structure HTTPRequest where
  Method : String
  URL : String
  Params : Values
  ContentType : Option String
  deriving DecidableEq

/-- The outcome of one round trip for a request, in the order of the checks of the
source: http.NewRequest failed, HTTPClient.Do failed, io.ReadAll failed,
json.Unmarshal failed, or the body decoded into a response value. -/
inductive Exchange (α : Type) where
  | requestError (err : String)
  | sendError (err : String)
  | readError (err : String)
  | decodeError (err : String)
  | decoded (resp : α)
  deriving DecidableEq

/-- Why a call does not return normally. -/
inductive Halt where
  | panic (v : String)
  | blocked
  | fatal (msg : String)
  deriving DecidableEq

/-- The state of a sync.RWMutex: the number of read locks held and whether the
write lock is held. -/
structure RWMutex where
  readers : Nat
  writer : Bool
  deriving DecidableEq

/-- The zero value of a sync.RWMutex: unlocked. -/
def RWMutex.zero : RWMutex := { readers := 0, writer := false }

/-- RLock is granted when no writer holds the mutex. -/
def RWMutex.RLock (m : RWMutex) : Except Halt RWMutex :=
  if m.writer then .error .blocked else .ok { m with readers := m.readers + 1 }

/-- RUnlock releases one read lock; on a mutex that is not read-locked it is a
runtime fatal error. -/
def RWMutex.RUnlock (m : RWMutex) : Except Halt RWMutex :=
  if m.readers = 0 then .error (.fatal "sync: RUnlock of unlocked RWMutex")
  else .ok { m with readers := m.readers - 1 }

/-- Lock is granted when nobody holds the mutex. -/
def RWMutex.Lock (m : RWMutex) : Except Halt RWMutex :=
  if m.writer || m.readers != 0 then .error .blocked else .ok { m with writer := true }

/-- Unlock releases the write lock; on a mutex that is not write-locked it is a
runtime fatal error. -/
def RWMutex.Unlock (m : RWMutex) : Except Halt RWMutex :=
  if m.writer then .ok { m with writer := false }
  else .error (.fatal "sync: Unlock of unlocked RWMutex")

/-! ## client.go: the client and its credential store -/

/-- The constant CNBaseURL. -/
def CNBaseURL : String := "https://cnapi.ttlock.com"

/-- The constant EUBaseURL. -/
def EUBaseURL : String := "https://euapi.ttlock.com"

/-- The part of http.Client that NewClient sets. -/
structure HTTPClient where
  Timeout : Int
  deriving DecidableEq

/-- The Go struct Client. The behaviour of HTTPClient.Do is not a field: it is the
Exchange given to each call. -/
structure Client where
  ClientID : String
  ClientSecret : String
  Username : String
  Password : String
  BaseURL : String
  HTTPClient : HTTPClient
  access_token_resp : AccessTokenResponse
  access_token_resp_lock : RWMutex
  deriving DecidableEq

/-- The zero value of AccessTokenResponse. -/
def AccessTokenResponse.zero : AccessTokenResponse :=
  { AccessToken := "", UID := 0, RefreshToken := "", ExpiresIn := 0, Errcode := 0, Errmsg := "" }

/-- The method update_access_token_resp: Lock, assign the store, deferred Unlock. -/
def Client.update_access_token_resp (c : Client) (resp : AccessTokenResponse) :
    Except Halt Client := do
  let m ← c.access_token_resp_lock.Lock
  let c := { c with access_token_resp_lock := m }
  let c := { c with access_token_resp := resp }
  let m ← c.access_token_resp_lock.Unlock
  pure { c with access_token_resp_lock := m }

/-- The method AccessToken: RLock, read the field, deferred RUnlock. Returns the
token and the client state after the call. -/
def Client.AccessToken (c : Client) : Except Halt (String × Client) := do
  let m ← c.access_token_resp_lock.RLock
  let c := { c with access_token_resp_lock := m }
  let result := c.access_token_resp.AccessToken
  let m ← c.access_token_resp_lock.RUnlock
  pure (result, { c with access_token_resp_lock := m })

/-- The method SetBaseURL. -/
def Client.SetBaseURL (c : Client) (url : String) : Client :=
  { c with BaseURL := url }

/-- Lines 136-154 of client.go: the request GetAccessToken builds. The hex MD5
digest of the password is computed by the standard library and is a parameter. -/
def Client.GetAccessTokenRequest (md5hex : String → String) (c : Client) : HTTPRequest :=
  let endpoint := c.BaseURL ++ "/oauth2/token"
  let md5Password := md5hex c.Password
  let data : Values := []
  let data := data.Set "clientId" c.ClientID
  let data := data.Set "clientSecret" c.ClientSecret
  let data := data.Set "username" c.Username
  let data := data.Set "password" md5Password
  { Method := "POST", URL := endpoint, Params := data,
    ContentType := some "application/x-www-form-urlencoded" }

/-- GetAccessToken obtains an access token using the user credentials. -/
def Client.GetAccessToken (md5hex : String → String) (c : Client)
    (send : HTTPRequest → Exchange AccessTokenResponse) :
    Except GoError AccessTokenResponse :=
  match send (c.GetAccessTokenRequest md5hex) with
  | .requestError err => .error (.wrapped "failed to create request" err)
  | .sendError err => .error (.wrapped "failed to send request" err)
  | .readError err => .error (.wrapped "failed to read response body" err)
  | .decodeError err => .error (.wrapped "failed to decode response" err)
  | .decoded tokenResp =>
    if tokenResp.Errcode != 0 then .error (.api (NewError tokenResp.Errcode))
    else .ok tokenResp

/-- Lines 181-194 of client.go: the request RefreshAccessToken builds. -/
def Client.RefreshAccessTokenRequest (c : Client) (refreshToken : String) : HTTPRequest :=
  let endpoint := c.BaseURL ++ "/oauth2/token"
  let data : Values := []
  let data := data.Set "clientId" c.ClientID
  let data := data.Set "clientSecret" c.ClientSecret
  let data := data.Set "grant_type" "refresh_token"
  let data := data.Set "refresh_token" refreshToken
  { Method := "POST", URL := endpoint, Params := data,
    ContentType := some "application/x-www-form-urlencoded" }

/-- RefreshAccessToken refreshes the access token using a refresh token. -/
def Client.RefreshAccessToken (c : Client) (refreshToken : String)
    (send : HTTPRequest → Exchange AccessTokenResponse) :
    Except GoError AccessTokenResponse :=
  match send (c.RefreshAccessTokenRequest refreshToken) with
  | .requestError err => .error (.wrapped "failed to create request" err)
  | .sendError err => .error (.wrapped "failed to send request" err)
  | .readError err => .error (.wrapped "failed to read response body" err)
  | .decodeError err => .error (.wrapped "failed to decode response" err)
  | .decoded tokenResp =>
    if tokenResp.Errcode != 0 then .error (.api (NewError tokenResp.Errcode))
    else .ok tokenResp

/-! ## lock.go, passcode.go, key.go: the API operations

Each operation reads the access token through AccessToken, builds its request,
and decodes the reply. `now` is time.Now().UnixMilli(); strconv.Itoa and
strconv.FormatInt(_, 10) are the decimal rendering `toString`. -/

/-- Lines 69-85 of lock.go: the request GetLockList builds. -/
def Client.GetLockListRequest (c : Client) (accessToken : String) (pageNo pageSize : Int)
    (lockAlias : String) (groupId : Int) (now : Int) : HTTPRequest :=
  let endpoint := c.BaseURL ++ "/v3/lock/list"
  let params : Values := []
  let params := params.Set "clientId" c.ClientID
  let params := params.Set "accessToken" accessToken
  let params := params.Set "pageNo" (toString pageNo)
  let params := params.Set "pageSize" (toString pageSize)
  let params := params.Set "date" (toString now)
  let params := if lockAlias != "" then params.Set "lockAlias" lockAlias else params
  let params := if groupId != 0 then params.Set "groupId" (toString groupId) else params
  { Method := "GET", URL := endpoint, Params := params, ContentType := none }

/-- GetLockList retrieves the list of locks for the account. -/
def Client.GetLockList (c : Client) (pageNo pageSize : Int) (lockAlias : String)
    (groupId : Int) (now : Int) (send : HTTPRequest → Exchange LockListResponse) :
    Except Halt (Client × Except GoError LockListResponse) := do
  let (accessToken, c) ← c.AccessToken
  let req := c.GetLockListRequest accessToken pageNo pageSize lockAlias groupId now
  match send req with
  | .requestError err => pure (c, .error (.wrapped "failed to create request" err))
  | .sendError err => pure (c, .error (.wrapped "failed to send request" err))
  | .readError err => pure (c, .error (.wrapped "failed to read response body" err))
  | .decodeError err => pure (c, .error (.wrapped "failed to decode response" err))
  | .decoded listResp =>
    if listResp.Errcode != 0 then pure (c, .error (.api (NewError listResp.Errcode)))
    else pure (c, .ok listResp)

/-- Lines 117-125 of lock.go: the request GetLockDetail builds. -/
def Client.GetLockDetailRequest (c : Client) (accessToken : String) (lockId : Int)
    (now : Int) : HTTPRequest :=
  let endpoint := c.BaseURL ++ "/v3/lock/detail"
  let params : Values := []
  let params := params.Set "clientId" c.ClientID
  let params := params.Set "accessToken" accessToken
  let params := params.Set "lockId" (toString lockId)
  let params := params.Set "date" (toString now)
  { Method := "GET", URL := endpoint, Params := params, ContentType := none }

/-- GetLockDetail retrieves the detailed information of a lock. -/
def Client.GetLockDetail (c : Client) (lockId : Int) (now : Int)
    (send : HTTPRequest → Exchange LockDetail) :
    Except Halt (Client × Except GoError LockDetail) := do
  let (accessToken, c) ← c.AccessToken
  let req := c.GetLockDetailRequest accessToken lockId now
  match send req with
  | .requestError err => pure (c, .error (.wrapped "failed to create request" err))
  | .sendError err => pure (c, .error (.wrapped "failed to send request" err))
  | .readError err => pure (c, .error (.wrapped "failed to read response body" err))
  | .decodeError err => pure (c, .error (.wrapped "failed to decode response" err))
  | .decoded detail =>
    if detail.Errcode != 0 then pure (c, .error (.api (NewError detail.Errcode)))
    else pure (c, .ok detail)

/-- The Go type PasscodeType, an int. -/
abbrev PasscodeType := Int

/-- Lines 74-96 of passcode.go: the request GetRandomPasscode builds. -/
def Client.GetRandomPasscodeRequest (c : Client) (accessToken : String) (lockID : Int)
    (pwdType : PasscodeType) (pwdName : String) (startDate endDate : Int) (now : Int) :
    HTTPRequest :=
  let endpoint := c.BaseURL ++ "/v3/keyboardPwd/get"
  let data : Values := []
  let data := data.Set "clientId" c.ClientID
  let data := data.Set "accessToken" accessToken
  let data := data.Set "lockId" (toString lockID)
  let data := data.Set "keyboardPwdType" (toString pwdType)
  let data := data.Set "date" (toString now)
  let data := data.Set "startDate" (toString startDate)
  let data := if pwdName != "" then data.Set "keyboardPwdName" pwdName else data
  let data := if endDate != 0 then data.Set "endDate" (toString endDate) else data
  { Method := "POST", URL := endpoint, Params := data,
    ContentType := some "application/x-www-form-urlencoded" }

/-- GetRandomPasscode retrieves a random passcode from the cloud. -/
def Client.GetRandomPasscode (c : Client) (lockID : Int) (pwdType : PasscodeType)
    (pwdName : String) (startDate endDate : Int) (now : Int)
    (send : HTTPRequest → Exchange RandomPasscodeResponse) :
    Except Halt (Client × Except GoError RandomPasscodeResponse) := do
  let (accessToken, c) ← c.AccessToken
  let req := c.GetRandomPasscodeRequest accessToken lockID pwdType pwdName startDate endDate now
  match send req with
  | .requestError err => pure (c, .error (.wrapped "failed to create request" err))
  | .sendError err => pure (c, .error (.wrapped "failed to send request" err))
  | .readError err => pure (c, .error (.wrapped "failed to read response body" err))
  | .decodeError err => pure (c, .error (.wrapped "failed to decode response" err))
  | .decoded result =>
    if result.Errcode != 0 then pure (c, .error (.api (NewError result.Errcode)))
    else pure (c, .ok result)

/-- Lines 125-140 of passcode.go: the request GetPasscodeList builds. -/
def Client.GetPasscodeListRequest (c : Client) (accessToken : String)
    (lockID pageNo pageSize orderBy : Int) (searchStr : String) (now : Int) : HTTPRequest :=
  let endpoint := c.BaseURL ++ "/v3/lock/listKeyboardPwd"
  let params : Values := []
  let params := params.Set "clientId" c.ClientID
  let params := params.Set "accessToken" accessToken
  let params := params.Set "lockId" (toString lockID)
  let params := params.Set "pageNo" (toString pageNo)
  let params := params.Set "pageSize" (toString pageSize)
  let params := params.Set "orderBy" (toString orderBy)
  let params := params.Set "date" (toString now)
  let params := if searchStr != "" then params.Set "searchStr" searchStr else params
  { Method := "GET", URL := endpoint, Params := params, ContentType := none }

/-- GetPasscodeList retrieves the list of passcodes for a lock. -/
def Client.GetPasscodeList (c : Client) (lockID pageNo pageSize orderBy : Int)
    (searchStr : String) (now : Int) (send : HTTPRequest → Exchange PasscodeListResponse) :
    Except Halt (Client × Except GoError PasscodeListResponse) := do
  let (accessToken, c) ← c.AccessToken
  let req := c.GetPasscodeListRequest accessToken lockID pageNo pageSize orderBy searchStr now
  match send req with
  | .requestError err => pure (c, .error (.wrapped "failed to create request" err))
  | .sendError err => pure (c, .error (.wrapped "failed to send request" err))
  | .readError err => pure (c, .error (.wrapped "failed to read response body" err))
  | .decodeError err => pure (c, .error (.wrapped "failed to decode response" err))
  | .decoded result =>
    if result.Errcode != 0 then pure (c, .error (.api (NewError result.Errcode)))
    else pure (c, .ok result)

/-- Lines 41-76 of key.go: the request SendKey builds. `options` is `none` for a
nil pointer. -/
def Client.SendKeyRequest (c : Client) (accessToken : String) (lockID : Int)
    (receiverUsername keyName : String) (startDate endDate : Int)
    (options : Option SendKeyOptions) (now : Int) : HTTPRequest :=
  let endpoint := c.BaseURL ++ "/v3/key/send"
  let data : Values := []
  let data := data.Set "clientId" c.ClientID
  let data := data.Set "accessToken" accessToken
  let data := data.Set "lockId" (toString lockID)
  let data := data.Set "receiverUsername" receiverUsername
  let data := data.Set "keyName" keyName
  let data := data.Set "startDate" (toString startDate)
  let data := data.Set "endDate" (toString endDate)
  let data := data.Set "date" (toString now)
  let data :=
    match options with
    | none => data
    | some options =>
      let data := if options.Remarks != "" then data.Set "remarks" options.Remarks else data
      let data :=
        if options.RemoteEnable != 0 then data.Set "remoteEnable" (toString options.RemoteEnable)
        else data
      let data :=
        if options.KeyRight != 0 then data.Set "keyRight" (toString options.KeyRight) else data
      let data :=
        if options.CreateUser != 0 then data.Set "createUser" (toString options.CreateUser)
        else data
      data
  { Method := "POST", URL := endpoint, Params := data,
    ContentType := some "application/x-www-form-urlencoded" }

/-- SendKey sends an eKey to a user. -/
def Client.SendKey (c : Client) (lockID : Int) (receiverUsername keyName : String)
    (startDate endDate : Int) (options : Option SendKeyOptions) (now : Int)
    (send : HTTPRequest → Exchange SendKeyResponse) :
    Except Halt (Client × Except GoError SendKeyResponse) := do
  let (accessToken, c) ← c.AccessToken
  let req := c.SendKeyRequest accessToken lockID receiverUsername keyName startDate endDate
    options now
  match send req with
  | .requestError err => pure (c, .error (.wrapped "failed to create request" err))
  | .sendError err => pure (c, .error (.wrapped "failed to send request" err))
  | .readError err => pure (c, .error (.wrapped "failed to read response body" err))
  | .decodeError err => pure (c, .error (.wrapped "failed to decode response" err))
  | .decoded result =>
    if result.Errcode != 0 then pure (c, .error (.api (NewError result.Errcode)))
    else pure (c, .ok result)

/-! ## client.go: the renewal goroutine refresh_access_token

The goroutine is run on its own: the mutex is touched by it alone, and its round
trips are numbered, `net k` being the outcome of the k-th one. What it does is
recorded as a trace. -/

/-- An action of the renewal goroutine that an observer can see. -/
inductive Event where
  | Sleep (d : Int)
  | RefreshAccessToken (refreshToken : String)
  | Printf (line : String)
  | update_access_token_resp (resp : AccessTokenResponse)
  deriving DecidableEq

/-- The state of the renewal goroutine: the client it works on, how many round
trips it has made, and its trace so far, oldest action first. -/
structure Sched where
  c : Client
  calls : Nat
  trace : List Event
  deriving DecidableEq

/-- The goroutine as `go c.refresh_access_token()` starts it. -/
def Sched.start (c : Client) : Sched := { c := c, calls := 0, trace := [] }

/-- Lines 95-109 of client.go: `for i := 0; i < 3; i++`, run over the values of `i`
still to come, with the current value of the variable `err`. On a failure: log,
sleep two seconds, continue. On a success: update the store, clear `err`, break.
Returns `err` and the state at the exit of the loop. -/
def refresh_access_token_retry (net : Nat → HTTPRequest → Exchange AccessTokenResponse)
    (refreshToken : String) :
    List Int → Option GoError → Sched → Except (Halt × Sched) (Option GoError × Sched)
  | [], err, s => .ok (err, s)
  | i :: rest, _, s =>
    let s1 : Sched :=
      { s with calls := s.calls + 1, trace := s.trace ++ [.RefreshAccessToken refreshToken] }
    match s.c.RefreshAccessToken refreshToken (net s.calls) with
    | .error retryErr =>
      let line := "failed to refresh access token (attempt " ++ toString (i + 1) ++ "): "
        ++ retryErr.Error ++ "\n"
      refresh_access_token_retry net refreshToken rest (some retryErr)
        { s1 with trace := s1.trace ++ [.Printf line, .Sleep (2 * Second)] }
    | .ok newTokenResp =>
      match s1.c.update_access_token_resp newTokenResp with
      | .error h => .error (h, s1)
      | .ok c =>
        .ok (none,
          { s1 with c := c, trace := s1.trace ++ [.update_access_token_resp newTokenResp] })

/-- Lines 79-114 of client.go: one pass through the body of the endless loop. It
ends in the state from which the next pass starts, or halts. -/
def refresh_access_token_round (net : Nat → HTTPRequest → Exchange AccessTokenResponse)
    (s : Sched) : Except (Halt × Sched) Sched :=
  match s.c.access_token_resp_lock.RLock with
  | .error h => .error (h, s)
  | .ok m =>
    let c := { s.c with access_token_resp_lock := m }
    let expiresIn := c.access_token_resp.ExpiresIn
    let refreshToken := c.access_token_resp.RefreshToken
    match c.access_token_resp_lock.RUnlock with
    | .error h => .error (h, { s with c := c })
    | .ok m =>
      let c := { c with access_token_resp_lock := m }
      let s : Sched := { s with c := c, trace := s.trace ++ [.Sleep (refreshInterval expiresIn)] }
      match refresh_access_token_retry net refreshToken [0, 1, 2] none s with
      | .error e => .error e
      | .ok (some err, s) =>
        .error (.panic ("failed to refresh access token after 3 attempts: " ++ err.Error), s)
      | .ok (none, s) => .ok s

/-- The method refresh_access_token, observed for a number of passes of its endless
loop: the state after that many passes, or the halt that ended it earlier. -/
def refresh_access_token (net : Nat → HTTPRequest → Exchange AccessTokenResponse) :
    Nat → Sched → Except (Halt × Sched) Sched
  | 0, s => .ok s
  | n + 1, s =>
    match refresh_access_token_round net s with
    | .error e => .error e
    | .ok s => refresh_access_token net n s

/-- Lines 36-45 of client.go: the client literal NewClient starts from; the store
and the mutex have their zero values. -/
def NewClient.literal (clientID clientSecret username password : String) : Client :=
  { ClientID := clientID
    ClientSecret := clientSecret
    Username := username
    Password := password
    BaseURL := CNBaseURL
    HTTPClient := { Timeout := 10 * Second }
    access_token_resp := AccessTokenResponse.zero
    access_token_resp_lock := RWMutex.zero }

/-- NewClient creates a new TTLock API client: the client it returns, with the
renewal goroutine started on it as `Sched.start`, or the panic. -/
def NewClient (md5hex : String → String) (clientID clientSecret username password : String)
    (send : HTTPRequest → Exchange AccessTokenResponse) : Except Halt Client :=
  let c := NewClient.literal clientID clientSecret username password
  match c.GetAccessToken md5hex send with
  | .error err => .error (.panic ("failed to get access token: " ++ err.Error))
  | .ok tokenResp => c.update_access_token_resp tokenResp

/-- The number of RefreshAccessToken calls in a trace. -/
def countCalls (t : List Event) : Nat :=
  t.countP (fun e => match e with | .RefreshAccessToken _ => true | _ => false)

/-- The number of update_access_token_resp calls in a trace. -/
def countUpdates (t : List Event) : Nat :=
  t.countP (fun e => match e with | .update_access_token_resp _ => true | _ => false)

/-- The trace at the end of a pass or run, whether it returned or halted. -/
def finalTrace : Except (Halt × Sched) Sched → List Event
  | .ok s => s.trace
  | .error (_, s) => s.trace

/-- The trace at the exit of the retry loop, whether it returned or halted. -/
def retryTrace : Except (Halt × Sched) (Option GoError × Sched) → List Event
  | .ok (_, s) => s.trace
  | .error (_, s) => s.trace

/-- A number of consecutive AccessToken calls on a client with nothing in between:
the tokens returned, first call first, and the client state after the last. -/
def Client.AccessTokenTimes : Nat → Client → Except Halt (List String × Client)
  | 0, c => .ok ([], c)
  | n + 1, c =>
    match c.AccessToken with
    | .error h => .error h
    | .ok (token, c) =>
      match Client.AccessTokenTimes n c with
      | .error h => .error h
      | .ok (tokens, c) => .ok (token :: tokens, c)

/-! ## The credential store under concurrent access

One goroutine runs update_access_token_resp while any number of goroutines read
the store, each through AccessToken (lines 68-72 of client.go) or through the
read at the head of refresh_access_token (lines 80-83). A goroutine advances one
statement at a time, and a schedule says whose turn it is. The struct assignment
`c.access_token_resp = resp` is not atomic: it copies one field per step. -/

/-- One step of the assignment `c.access_token_resp = resp`: the k-th field of the
struct, in declaration order, is copied from `src`. -/
def AccessTokenResponse.copyField (k : Nat) (dst src : AccessTokenResponse) :
    AccessTokenResponse :=
  match k with
  | 0 => { dst with AccessToken := src.AccessToken }
  | 1 => { dst with UID := src.UID }
  | 2 => { dst with RefreshToken := src.RefreshToken }
  | 3 => { dst with ExpiresIn := src.ExpiresIn }
  | 4 => { dst with Errcode := src.Errcode }
  | 5 => { dst with Errmsg := src.Errmsg }
  | _ => dst

/-- Where the goroutine running update_access_token_resp stands: before Lock,
inside the assignment with k fields copied, before the deferred Unlock, or back. -/
inductive WriterPC where
  | atLock
  | assigning (k : Nat)
  | atUnlock
  | returned
  deriving DecidableEq

/-- Which read of the store a goroutine performs. -/
inductive ReaderKind where
  | AccessToken
  | refresh_access_token
  deriving DecidableEq

/-- Where a reading goroutine stands: before RLock, before its first field read,
before its second field read, before RUnlock, or back. -/
inductive ReaderPC where
  | atRLock
  | readFirst
  | readSecond
  | atRUnlock
  | returned
  deriving DecidableEq

/-- A reading goroutine and what it has read so far: `result` of AccessToken, or
`expiresIn` and `refreshToken` of refresh_access_token. -/
structure Reader where
  kind : ReaderKind
  pc : ReaderPC
  result : Option String
  expiresIn : Option Int
  refreshToken : Option String
  deriving DecidableEq

/-- A reading goroutine that has not started. -/
def Reader.start (kind : ReaderKind) : Reader :=
  { kind := kind, pc := .atRLock, result := none, expiresIn := none, refreshToken := none }

/-- A reader holds the read lock between its RLock and its RUnlock. -/
def Reader.holdsRLock (r : Reader) : Bool :=
  match r.pc with
  | .readFirst => true
  | .readSecond => true
  | .atRUnlock => true
  | _ => false

/-- The next statement of a reading goroutine, on the current store and mutex; `none`
when it cannot advance (RLock not granted, or it is back). -/
def Reader.step (store : AccessTokenResponse) (lock : RWMutex) (r : Reader) :
    Option (RWMutex × Reader) :=
  match r.pc with
  | .atRLock =>
    match lock.RLock with
    | .ok m => some (m, { r with pc := .readFirst })
    | .error _ => none
  | .readFirst =>
    match r.kind with
    | .AccessToken => some (lock, { r with result := some store.AccessToken, pc := .atRUnlock })
    | .refresh_access_token =>
      some (lock, { r with expiresIn := some store.ExpiresIn, pc := .readSecond })
  | .readSecond =>
    some (lock, { r with refreshToken := some store.RefreshToken, pc := .atRUnlock })
  | .atRUnlock =>
    match lock.RUnlock with
    | .ok m => some (m, { r with pc := .returned })
    | .error _ => none
  | .returned => none

/-- The store, its mutex, and the goroutines working on them. -/
structure Shared where
  store : AccessTokenResponse
  lock : RWMutex
  writer : WriterPC
  readers : List Reader
  deriving DecidableEq

/-- Before anybody has started: the store holds `old`, the mutex is unlocked. -/
def Shared.start (old : AccessTokenResponse) (kinds : List ReaderKind) : Shared :=
  { store := old, lock := RWMutex.zero, writer := .atLock, readers := kinds.map Reader.start }

/-- The next statement of the goroutine running update_access_token_resp(resp). -/
def Shared.stepWriter (resp : AccessTokenResponse) (s : Shared) : Option Shared :=
  match s.writer with
  | .atLock =>
    match s.lock.Lock with
    | .ok m => some { s with lock := m, writer := .assigning 0 }
    | .error _ => none
  | .assigning k =>
    some { s with store := s.store.copyField k resp,
                  writer := if k + 1 < 6 then .assigning (k + 1) else .atUnlock }
  | .atUnlock =>
    match s.lock.Unlock with
    | .ok m => some { s with lock := m, writer := .returned }
    | .error _ => none
  | .returned => none

/-- One turn: goroutine 0 is the writer, goroutine i + 1 the i-th reader. `none`
when that goroutine cannot advance. -/
def Shared.step (resp : AccessTokenResponse) (s : Shared) : Nat → Option Shared
  | 0 => s.stepWriter resp
  | i + 1 =>
    match s.readers[i]? with
    | none => none
    | some r =>
      match r.step s.store s.lock with
      | none => none
      | some (m, r) => some { s with lock := m, readers := s.readers.set i r }

/-- An interleaving: the turns are taken in the order of the schedule; a turn given
to a goroutine that cannot advance changes nothing. -/
def Shared.run (resp : AccessTokenResponse) : List Nat → Shared → Shared
  | [], s => s
  | tid :: rest, s => Shared.run resp rest ((s.step resp tid).getD s)

/-- Everything the reader has read is the value of that field in `cred`. -/
def Reader.readFrom (r : Reader) (cred : AccessTokenResponse) : Prop :=
  (∀ v, r.result = some v → v = cred.AccessToken) ∧
  (∀ v, r.expiresIn = some v → v = cred.ExpiresIn) ∧
  (∀ v, r.refreshToken = some v → v = cred.RefreshToken)

/-! ## Sample inputs -/

/-- A credential as the token endpoint issues it. -/
def sampleCredential (accessToken refreshToken : String) (expiresIn : Int) :
    AccessTokenResponse :=
  { AccessToken := accessToken, UID := 1, RefreshToken := refreshToken, ExpiresIn := expiresIn,
    Errcode := 0, Errmsg := "" }

/-- A client with an unlocked mutex whose store holds the given credential. -/
def sampleClient (resp : AccessTokenResponse) : Client :=
  { NewClient.literal "id" "secret" "user" "password" with access_token_resp := resp }

/-- A stand-in for the hex MD5 digest in sample runs. -/
def sampleDigest (password : String) : String := "md5:" ++ password

/-! ## The invariant of the store under concurrent access -/

/-- The first k fields of `store`, in declaration order, are those of `resp`. -/
def copiedUpTo (k : Nat) (store resp : AccessTokenResponse) : Prop :=
  (0 < k → store.AccessToken = resp.AccessToken) ∧
  (1 < k → store.UID = resp.UID) ∧
  (2 < k → store.RefreshToken = resp.RefreshToken) ∧
  (3 < k → store.ExpiresIn = resp.ExpiresIn) ∧
  (4 < k → store.Errcode = resp.Errcode) ∧
  (5 < k → store.Errmsg = resp.Errmsg)

/-- What the writer's position says about the store and the mutex. -/
def writerInv (old new : AccessTokenResponse) (s : Shared) : Prop :=
  match s.writer with
  | .atLock => s.lock.writer = false ∧ s.store = old
  | .assigning k => s.lock.writer = true ∧ k < 6 ∧ copiedUpTo k s.store new
  | .atUnlock => s.lock.writer = true ∧ s.store = new
  | .returned => s.lock.writer = false ∧ s.store = new

/-- What a reader's position says about what it has read. -/
def readerInv (old new store : AccessTokenResponse) (r : Reader) : Prop :=
  (r.holdsRLock = true → r.readFrom store) ∧
  (r.readFrom old ∨ r.readFrom new) ∧
  (r.pc = .atRLock → r.result = none ∧ r.expiresIn = none ∧ r.refreshToken = none)

/-- The invariant of every interleaving: the mutex counts the readers inside, a
writer inside excludes them, and each reader has read from one credential. -/
structure Shared.Inv (old new : AccessTokenResponse) (s : Shared) : Prop where
  writer : writerInv old new s
  count : s.lock.readers = s.readers.countP Reader.holdsRLock
  exclusive : s.lock.writer = true → s.lock.readers = 0
  readers : ∀ r ∈ s.readers, readerInv old new s.store r


/-- The number of time.Sleep calls in a trace. -/
def countSleeps (t : List Event) : Nat :=
  t.countP (fun e => match e with | .Sleep _ => true | _ => false)

/-! ## feature.go: the feature bits of a lock -/

/-- The Go type LockFeature, an int: the position of a bit. -/
abbrev LockFeature := Int

/-- The value math/big gives a character when it scans a number: 0-9 for the decimal
digits, 10-35 for the letters of either case. -/
def bigDigitVal (ch : Char) : Option Nat :=
  if '0' ≤ ch ∧ ch ≤ '9' then some (ch.toNat - '0'.toNat)
  else if 'a' ≤ ch ∧ ch ≤ 'z' then some (ch.toNat - 'a'.toNat + 10)
  else if 'A' ≤ ch ∧ ch ≤ 'Z' then some (ch.toNat - 'A'.toNat + 10)
  else none

/-- The scan of math/big over base-16 digits, most significant first, continuing from
the value read so far; `none` when a character is not a digit below 16. -/
def bigScanHex : List Char → Nat → Option Nat
  | [], acc => some acc
  | ch :: rest, acc =>
    match bigDigitVal ch with
    | some d => if d < 16 then bigScanHex rest (acc * 16 + d) else none
    | none => none

/-- The call `val.SetString(s, 16)` of math/big: an optional sign, then one or more
base-16 digits up to the end of the string. `none` when the call fails. -/
def bigSetString16 (s : String) : Option Int :=
  match s.data with
  | [] => none
  | '-' :: rest => if rest.isEmpty then none else (bigScanHex rest 0).map (fun n => -(n : Int))
  | '+' :: rest => if rest.isEmpty then none else (bigScanHex rest 0).map (fun n => (n : Int))
  | digits => (bigScanHex digits 0).map (fun n => (n : Int))

/-- The call `val.Bit(i)` of math/big for i not negative: bit i of the two-complement
form of the value. -/
def bigBit (val : Int) (i : Nat) : Nat :=
  if val.testBit i then 1 else 0

/-- HasFeature checks if the given feature value string supports the specified feature.
The result of SetString is not checked: math/big leaves the value undefined when
SetString fails, and `valOnFailure` stands for it. Bit panics on a negative index. -/
def HasFeature (valOnFailure : Int) (featureValue : String) (feature : LockFeature) :
    Except Halt Bool :=
  if featureValue == "" then .ok false
  else
    let val := (bigSetString16 featureValue).getD valOnFailure
    if feature < 0 then .error (.panic "negative bit index")
    else .ok (bigBit val feature.toNat == 1)

/-- The method (*Lock).SupportsFeature. -/
def Lock.SupportsFeature (valOnFailure : Int) (l : Lock) (feature : LockFeature) :
    Except Halt Bool :=
  HasFeature valOnFailure l.FeatureValue feature

/-- The method (*LockDetail).SupportsFeature. -/
def LockDetail.SupportsFeature (valOnFailure : Int) (l : LockDetail) (feature : LockFeature) :
    Except Halt Bool :=
  HasFeature valOnFailure l.FeatureValue feature

/-- The hexadecimal digits as the claim lists them: 0-9, a-f, A-F. -/
def isHexDigit (ch : Char) : Bool :=
  decide (ch ∈ ['0', '1', '2', '3', '4', '5', '6', '7', '8', '9', 'a', 'b', 'c', 'd', 'e', 'f',
    'A', 'B', 'C', 'D', 'E', 'F'])

/-- The value of a hexadecimal digit, read off the table of digits. -/
def hexDigitValue (ch : Char) : Nat :=
  match ch with
  | '0' => 0 | '1' => 1 | '2' => 2 | '3' => 3 | '4' => 4 | '5' => 5 | '6' => 6 | '7' => 7
  | '8' => 8 | '9' => 9
  | 'a' => 10 | 'b' => 11 | 'c' => 12 | 'd' => 13 | 'e' => 14 | 'f' => 15
  | 'A' => 10 | 'B' => 11 | 'C' => 12 | 'D' => 13 | 'E' => 14 | 'F' => 15
  | _ => 0

/-- The natural number a string of hexadecimal digits denotes: the sum of the digit
values, the last digit counting 1, the one before it 16, and so on. -/
def hexNumber (s : String) : Nat :=
  Nat.ofDigits 16 (s.data.reverse.map hexDigitValue)

/-! ## The credential lifecycle -/

/-- The response of the most recent successful token acquisition once the renewal
goroutine started on client `c` has made k round trips: the credential `c` was given at
bootstrap, replaced by the response of each RefreshAccessToken call that succeeds. A
call is made with the refresh token of the credential current at that time. -/
def latestAcquired (net : Nat → HTTPRequest → Exchange AccessTokenResponse) (c : Client) :
    Nat → AccessTokenResponse
  | 0 => c.access_token_resp
  | k + 1 =>
    match c.RefreshAccessToken (latestAcquired net c k).RefreshToken (net k) with
    | .ok r => r
    | .error _ => latestAcquired net c k

/-! ## lock.go, passcode.go: the iterators

An iterator holds a pointer to its client; in the embedding the client it points to
is an argument of Next, in the state it has at the time of the call. A call of Next
returns the client and iterator states it leaves behind, what it returns to the
caller, and, as a record for the proofs, the `(pageNo, pageSize)` of the page request
it made, if it made one. -/

/-- What a call of Next leaves behind and returns: `result` is `.ok none` for
`(nil, nil)`, `.ok (some item)` for `(item, nil)` and `.error err` for `(nil, err)`. -/
structure NextResult (ι α : Type) where
  c : Client
  it : ι
  fetched : List (Int × Int)
  result : Except GoError (Option α)

/-- The Go struct LockIterator, without the `client` pointer. -/
structure LockIterator where
  accessToken : String
  lockAlias : String
  groupId : Int
  pageNo : Int
  pageSize : Int
  items : List Lock
  index : Int
  done : Bool
  deriving DecidableEq

/-- IterateLocks creates a new iterator for locks. -/
def Client.IterateLocks (c : Client) (lockAlias : String) (groupId : Int) :
    Except Halt (Client × LockIterator) := do
  let (accessToken, c) ← c.AccessToken
  pure (c,
    { accessToken := accessToken
      lockAlias := lockAlias
      groupId := groupId
      pageNo := 0
      pageSize := 200
      items := []
      index := 0
      done := false })

/-- Lines 190-192 of lock.go: `item := &it.items[it.index]; it.index++; return item, nil`.
Indexing outside the slice panics. -/
def LockIterator.takeItem (it : LockIterator) (c : Client) (fetched : List (Int × Int)) :
    Except Halt (NextResult LockIterator Lock) :=
  if it.index < 0 then .error (.panic "index out of range")
  else
    match it.items[it.index.toNat]? with
    | none => .error (.panic "index out of range")
    | some item =>
      .ok { c := c, it := { it with index := it.index + 1 }, fetched := fetched,
            result := .ok (some item) }

/-- Next returns the next lock in the iterator. -/
def LockIterator.Next (it : LockIterator) (c : Client) (now : Int)
    (send : HTTPRequest → Exchange LockListResponse) :
    Except Halt (NextResult LockIterator Lock) :=
  if it.index ≥ it.items.length then
    if it.done then .ok { c := c, it := it, fetched := [], result := .ok none }
    else
      let it := { it with pageNo := it.pageNo + 1 }
      let fetched := [(it.pageNo, it.pageSize)]
      match c.GetLockList it.pageNo it.pageSize it.lockAlias it.groupId now send with
      | .error h => .error h
      | .ok (c, .error err) => .ok { c := c, it := it, fetched := fetched, result := .error err }
      | .ok (c, .ok resp) =>
        if resp.List.length = 0 then
          .ok { c := c, it := { it with done := true }, fetched := fetched, result := .ok none }
        else
          let it := { it with items := resp.List, index := 0 }
          let it := if it.pageNo ≥ resp.Pages then { it with done := true } else it
          it.takeItem c fetched
  else it.takeItem c []

/-- A number of successive Next calls on one iterator, the j-th at time `clock j`, the
client being left alone in between: the states left behind, the page requests made
and the results returned, in order. -/
def LockIterator.NextTimes (send : HTTPRequest → Exchange LockListResponse) :
    Nat → (Nat → Int) → Client → LockIterator →
    Except Halt (Client × LockIterator × List (Int × Int) × List (Except GoError (Option Lock)))
  | 0, _, c, it => .ok (c, it, [], [])
  | m + 1, clock, c, it =>
    match it.Next c (clock 0) send with
    | .error h => .error h
    | .ok r =>
      match LockIterator.NextTimes send m (fun j => clock (j + 1)) r.c r.it with
      | .error h => .error h
      | .ok (c, it, fetched, results) => .ok (c, it, r.fetched ++ fetched, r.result :: results)

/-- The Go struct PasscodeIterator, without the `client` pointer. -/
structure PasscodeIterator where
  accessToken : String
  lockID : Int
  orderBy : Int
  searchStr : String
  pageNo : Int
  pageSize : Int
  items : List Passcode
  index : Int
  done : Bool
  deriving DecidableEq

/-- IteratePasscodes creates a new iterator for passcodes. -/
def Client.IteratePasscodes (c : Client) (lockID : Int) (orderBy : Int) (searchStr : String) :
    Except Halt (Client × PasscodeIterator) := do
  let (accessToken, c) ← c.AccessToken
  pure (c,
    { accessToken := accessToken
      lockID := lockID
      orderBy := orderBy
      searchStr := searchStr
      pageNo := 0
      pageSize := 200
      items := []
      index := 0
      done := false })

/-- Lines 205-207 of passcode.go: `item := &it.items[it.index]; it.index++; return item, nil`.
Indexing outside the slice panics. -/
def PasscodeIterator.takeItem (it : PasscodeIterator) (c : Client)
    (fetched : List (Int × Int)) : Except Halt (NextResult PasscodeIterator Passcode) :=
  if it.index < 0 then .error (.panic "index out of range")
  else
    match it.items[it.index.toNat]? with
    | none => .error (.panic "index out of range")
    | some item =>
      .ok { c := c, it := { it with index := it.index + 1 }, fetched := fetched,
            result := .ok (some item) }

/-- Next returns the next passcode in the iterator. -/
def PasscodeIterator.Next (it : PasscodeIterator) (c : Client) (now : Int)
    (send : HTTPRequest → Exchange PasscodeListResponse) :
    Except Halt (NextResult PasscodeIterator Passcode) :=
  if it.index ≥ it.items.length then
    if it.done then .ok { c := c, it := it, fetched := [], result := .ok none }
    else
      let it := { it with pageNo := it.pageNo + 1 }
      let fetched := [(it.pageNo, it.pageSize)]
      match c.GetPasscodeList it.lockID it.pageNo it.pageSize it.orderBy it.searchStr now
          send with
      | .error h => .error h
      | .ok (c, .error err) => .ok { c := c, it := it, fetched := fetched, result := .error err }
      | .ok (c, .ok resp) =>
        if resp.List.length = 0 then
          .ok { c := c, it := { it with done := true }, fetched := fetched, result := .ok none }
        else
          let it := { it with items := resp.List, index := 0 }
          let it := if it.pageNo ≥ resp.Pages then { it with done := true } else it
          it.takeItem c fetched
  else it.takeItem c []

/-- A number of successive Next calls on one iterator, the j-th at time `clock j`, the
client being left alone in between: the states left behind, the page requests made
and the results returned, in order. -/
def PasscodeIterator.NextTimes (send : HTTPRequest → Exchange PasscodeListResponse) :
    Nat → (Nat → Int) → Client → PasscodeIterator →
    Except Halt
      (Client × PasscodeIterator × List (Int × Int) × List (Except GoError (Option Passcode)))
  | 0, _, c, it => .ok (c, it, [], [])
  | m + 1, clock, c, it =>
    match it.Next c (clock 0) send with
    | .error h => .error h
    | .ok r =>
      match PasscodeIterator.NextTimes send m (fun j => clock (j + 1)) r.c r.it with
      | .error h => .error h
      | .ok (c, it, fetched, results) => .ok (c, it, r.fetched ++ fetched, r.result :: results)

/-! ## A paged listing as the iterators see it -/

/-- The items of pages k + 1, ..., n, in order, `pages j` being the list of page j. -/
def pagedItems {α : Type} (pages : Nat → List α) (k n : Nat) : List α :=
  (List.range' (k + 1) (n - k)).flatMap pages

/-- The page requests for pages k + 1, ..., n, in order, each with page size 200. -/
def pagedRequests (k n : Nat) : List (Int × Int) :=
  (List.range' (k + 1) (n - k)).map (fun (j : Nat) => ((j : Int), (200 : Int)))

/-- An iterator of IterateLocks that has requested the first k of n pages. -/
structure LockIterator.Paging (lockAlias : String) (groupId : Int) (n k : Nat)
    (it : LockIterator) : Prop where
  pageNo : it.pageNo = k
  le : k ≤ n
  pageSize : it.pageSize = 200
  lockAlias : it.lockAlias = lockAlias
  groupId : it.groupId = groupId
  index_nonneg : 0 ≤ it.index
  index_le : it.index ≤ it.items.length
  done : it.done = decide (n ≤ k)

/-- An iterator of IteratePasscodes that has requested the first k of n pages. -/
structure PasscodeIterator.Paging (lockID orderBy : Int) (searchStr : String) (n k : Nat)
    (it : PasscodeIterator) : Prop where
  pageNo : it.pageNo = k
  le : k ≤ n
  pageSize : it.pageSize = 200
  lockID : it.lockID = lockID
  orderBy : it.orderBy = orderBy
  searchStr : it.searchStr = searchStr
  index_nonneg : 0 ≤ it.index
  index_le : it.index ≤ it.items.length
  done : it.done = decide (n ≤ k)

/-! ## A sample paged listing -/

/-- A lock with the given id. -/
def sampleLock (lockID : Int) : Lock :=
  { LockID := lockID, LockName := "", LockAlias := "", LockMac := "", ElectricQuantity := 0,
    FeatureValue := "", HasGateway := 0, LockData := "", GroupID := 0, GroupName := "",
    Date := 0 }

/-- A listing of three locks on two pages: page 1 holds locks 1 and 2, page 2 lock 3. -/
def sampleLockPage (k : Nat) : LockListResponse :=
  { List := if k = 1 then [sampleLock 1, sampleLock 2] else [sampleLock 3]
    PageNo := k, PageSize := 200, Pages := 2, Total := 3, Errcode := 0, Errmsg := "" }

/-- A server of the sample listing: it answers by the pageNo parameter. -/
def sampleLockServer (q : HTTPRequest) : Exchange LockListResponse :=
  if q.Params.Get "pageNo" = some "1" then .decoded (sampleLockPage 1)
  else if q.Params.Get "pageNo" = some "2" then .decoded (sampleLockPage 2)
  else .sendError "no such page"

/-- A passcode with the given id. -/
def samplePasscode (keyboardPwdID : Int) : Passcode :=
  { KeyboardPwdID := keyboardPwdID, LockID := 7, KeyboardPwd := "", KeyboardPwdName := "",
    KeyboardPwdType := 2, StartDate := 0, EndDate := 0, SendDate := 0, IsCustom := 0,
    SenderUsername := "" }

/-- A listing of two passcodes on one page. -/
def samplePasscodePage (k : Nat) : PasscodeListResponse :=
  { List := [samplePasscode 1, samplePasscode 2]
    PageNo := k, PageSize := 200, Pages := 1, Total := 2, Errcode := 0, Errmsg := "" }

/-- A server of the sample passcode listing. -/
def samplePasscodeServer (q : HTTPRequest) : Exchange PasscodeListResponse :=
  if q.Params.Get "pageNo" = some "1" then .decoded (samplePasscodePage 1)
  else .sendError "no such page"

/-! ## refresh_access_token, one statement at a time

The renewal goroutine as a step machine, with the mutex of the store in the client
state: each position is the statement the goroutine is at, and a step executes it.
The goroutine runs on its own, so what the mutex shows is what the goroutine holds. -/

/-- The statement of client.go the renewal goroutine is at. -/
inductive SchedPC where
  | atRLock
  | readExpiresIn
  | readRefreshToken
  | atRUnlock
  | setInterval
  | sleeping
  | loopTest
  | calling
  | afterCall
  | logging
  | pausing
  | updateLock
  | updateAssign
  | updateUnlock
  | clearErr
  | afterLoop
  | panicked
  deriving DecidableEq

/-- The goroutine between two statements: its position, the client, the number of
round trips made, and its local variables. -/
structure SchedState where
  pc : SchedPC
  c : Client
  calls : Nat
  expiresIn : Int
  refreshToken : String
  refreshInterval : Int
  i : Int
  err : Option GoError
  retryErr : Option GoError
  newTokenResp : AccessTokenResponse
  deriving DecidableEq

/-- The goroutine as `go c.refresh_access_token()` starts it. -/
def SchedState.start (c : Client) : SchedState :=
  { pc := .atRLock, c := c, calls := 0, expiresIn := 0, refreshToken := "",
    refreshInterval := 0, i := 0, err := none, retryErr := none,
    newTokenResp := AccessTokenResponse.zero }

/-- One statement of refresh_access_token, lines 80-114 of client.go, the body of
update_access_token_resp (lines 62-64) included. `none` when the goroutine cannot
advance: it has panicked, or the mutex is not granted. -/
def SchedState.step (net : Nat → HTTPRequest → Exchange AccessTokenResponse)
    (s : SchedState) : Option SchedState :=
  match s.pc with
  | .atRLock =>
    match s.c.access_token_resp_lock.RLock with
    | .ok m => some { s with c := { s.c with access_token_resp_lock := m },
                             pc := .readExpiresIn }
    | .error _ => none
  | .readExpiresIn =>
    some { s with expiresIn := s.c.access_token_resp.ExpiresIn, pc := .readRefreshToken }
  | .readRefreshToken =>
    some { s with refreshToken := s.c.access_token_resp.RefreshToken, pc := .atRUnlock }
  | .atRUnlock =>
    match s.c.access_token_resp_lock.RUnlock with
    | .ok m => some { s with c := { s.c with access_token_resp_lock := m },
                             pc := .setInterval }
    | .error _ => none
  | .setInterval =>
    some { s with refreshInterval := TTLock.refreshInterval s.expiresIn, pc := .sleeping }
  | .sleeping =>
    some { s with err := none, i := 0, pc := .loopTest }
  | .loopTest =>
    if s.i < 3 then some { s with pc := .calling } else some { s with pc := .afterLoop }
  | .calling =>
    match s.c.RefreshAccessToken s.refreshToken (net s.calls) with
    | .error retryErr =>
      some { s with calls := s.calls + 1, retryErr := some retryErr, pc := .afterCall }
    | .ok newTokenResp =>
      some { s with calls := s.calls + 1, retryErr := none, newTokenResp := newTokenResp,
                    pc := .afterCall }
  | .afterCall =>
    match s.retryErr with
    | some _ => some { s with pc := .logging }
    | none => some { s with pc := .updateLock }
  | .logging =>
    some { s with err := s.retryErr, pc := .pausing }
  | .pausing =>
    some { s with i := s.i + 1, pc := .loopTest }
  | .updateLock =>
    match s.c.access_token_resp_lock.Lock with
    | .ok m => some { s with c := { s.c with access_token_resp_lock := m },
                             pc := .updateAssign }
    | .error _ => none
  | .updateAssign =>
    some { s with c := { s.c with access_token_resp := s.newTokenResp }, pc := .updateUnlock }
  | .updateUnlock =>
    match s.c.access_token_resp_lock.Unlock with
    | .ok m => some { s with c := { s.c with access_token_resp_lock := m }, pc := .clearErr }
    | .error _ => none
  | .clearErr =>
    some { s with err := none, pc := .afterLoop }
  | .afterLoop =>
    match s.err with
    | some _ => some { s with pc := .panicked }
    | none => some { s with pc := .atRLock }
  | .panicked => none

/-- The goroutine after a number of steps; a step that cannot be taken leaves it where
it is. -/
def SchedState.run (net : Nat → HTTPRequest → Exchange AccessTokenResponse) :
    Nat → SchedState → SchedState
  | 0, s => s
  | n + 1, s => SchedState.run net n ((s.step net).getD s)

/-- What the goroutine holds of the mutex at each position: the read lock from after
RLock to RUnlock, the write lock from after Lock to Unlock, nothing elsewhere. -/
def SchedPC.holds : SchedPC → RWMutex
  | .readExpiresIn => { readers := 1, writer := false }
  | .readRefreshToken => { readers := 1, writer := false }
  | .atRUnlock => { readers := 1, writer := false }
  | .updateAssign => { readers := 0, writer := true }
  | .updateUnlock => { readers := 0, writer := true }
  | _ => RWMutex.zero

/-! ## errors.go: the named conditions -/

/-- The ErrorCode constants declared in errors.go, lines 8-81, in the order of their
declarations. -/
def namedErrorCodes : List ErrorCode :=
  [ErrOperationFailed, ErrClientIDNotExist, ErrInvalidClient, ErrTokenNotExist,
   ErrTokenUnauthorized, ErrInvalidUsernameOrPass, ErrInvalidRefreshToken, ErrNotLockAdmin,
   ErrInvalidUsernameFormat, ErrUserAlreadyExists, ErrInvalidDeleteUserID, ErrPasswordMustBeMD5,
   ErrRateLimitExceeded, ErrInvalidRequestTime, ErrInvalidJSONFormat, ErrSystemInternalError,
   ErrInvalidParameter, ErrPermissionDenied, ErrDeleteOrTransferLocks, ErrLockNotExist,
   ErrLockFrozen, ErrCannotTransferLockToSelf, ErrLockOperationNotSupported, ErrStorageFull,
   ErrNBDeviceNotRegistered, ErrAutoLockTimeLimitExceeded, ErrKeyNotExist, ErrGroupNameExists,
   ErrGroupNotExist, ErrAccountBoundCannotReceiveKey, ErrCannotSendKeyToSelf,
   ErrCannotSendKeyToAdmin, ErrCannotModifyKeyValidity, ErrReceiverNotRegistered,
   ErrLockNoPasscodeData, ErrPasscodeNotExist, ErrInvalidPasscodeLength, ErrPasscodeAlreadyExists,
   ErrCannotModifyUnusedPasscode, ErrCustomPasscodeSpaceFull, ErrNoAvailableGateway,
   ErrGatewayOffline, ErrGatewayBusy, ErrCannotTransferGatewayToSelf, ErrWifiLockNotConfigured,
   ErrWifiInPowerSavingMode, ErrLockOffline, ErrLockBusy, ErrGatewayNotExist, ErrICCardNotExist,
   ErrFingerprintNotExist]

/-! ## What the renewal goroutine has read of the store -/

/-- What the local variables of the goroutine hold at each position: from the read at
the head of the pass until the store is assigned, `expiresIn` and `refreshToken`
are the ExpiresIn and RefreshToken of the store, and from the statement after the
computation of the interval on, `refreshInterval` is the interval of that ExpiresIn. -/
def SchedState.readOfStore (s : SchedState) : Prop :=
  match s.pc with
  | .atRLock => True
  | .readExpiresIn => True
  | .readRefreshToken => s.expiresIn = s.c.access_token_resp.ExpiresIn
  | .atRUnlock =>
    s.expiresIn = s.c.access_token_resp.ExpiresIn ∧
    s.refreshToken = s.c.access_token_resp.RefreshToken
  | .setInterval =>
    s.expiresIn = s.c.access_token_resp.ExpiresIn ∧
    s.refreshToken = s.c.access_token_resp.RefreshToken
  | .sleeping =>
    s.expiresIn = s.c.access_token_resp.ExpiresIn ∧
    s.refreshToken = s.c.access_token_resp.RefreshToken ∧
    s.refreshInterval = TTLock.refreshInterval s.c.access_token_resp.ExpiresIn
  | .loopTest =>
    s.expiresIn = s.c.access_token_resp.ExpiresIn ∧
    s.refreshToken = s.c.access_token_resp.RefreshToken
  | .calling =>
    s.expiresIn = s.c.access_token_resp.ExpiresIn ∧
    s.refreshToken = s.c.access_token_resp.RefreshToken
  | .afterCall =>
    s.expiresIn = s.c.access_token_resp.ExpiresIn ∧
    s.refreshToken = s.c.access_token_resp.RefreshToken
  | .logging =>
    s.expiresIn = s.c.access_token_resp.ExpiresIn ∧
    s.refreshToken = s.c.access_token_resp.RefreshToken
  | .pausing =>
    s.expiresIn = s.c.access_token_resp.ExpiresIn ∧
    s.refreshToken = s.c.access_token_resp.RefreshToken
  | .updateLock => True
  | .updateAssign => True
  | .updateUnlock => True
  | .clearErr => True
  | .afterLoop => True
  | .panicked => True

/-! ## Sample iterators -/

/-- The iterator IterateLocks makes on the sample client: nothing fetched yet. -/
def sampleLockIterator : LockIterator :=
  { accessToken := "a", lockAlias := "", groupId := 0, pageNo := 0, pageSize := 200,
    items := [], index := 0, done := false }

/-- The iterator IteratePasscodes makes on the sample client for lock 7. -/
def samplePasscodeIterator : PasscodeIterator :=
  { accessToken := "a", lockID := 7, orderBy := 0, searchStr := "", pageNo := 0,
    pageSize := 200, items := [], index := 0, done := false }

/-- The sample iterator once the two locks of page 1 have been returned: page 1 is
buffered and used up, page 2 is still to come. -/
def sampleLockIteratorPage1 : LockIterator :=
  { accessToken := "a", lockAlias := "", groupId := 0, pageNo := 1, pageSize := 200,
    items := [sampleLock 1, sampleLock 2], index := 2, done := false }

/-- A server of the sample listing that serves only the requests stamped with the given
access token. -/
def sampleLockServerFor (accessToken : String) (q : HTTPRequest) : Exchange LockListResponse :=
  if q.Params.Get "accessToken" = some accessToken then sampleLockServer q
  else .sendError "invalid access token"

/-! ## Lemmas on the mutex and the store -/

theorem RWMutex.RLock_RUnlock (m : RWMutex) (hw : m.writer = false) :
    m.RLock = .ok { m with readers := m.readers + 1 } ∧
    RWMutex.RUnlock { m with readers := m.readers + 1 } = .ok m := by
  cases m with
  | mk readers writer =>
    simp only at hw
    subst hw
    simp [RWMutex.RLock, RWMutex.RUnlock]

theorem Client.AccessToken_of_not_writer (c : Client)
    (hw : c.access_token_resp_lock.writer = false) :
    c.AccessToken = .ok (c.access_token_resp.AccessToken, c) := by
  obtain ⟨h1, h2⟩ := RWMutex.RLock_RUnlock c.access_token_resp_lock hw
  simp only [Client.AccessToken, h1, bind, Except.bind, h2, pure, Except.pure]

theorem Client.AccessToken_blocked (c : Client)
    (hw : c.access_token_resp_lock.writer = true) :
    c.AccessToken = .error .blocked := by
  simp [Client.AccessToken, RWMutex.RLock, hw, bind, Except.bind]

theorem Client.update_access_token_resp_of_free (c : Client) (resp : AccessTokenResponse)
    (hfree : c.access_token_resp_lock = RWMutex.zero) :
    c.update_access_token_resp resp = .ok { c with access_token_resp := resp } := by
  cases c with
  | mk a b d e f g store lock =>
    simp only at hfree
    subst hfree
    simp [Client.update_access_token_resp, RWMutex.Lock, RWMutex.Unlock, RWMutex.zero, bind,
      Except.bind, pure, Except.pure]

theorem Client.update_access_token_resp_ok_iff (c c' : Client) (resp : AccessTokenResponse) :
    c.update_access_token_resp resp = .ok c' ↔
      c.access_token_resp_lock = RWMutex.zero ∧ c' = { c with access_token_resp := resp } := by
  constructor
  · intro h
    cases c with
    | mk a b d e f g store lock =>
      cases lock with
      | mk readers writer =>
        cases writer with
        | true =>
          simp [Client.update_access_token_resp, RWMutex.Lock, bind, Except.bind] at h
        | false =>
          by_cases hr : readers = 0
          · subst hr
            simp [Client.update_access_token_resp, RWMutex.Lock, RWMutex.Unlock, bind,
              Except.bind, pure, Except.pure] at h
            simp [RWMutex.zero, ← h]
          · simp [Client.update_access_token_resp, RWMutex.Lock, bind, Except.bind, hr] at h
  · rintro ⟨hfree, rfl⟩
    exact Client.update_access_token_resp_of_free c resp hfree

/-! ## Lemmas on the renewal goroutine -/

theorem refresh_access_token_retry_fail
    (net : Nat → HTTPRequest → Exchange AccessTokenResponse) (refreshToken : String)
    (i : Int) (rest : List Int) (err : Option GoError) (c : Client) (k : Nat)
    (t : List Event) (e : GoError)
    (h : c.RefreshAccessToken refreshToken (net k) = .error e) :
    refresh_access_token_retry net refreshToken (i :: rest) err { c := c, calls := k, trace := t } =
      refresh_access_token_retry net refreshToken rest (some e)
        { c := c, calls := k + 1,
          trace := t ++ [.RefreshAccessToken refreshToken] ++
            [.Printf ("failed to refresh access token (attempt " ++ toString (i + 1) ++ "): "
              ++ e.Error ++ "\n"), .Sleep (2 * Second)] } := by
  simp only [refresh_access_token_retry, h]

theorem refresh_access_token_retry_ok
    (net : Nat → HTTPRequest → Exchange AccessTokenResponse) (refreshToken : String)
    (i : Int) (rest : List Int) (err : Option GoError) (c : Client) (k : Nat)
    (t : List Event) (r : AccessTokenResponse)
    (h : c.RefreshAccessToken refreshToken (net k) = .ok r)
    (hfree : c.access_token_resp_lock = RWMutex.zero) :
    refresh_access_token_retry net refreshToken (i :: rest) err { c := c, calls := k, trace := t } =
      .ok (none,
        { c := { c with access_token_resp := r }, calls := k + 1,
          trace := t ++ [.RefreshAccessToken refreshToken] ++
            [.update_access_token_resp r] }) := by
  simp only [refresh_access_token_retry, h,
    Client.update_access_token_resp_of_free c r hfree]

theorem refresh_access_token_round_eq
    (net : Nat → HTTPRequest → Exchange AccessTokenResponse) (s : Sched)
    (hw : s.c.access_token_resp_lock.writer = false) :
    refresh_access_token_round net s =
      match refresh_access_token_retry net s.c.access_token_resp.RefreshToken [0, 1, 2] none
          { s with trace := s.trace ++ [.Sleep (refreshInterval s.c.access_token_resp.ExpiresIn)] }
      with
      | .error e => .error e
      | .ok (some err, s) =>
        .error (.panic ("failed to refresh access token after 3 attempts: " ++ err.Error), s)
      | .ok (none, s) => .ok s := by
  obtain ⟨h1, h2⟩ := RWMutex.RLock_RUnlock s.c.access_token_resp_lock hw
  simp only [refresh_access_token_round, h1, h2]

/-- The retry loop only ever appends to the trace. -/
theorem refresh_access_token_retry_trace
    (net : Nat → HTTPRequest → Exchange AccessTokenResponse) (refreshToken : String)
    (l : List Int) (err : Option GoError) (s : Sched) :
    ∃ rest, retryTrace (refresh_access_token_retry net refreshToken l err s) = s.trace ++ rest := by
  induction l generalizing err s with
  | nil => exact ⟨[], by simp [refresh_access_token_retry, retryTrace]⟩
  | cons i rest ih =>
    cases h : s.c.RefreshAccessToken refreshToken (net s.calls) with
    | error e =>
      rw [show s = { c := s.c, calls := s.calls, trace := s.trace } from rfl,
        refresh_access_token_retry_fail net refreshToken i rest err s.c s.calls s.trace e h]
      obtain ⟨t, ht⟩ := ih (some e)
        { c := s.c, calls := s.calls + 1,
          trace := s.trace ++ [.RefreshAccessToken refreshToken] ++
            [.Printf ("failed to refresh access token (attempt " ++ toString (i + 1) ++ "): "
              ++ e.Error ++ "\n"), .Sleep (2 * Second)] }
      exact ⟨[.RefreshAccessToken refreshToken] ++
        ([.Printf ("failed to refresh access token (attempt " ++ toString (i + 1) ++ "): "
          ++ e.Error ++ "\n"), .Sleep (2 * Second)] ++ t), by rw [ht]; simp only [List.append_assoc]⟩
    | ok r =>
      simp only [refresh_access_token_retry, h]
      cases hu : s.c.update_access_token_resp r with
      | error h' => exact ⟨[.RefreshAccessToken refreshToken], by simp [retryTrace]⟩
      | ok c' =>
        exact ⟨[.RefreshAccessToken refreshToken] ++ [.update_access_token_resp r],
          by simp only [retryTrace, List.append_assoc]⟩

/-- A pass that gets the read lock sleeps first, for the interval computed from the
stored ExpiresIn. -/
theorem refresh_access_token_round_sleeps
    (net : Nat → HTTPRequest → Exchange AccessTokenResponse) (s : Sched)
    (hw : s.c.access_token_resp_lock.writer = false) :
    ∃ rest, finalTrace (refresh_access_token_round net s) =
      s.trace ++ .Sleep (refreshInterval s.c.access_token_resp.ExpiresIn) :: rest := by
  rw [refresh_access_token_round_eq net s hw]
  obtain ⟨t, ht⟩ := refresh_access_token_retry_trace net s.c.access_token_resp.RefreshToken
    [0, 1, 2] none
    { s with trace := s.trace ++ [.Sleep (refreshInterval s.c.access_token_resp.ExpiresIn)] }
  refine ⟨t, ?_⟩
  generalize refresh_access_token_retry net s.c.access_token_resp.RefreshToken [0, 1, 2] none
    { s with trace := s.trace ++ [.Sleep (refreshInterval s.c.access_token_resp.ExpiresIn)] }
    = res at ht
  rcases res with ⟨h, s1⟩ | ⟨_ | e, s1⟩ <;>
    simpa [finalTrace, retryTrace] using ht

/-! ## The refresh interval -/

theorem wrapInt64_of_inRange (x : Int) (hlo : minInt64 ≤ x) (hhi : x ≤ maxInt64) :
    wrapInt64 x = x := by
  unfold wrapInt64
  unfold minInt64 at hlo
  unfold maxInt64 at hhi
  rw [Int.emod_eq_of_lt (by omega) (by omega)]
  omega

/-- Where the product ExpiresIn / 2 * time.Second fits an int64, the interval is the
smaller of ExpiresIn / 2 seconds and 24 hours. -/
theorem refreshInterval_eq_min_of_inRange (expiresIn : Int)
    (hlo : minInt64 ≤ goDiv expiresIn 2 * Second) (hhi : goDiv expiresIn 2 * Second ≤ maxInt64) :
    refreshInterval expiresIn = min (goDiv expiresIn 2 * Second) (24 * Hour) := by
  unfold refreshInterval
  simp only [wrapInt64_of_inRange _ hlo hhi]
  split
  · rw [min_eq_right (by omega)]
  · rw [min_eq_left (by omega)]

/-- C1, evaluated where it fails: the store holds ExpiresIn = 18446744074. Half of it,
9223372037 seconds, is more than 24 hours, so the interval the source comment and the
claim give is 24 hours; the int64 product wraps to a negative duration, which the
loop passes to time.Sleep. -/
theorem C1_refreshInterval_wraps_on_large_ExpiresIn :
    refreshInterval 18446744074 = -9223372036709551616 ∧
    min (goDiv 18446744074 2 * Second) (24 * Hour) = 24 * Hour ∧
    refreshInterval 18446744074 ≠ min (goDiv 18446744074 2 * Second) (24 * Hour) ∧
    (finalTrace (refresh_access_token_round (fun _ _ => .sendError "timeout")
      (Sched.start (sampleClient (sampleCredential "a" "r" 18446744074))))).head? =
      some (.Sleep (-9223372036709551616)) := by
  refine ⟨by decide, by decide, by decide, by rfl⟩

/-- C2: with ExpiresIn = 7200 in the store the pass of the renewal loop sleeps exactly
3600 seconds, and with ExpiresIn = 200000 exactly 86400 seconds, the 24-hour cap. -/
theorem C2_sleep_of_7200_and_200000
    (net : Nat → HTTPRequest → Exchange AccessTokenResponse) (s : Sched)
    (hw : s.c.access_token_resp_lock.writer = false) :
    (s.c.access_token_resp.ExpiresIn = 7200 →
      ∃ rest, finalTrace (refresh_access_token_round net s) =
        s.trace ++ .Sleep (3600 * Second) :: rest) ∧
    (s.c.access_token_resp.ExpiresIn = 200000 →
      ∃ rest, finalTrace (refresh_access_token_round net s) =
        s.trace ++ .Sleep (86400 * Second) :: rest) ∧
    refreshInterval 7200 = 3600 * Second ∧
    refreshInterval 200000 = 86400 * Second ∧
    86400 * Second = 24 * Hour := by
  have h1 : refreshInterval 7200 = 3600 * Second := by decide
  have h2 : refreshInterval 200000 = 86400 * Second := by decide
  refine ⟨?_, ?_, h1, h2, by decide⟩
  · intro h
    have := refresh_access_token_round_sleeps net s hw
    rwa [h, h1] at this
  · intro h
    have := refresh_access_token_round_sleeps net s hw
    rwa [h, h2] at this

theorem C2_sleep_of_7200_and_200000_witness :
    (∃ rest, finalTrace (refresh_access_token_round (fun _ _ => .sendError "timeout")
        (Sched.start (sampleClient (sampleCredential "a" "r" 7200)))) =
        [] ++ .Sleep (3600 * Second) :: rest) ∧
    (∃ rest, finalTrace (refresh_access_token_round (fun _ _ => .sendError "timeout")
        (Sched.start (sampleClient (sampleCredential "a" "r" 200000)))) =
        [] ++ .Sleep (86400 * Second) :: rest) :=
  ⟨(C2_sleep_of_7200_and_200000 (fun _ _ => .sendError "timeout")
      (Sched.start (sampleClient (sampleCredential "a" "r" 7200))) (by decide)).1 (by decide),
   (C2_sleep_of_7200_and_200000 (fun _ _ => .sendError "timeout")
      (Sched.start (sampleClient (sampleCredential "a" "r" 200000))) (by decide)).2.1
      (by decide)⟩

/-! ## The retry budget -/

/-- C3: in a pass where every RefreshAccessToken call fails, exactly 3 calls are made
(each with the refresh token read at the start, each followed by a log line and a
2-second sleep), the store is left as it was, the pass ends in the panic, and however
long the loop is observed the outcome is that one panic: nothing follows it. -/
theorem C3_three_failures_then_one_panic
    (net : Nat → HTTPRequest → Exchange AccessTokenResponse) (s : Sched)
    (hw : s.c.access_token_resp_lock.writer = false)
    (hfail : ∀ k, k < 3 → ∃ e,
      s.c.RefreshAccessToken s.c.access_token_resp.RefreshToken (net (s.calls + k)) = .error e) :
    ∃ e0 e1 e2 : GoError, ∃ s1 : Sched,
      s.c.RefreshAccessToken s.c.access_token_resp.RefreshToken (net s.calls) = .error e0 ∧
      s.c.RefreshAccessToken s.c.access_token_resp.RefreshToken (net (s.calls + 1)) = .error e1 ∧
      s.c.RefreshAccessToken s.c.access_token_resp.RefreshToken (net (s.calls + 2)) = .error e2 ∧
      refresh_access_token_round net s =
        .error (.panic ("failed to refresh access token after 3 attempts: " ++ e2.Error), s1) ∧
      s1.c = s.c ∧
      s1.calls = s.calls + 3 ∧
      s1.trace = s.trace ++
        [.Sleep (refreshInterval s.c.access_token_resp.ExpiresIn),
         .RefreshAccessToken s.c.access_token_resp.RefreshToken,
         .Printf ("failed to refresh access token (attempt 1): " ++ e0.Error ++ "\n"),
         .Sleep (2 * Second),
         .RefreshAccessToken s.c.access_token_resp.RefreshToken,
         .Printf ("failed to refresh access token (attempt 2): " ++ e1.Error ++ "\n"),
         .Sleep (2 * Second),
         .RefreshAccessToken s.c.access_token_resp.RefreshToken,
         .Printf ("failed to refresh access token (attempt 3): " ++ e2.Error ++ "\n"),
         .Sleep (2 * Second)] ∧
      countCalls s1.trace = countCalls s.trace + 3 ∧
      countUpdates s1.trace = countUpdates s.trace ∧
      ∀ n, refresh_access_token net (n + 1) s =
        .error (.panic ("failed to refresh access token after 3 attempts: " ++ e2.Error), s1) := by
  obtain ⟨e0, h0⟩ := hfail 0 (by decide)
  obtain ⟨e1, h1⟩ := hfail 1 (by decide)
  obtain ⟨e2, h2⟩ := hfail 2 (by decide)
  rw [Nat.add_zero] at h0
  have hround := refresh_access_token_round_eq net s hw
  rw [refresh_access_token_retry_fail net _ 0 [1, 2] none _ _ _ e0 h0,
    refresh_access_token_retry_fail net _ 1 [2] (some e0) _ _ _ e1 h1,
    refresh_access_token_retry_fail net _ 2 [] (some e1) _ _ _ e2 h2] at hround
  simp only [refresh_access_token_retry] at hround
  have a1 : "failed to refresh access token (attempt " ++ toString ((0 : Int) + 1) ++ "): " =
      "failed to refresh access token (attempt 1): " := by decide
  have a2 : "failed to refresh access token (attempt " ++ toString ((1 : Int) + 1) ++ "): " =
      "failed to refresh access token (attempt 2): " := by decide
  have a3 : "failed to refresh access token (attempt " ++ toString ((2 : Int) + 1) ++ "): " =
      "failed to refresh access token (attempt 3): " := by decide
  rw [a1, a2, a3] at hround
  refine ⟨e0, e1, e2, _, h0, h1, h2, hround, rfl, rfl, ?_, ?_, ?_, ?_⟩
  · simp only [List.append_assoc, List.cons_append, List.nil_append]
  · simp [countCalls, List.countP_append, List.countP_cons]
  · simp [countUpdates, List.countP_append, List.countP_cons]
  · intro n
    simp only [refresh_access_token, hround]

theorem C3_three_failures_then_one_panic_witness :
    ∃ e0 e1 e2 : GoError, ∃ s1 : Sched,
      (sampleClient (sampleCredential "a" "r" 7200)).RefreshAccessToken "r"
        (fun _ => .sendError "timeout") = .error e0 ∧
      (sampleClient (sampleCredential "a" "r" 7200)).RefreshAccessToken "r"
        (fun _ => .sendError "timeout") = .error e1 ∧
      (sampleClient (sampleCredential "a" "r" 7200)).RefreshAccessToken "r"
        (fun _ => .sendError "timeout") = .error e2 ∧
      refresh_access_token_round (fun _ _ => .sendError "timeout")
        (Sched.start (sampleClient (sampleCredential "a" "r" 7200))) =
        .error (.panic ("failed to refresh access token after 3 attempts: " ++ e2.Error), s1) ∧
      s1.c = sampleClient (sampleCredential "a" "r" 7200) ∧
      s1.calls = 0 + 3 ∧
      s1.trace = [] ++
        [.Sleep (refreshInterval 7200),
         .RefreshAccessToken "r",
         .Printf ("failed to refresh access token (attempt 1): " ++ e0.Error ++ "\n"),
         .Sleep (2 * Second),
         .RefreshAccessToken "r",
         .Printf ("failed to refresh access token (attempt 2): " ++ e1.Error ++ "\n"),
         .Sleep (2 * Second),
         .RefreshAccessToken "r",
         .Printf ("failed to refresh access token (attempt 3): " ++ e2.Error ++ "\n"),
         .Sleep (2 * Second)] ∧
      countCalls s1.trace = countCalls [] + 3 ∧
      countUpdates s1.trace = countUpdates [] ∧
      ∀ n, refresh_access_token (fun _ _ => .sendError "timeout") (n + 1)
        (Sched.start (sampleClient (sampleCredential "a" "r" 7200))) =
        .error (.panic ("failed to refresh access token after 3 attempts: " ++ e2.Error), s1) :=
  C3_three_failures_then_one_panic (fun _ _ => .sendError "timeout")
    (Sched.start (sampleClient (sampleCredential "a" "r" 7200))) (by decide)
    (fun _ _ => ⟨.wrapped "failed to send request" "timeout", rfl⟩)

/-- C4: in a pass where RefreshAccessToken fails on the 1st and 2nd attempts and returns
r on the 3rd, update_access_token_resp is called exactly once, with r; the store then
equals r; there is no panic; and the loop goes on from that state, its next pass
sleeping for the interval computed from r.ExpiresIn. -/
theorem C4_two_failures_then_success
    (net : Nat → HTTPRequest → Exchange AccessTokenResponse) (s : Sched)
    (r : AccessTokenResponse)
    (hfree : s.c.access_token_resp_lock = RWMutex.zero)
    (h1 : ∃ e, s.c.RefreshAccessToken s.c.access_token_resp.RefreshToken (net s.calls) = .error e)
    (h2 : ∃ e,
      s.c.RefreshAccessToken s.c.access_token_resp.RefreshToken (net (s.calls + 1)) = .error e)
    (h3 : s.c.RefreshAccessToken s.c.access_token_resp.RefreshToken (net (s.calls + 2)) = .ok r) :
    ∃ e1 e2 : GoError, ∃ s1 : Sched,
      s.c.RefreshAccessToken s.c.access_token_resp.RefreshToken (net s.calls) = .error e1 ∧
      s.c.RefreshAccessToken s.c.access_token_resp.RefreshToken (net (s.calls + 1)) = .error e2 ∧
      refresh_access_token_round net s = .ok s1 ∧
      s1.c = { s.c with access_token_resp := r } ∧
      s1.c.access_token_resp = r ∧
      s1.calls = s.calls + 3 ∧
      s1.trace = s.trace ++
        [.Sleep (refreshInterval s.c.access_token_resp.ExpiresIn),
         .RefreshAccessToken s.c.access_token_resp.RefreshToken,
         .Printf ("failed to refresh access token (attempt 1): " ++ e1.Error ++ "\n"),
         .Sleep (2 * Second),
         .RefreshAccessToken s.c.access_token_resp.RefreshToken,
         .Printf ("failed to refresh access token (attempt 2): " ++ e2.Error ++ "\n"),
         .Sleep (2 * Second),
         .RefreshAccessToken s.c.access_token_resp.RefreshToken,
         .update_access_token_resp r] ∧
      countUpdates s1.trace = countUpdates s.trace + 1 ∧
      (∀ n, refresh_access_token net (n + 1) s = refresh_access_token net n s1) ∧
      ∃ rest, finalTrace (refresh_access_token_round net s1) =
        s1.trace ++ .Sleep (refreshInterval r.ExpiresIn) :: rest := by
  obtain ⟨e1, h1⟩ := h1
  obtain ⟨e2, h2⟩ := h2
  have hw : s.c.access_token_resp_lock.writer = false := by rw [hfree]; rfl
  have hround := refresh_access_token_round_eq net s hw
  rw [refresh_access_token_retry_fail net _ 0 [1, 2] none _ _ _ e1 h1,
    refresh_access_token_retry_fail net _ 1 [2] (some e1) _ _ _ e2 h2,
    refresh_access_token_retry_ok net _ 2 [] (some e2) _ _ _ r h3 hfree] at hround
  simp only at hround
  have a1 : "failed to refresh access token (attempt " ++ toString ((0 : Int) + 1) ++ "): " =
      "failed to refresh access token (attempt 1): " := by decide
  have a2 : "failed to refresh access token (attempt " ++ toString ((1 : Int) + 1) ++ "): " =
      "failed to refresh access token (attempt 2): " := by decide
  rw [a1, a2] at hround
  refine ⟨e1, e2, _, h1, h2, hround, rfl, rfl, rfl, ?_, ?_, ?_, ?_⟩
  · simp only [List.append_assoc, List.cons_append, List.nil_append]
  · simp [countUpdates, List.countP_append, List.countP_cons]
  · intro n
    simp only [refresh_access_token, hround]
  · exact refresh_access_token_round_sleeps net _ hw

theorem C4_two_failures_then_success_witness :
    ∃ e1 e2 : GoError, ∃ s1 : Sched,
      (sampleClient (sampleCredential "a" "r" 7200)).RefreshAccessToken "r"
        (fun _ => .sendError "timeout") = .error e1 ∧
      (sampleClient (sampleCredential "a" "r" 7200)).RefreshAccessToken "r"
        (fun _ => .sendError "timeout") = .error e2 ∧
      refresh_access_token_round
        (fun k _ => if k < 2 then .sendError "timeout"
          else .decoded (sampleCredential "a1" "r1" 200000))
        (Sched.start (sampleClient (sampleCredential "a" "r" 7200))) = .ok s1 ∧
      s1.c = { sampleClient (sampleCredential "a" "r" 7200) with
        access_token_resp := sampleCredential "a1" "r1" 200000 } ∧
      s1.c.access_token_resp = sampleCredential "a1" "r1" 200000 ∧
      s1.calls = 0 + 3 ∧
      s1.trace = [] ++
        [.Sleep (refreshInterval 7200),
         .RefreshAccessToken "r",
         .Printf ("failed to refresh access token (attempt 1): " ++ e1.Error ++ "\n"),
         .Sleep (2 * Second),
         .RefreshAccessToken "r",
         .Printf ("failed to refresh access token (attempt 2): " ++ e2.Error ++ "\n"),
         .Sleep (2 * Second),
         .RefreshAccessToken "r",
         .update_access_token_resp (sampleCredential "a1" "r1" 200000)] ∧
      countUpdates s1.trace = countUpdates [] + 1 ∧
      (∀ n, refresh_access_token
        (fun k _ => if k < 2 then .sendError "timeout"
          else .decoded (sampleCredential "a1" "r1" 200000)) (n + 1)
        (Sched.start (sampleClient (sampleCredential "a" "r" 7200))) =
        refresh_access_token
        (fun k _ => if k < 2 then .sendError "timeout"
          else .decoded (sampleCredential "a1" "r1" 200000)) n s1) ∧
      ∃ rest, finalTrace (refresh_access_token_round
        (fun k _ => if k < 2 then .sendError "timeout"
          else .decoded (sampleCredential "a1" "r1" 200000)) s1) =
        s1.trace ++ .Sleep (refreshInterval 200000) :: rest :=
  C4_two_failures_then_success
    (fun k _ => if k < 2 then .sendError "timeout"
      else .decoded (sampleCredential "a1" "r1" 200000))
    (Sched.start (sampleClient (sampleCredential "a" "r" 7200)))
    (sampleCredential "a1" "r1" 200000) rfl
    ⟨.wrapped "failed to send request" "timeout", rfl⟩
    ⟨.wrapped "failed to send request" "timeout", rfl⟩ rfl

/-! ## The credential store, one caller at a time -/

/-- C5: whatever the store held before, once update_access_token_resp(r) has returned,
the stored credential equals r in all fields and AccessToken returns r.AccessToken;
and on a mutex nobody holds the call does return. -/
theorem C5_update_then_read (c : Client) (r : AccessTokenResponse) :
    (c.access_token_resp_lock = RWMutex.zero → ∃ c1, c.update_access_token_resp r = .ok c1) ∧
    ∀ c1, c.update_access_token_resp r = .ok c1 →
      c1.access_token_resp = r ∧
      c1.access_token_resp.AccessToken = r.AccessToken ∧
      c1.access_token_resp.RefreshToken = r.RefreshToken ∧
      c1.access_token_resp.ExpiresIn = r.ExpiresIn ∧
      c1.access_token_resp.UID = r.UID ∧
      c1.AccessToken = .ok (r.AccessToken, c1) := by
  constructor
  · intro hfree
    exact ⟨_, Client.update_access_token_resp_of_free c r hfree⟩
  · intro c1 h
    obtain ⟨hfree, rfl⟩ := (Client.update_access_token_resp_ok_iff c c1 r).1 h
    refine ⟨rfl, rfl, rfl, rfl, rfl, ?_⟩
    exact Client.AccessToken_of_not_writer _ (by simp only [hfree]; rfl)

theorem C5_update_then_read_witness :
    (∃ c1, (sampleClient (sampleCredential "a" "r" 7200)).update_access_token_resp
      (sampleCredential "a1" "r1" 200000) = .ok c1) ∧
    (({ sampleClient (sampleCredential "a" "r" 7200) with
        access_token_resp := sampleCredential "a1" "r1" 200000 } : Client).access_token_resp =
      sampleCredential "a1" "r1" 200000 ∧
     ({ sampleClient (sampleCredential "a" "r" 7200) with
        access_token_resp := sampleCredential "a1" "r1" 200000 } : Client).AccessToken =
      .ok ("a1", { sampleClient (sampleCredential "a" "r" 7200) with
        access_token_resp := sampleCredential "a1" "r1" 200000 })) :=
  ⟨(C5_update_then_read (sampleClient (sampleCredential "a" "r" 7200))
      (sampleCredential "a1" "r1" 200000)).1 rfl,
   ((C5_update_then_read (sampleClient (sampleCredential "a" "r" 7200))
      (sampleCredential "a1" "r1" 200000)).2 _ rfl).1,
   ((C5_update_then_read (sampleClient (sampleCredential "a" "r" 7200))
      (sampleCredential "a1" "r1" 200000)).2 _ rfl).2.2.2.2.2⟩

/-- C6: AccessToken does not modify the client: on a client whose mutex no writer holds,
any number of consecutive calls all return the stored access token, and the client
state, stored credential included, is afterwards what it was. -/
theorem C6_AccessToken_idempotent (c : Client) (n : Nat)
    (hw : c.access_token_resp_lock.writer = false) :
    c.AccessTokenTimes n = .ok (List.replicate n c.access_token_resp.AccessToken, c) ∧
    c.AccessToken = .ok (c.access_token_resp.AccessToken, c) := by
  refine ⟨?_, Client.AccessToken_of_not_writer c hw⟩
  induction n with
  | zero => rfl
  | succ n ih =>
    simp only [Client.AccessTokenTimes, Client.AccessToken_of_not_writer c hw, ih,
      List.replicate_succ]

theorem C6_AccessToken_idempotent_witness :
    (sampleClient (sampleCredential "a" "r" 7200)).AccessTokenTimes 3 =
      .ok (List.replicate 3 "a", sampleClient (sampleCredential "a" "r" 7200)) ∧
    (sampleClient (sampleCredential "a" "r" 7200)).AccessToken =
      .ok ("a", sampleClient (sampleCredential "a" "r" 7200)) :=
  C6_AccessToken_idempotent (sampleClient (sampleCredential "a" "r" 7200)) 3 (by decide)

/-! ## Bootstrap and the token endpoint -/

/-- C9: when the body of the token endpoint decodes into r, GetAccessToken and
RefreshAccessToken return r with a nil error if and only if r.Errcode is 0, and for
a non-zero Errcode they return no response and the error NewError(Errcode). -/
theorem C9_token_errcode (md5hex : String → String) (c : Client) (refreshToken : String)
    (send : HTTPRequest → Exchange AccessTokenResponse) (r : AccessTokenResponse) :
    (send (c.GetAccessTokenRequest md5hex) = .decoded r →
      (c.GetAccessToken md5hex send = .ok r ↔ r.Errcode = 0) ∧
      (r.Errcode ≠ 0 → c.GetAccessToken md5hex send = .error (.api (NewError r.Errcode)))) ∧
    (send (c.RefreshAccessTokenRequest refreshToken) = .decoded r →
      (c.RefreshAccessToken refreshToken send = .ok r ↔ r.Errcode = 0) ∧
      (r.Errcode ≠ 0 →
        c.RefreshAccessToken refreshToken send = .error (.api (NewError r.Errcode)))) := by
  constructor
  · intro h
    by_cases hz : r.Errcode = 0 <;> simp [Client.GetAccessToken, h, hz]
  · intro h
    by_cases hz : r.Errcode = 0 <;> simp [Client.RefreshAccessToken, h, hz]

theorem C9_token_errcode_witness :
    ((sampleClient AccessTokenResponse.zero).GetAccessToken sampleDigest
        (fun _ => .decoded { sampleCredential "a" "r" 7200 with Errcode := 10007 }) =
      .error (.api (NewError 10007))) ∧
    ((sampleClient AccessTokenResponse.zero).RefreshAccessToken "r"
        (fun _ => .decoded (sampleCredential "a" "r" 7200)) =
      .ok (sampleCredential "a" "r" 7200)) :=
  ⟨((C9_token_errcode sampleDigest (sampleClient AccessTokenResponse.zero) "r"
      (fun _ => .decoded { sampleCredential "a" "r" 7200 with Errcode := 10007 })
      { sampleCredential "a" "r" 7200 with Errcode := 10007 }).1 rfl).2 (by decide),
   ((C9_token_errcode sampleDigest (sampleClient AccessTokenResponse.zero) "r"
      (fun _ => .decoded (sampleCredential "a" "r" 7200))
      (sampleCredential "a" "r" 7200)).2 rfl).1.2 rfl⟩

/-- C8: NewClient returns a client exactly when the initial GetAccessToken succeeds. When
it fails (which is when the round trip is not a decoded body with errcode 0) NewClient
panics with the error text and returns no client; when it succeeds with r, the
returned client is the literal with r in the store, and AccessToken returns
r.AccessToken. -/
theorem C8_NewClient (md5hex : String → String)
    (clientID clientSecret username password : String)
    (send : HTTPRequest → Exchange AccessTokenResponse) :
    ((∃ c, NewClient md5hex clientID clientSecret username password send = .ok c) ↔
      ∃ r, (NewClient.literal clientID clientSecret username password).GetAccessToken
        md5hex send = .ok r) ∧
    (∀ err, (NewClient.literal clientID clientSecret username password).GetAccessToken
        md5hex send = .error err →
      NewClient md5hex clientID clientSecret username password send =
        .error (.panic ("failed to get access token: " ++ err.Error))) ∧
    (∀ r, (NewClient.literal clientID clientSecret username password).GetAccessToken
        md5hex send = .ok r →
      ∃ c, NewClient md5hex clientID clientSecret username password send = .ok c ∧
        c = { NewClient.literal clientID clientSecret username password with
          access_token_resp := r } ∧
        c.access_token_resp = r ∧
        c.AccessToken = .ok (r.AccessToken, c)) ∧
    ((∃ r, (NewClient.literal clientID clientSecret username password).GetAccessToken
        md5hex send = .ok r) ↔
      ∃ r, send ((NewClient.literal clientID clientSecret username password).GetAccessTokenRequest
        md5hex) = .decoded r ∧ r.Errcode = 0) := by
  have hupd : ∀ r, (NewClient.literal clientID clientSecret username password
      ).update_access_token_resp r = .ok { NewClient.literal clientID clientSecret username
        password with access_token_resp := r } :=
    fun r => Client.update_access_token_resp_of_free _ r rfl
  refine ⟨?_, ?_, ?_, ?_⟩
  · cases h : (NewClient.literal clientID clientSecret username password).GetAccessToken
      md5hex send with
    | error err => simp [NewClient, h]
    | ok r => simp [NewClient, h, hupd]
  · intro err h
    simp only [NewClient, h]
  · intro r h
    refine ⟨_, by simp only [NewClient, h, hupd], rfl, rfl, ?_⟩
    exact Client.AccessToken_of_not_writer _ rfl
  · simp only [Client.GetAccessToken]
    cases h : send ((NewClient.literal clientID clientSecret username password
      ).GetAccessTokenRequest md5hex) with
    | requestError e => simp
    | sendError e => simp
    | readError e => simp
    | decodeError e => simp
    | decoded r =>
      by_cases hz : r.Errcode = 0
      · simp [hz]
      · simp [hz]

theorem C8_NewClient_witness :
    NewClient sampleDigest "id" "secret" "user" "wrong"
        (fun _ => .decoded { AccessTokenResponse.zero with Errcode := 10007 }) =
      .error (.panic ("failed to get access token: " ++
        (GoError.api (NewError 10007)).Error)) ∧
    (∃ c, NewClient sampleDigest "id" "secret" "user" "password"
        (fun _ => .decoded (sampleCredential "a" "r" 7200)) = .ok c ∧
      c = { NewClient.literal "id" "secret" "user" "password" with
          access_token_resp := sampleCredential "a" "r" 7200 } ∧
      c.access_token_resp = sampleCredential "a" "r" 7200 ∧
      c.AccessToken = .ok ("a", c)) :=
  ⟨(C8_NewClient sampleDigest "id" "secret" "user" "wrong"
      (fun _ => .decoded { AccessTokenResponse.zero with Errcode := 10007 })).2.1 _ rfl,
   (C8_NewClient sampleDigest "id" "secret" "user" "password"
      (fun _ => .decoded (sampleCredential "a" "r" 7200))).2.2.1 _ rfl⟩

/-! ## One error taxonomy for every path -/

/-- C10: a decoded response with errcode 10004 gives the same error value on the token
paths (GetAccessToken, RefreshAccessToken) and on the operation paths (GetLockList,
GetLockDetail, GetRandomPasscode, GetPasscodeList, SendKey): the Error with Code
ErrTokenUnauthorized and the message of that code, which IsErrorCode recognises as
ErrTokenUnauthorized. -/
theorem C10_token_unauthorized_everywhere (md5hex : String → String) (c : Client)
    (hw : c.access_token_resp_lock.writer = false) :
    NewError 10004 =
      { Code := ErrTokenUnauthorized, Message := "token无授权，token已失效或被撤销授权" } ∧
    IsErrorCode (some (.api (NewError 10004))) ErrTokenUnauthorized = true ∧
    (∀ send r, send (c.GetAccessTokenRequest md5hex) = .decoded r → r.Errcode = 10004 →
      c.GetAccessToken md5hex send = .error (.api (NewError 10004))) ∧
    (∀ refreshToken send r, send (c.RefreshAccessTokenRequest refreshToken) = .decoded r →
      r.Errcode = 10004 →
      c.RefreshAccessToken refreshToken send = .error (.api (NewError 10004))) ∧
    (∀ pageNo pageSize lockAlias groupId now send r,
      send (c.GetLockListRequest c.access_token_resp.AccessToken pageNo pageSize lockAlias
        groupId now) = .decoded r → r.Errcode = 10004 →
      c.GetLockList pageNo pageSize lockAlias groupId now send =
        .ok (c, .error (.api (NewError 10004)))) ∧
    (∀ lockId now send r,
      send (c.GetLockDetailRequest c.access_token_resp.AccessToken lockId now) = .decoded r →
      r.Errcode = 10004 →
      c.GetLockDetail lockId now send = .ok (c, .error (.api (NewError 10004)))) ∧
    (∀ lockID pwdType pwdName startDate endDate now send r,
      send (c.GetRandomPasscodeRequest c.access_token_resp.AccessToken lockID pwdType pwdName
        startDate endDate now) = .decoded r → r.Errcode = 10004 →
      c.GetRandomPasscode lockID pwdType pwdName startDate endDate now send =
        .ok (c, .error (.api (NewError 10004)))) ∧
    (∀ lockID pageNo pageSize orderBy searchStr now send r,
      send (c.GetPasscodeListRequest c.access_token_resp.AccessToken lockID pageNo pageSize
        orderBy searchStr now) = .decoded r → r.Errcode = 10004 →
      c.GetPasscodeList lockID pageNo pageSize orderBy searchStr now send =
        .ok (c, .error (.api (NewError 10004)))) ∧
    (∀ lockID receiverUsername keyName startDate endDate options now send r,
      send (c.SendKeyRequest c.access_token_resp.AccessToken lockID receiverUsername keyName
        startDate endDate options now) = .decoded r → r.Errcode = 10004 →
      c.SendKey lockID receiverUsername keyName startDate endDate options now send =
        .ok (c, .error (.api (NewError 10004)))) := by
  have htok := Client.AccessToken_of_not_writer c hw
  refine ⟨by decide, by decide, ?_, ?_, ?_, ?_, ?_, ?_, ?_⟩
  · intro send r h hc
    simp [Client.GetAccessToken, h, hc]
  · intro refreshToken send r h hc
    simp [Client.RefreshAccessToken, h, hc]
  · intro pageNo pageSize lockAlias groupId now send r h hc
    simp [Client.GetLockList, htok, bind, Except.bind, pure, Except.pure, h, hc]
  · intro lockId now send r h hc
    simp [Client.GetLockDetail, htok, bind, Except.bind, pure, Except.pure, h, hc]
  · intro lockID pwdType pwdName startDate endDate now send r h hc
    simp [Client.GetRandomPasscode, htok, bind, Except.bind, pure, Except.pure, h, hc]
  · intro lockID pageNo pageSize orderBy searchStr now send r h hc
    simp [Client.GetPasscodeList, htok, bind, Except.bind, pure, Except.pure, h, hc]
  · intro lockID receiverUsername keyName startDate endDate options now send r h hc
    simp [Client.SendKey, htok, bind, Except.bind, pure, Except.pure, h, hc]

theorem C10_token_unauthorized_everywhere_witness :
    (sampleClient (sampleCredential "a" "r" 7200)).RefreshAccessToken "r"
        (fun _ => .decoded { AccessTokenResponse.zero with Errcode := 10004 }) =
      .error (.api (NewError 10004)) ∧
    (sampleClient (sampleCredential "a" "r" 7200)).GetLockList 1 200 "" 0 1700000000000
        (fun _ => .decoded
          { List := [], PageNo := 0, PageSize := 0, Pages := 0, Total := 0, Errcode := 10004,
            Errmsg := "" }) =
      .ok (sampleClient (sampleCredential "a" "r" 7200), .error (.api (NewError 10004))) ∧
    (sampleClient (sampleCredential "a" "r" 7200)).SendKey 7 "bob" "front door" 0 0 none
        1700000000000 (fun _ => .decoded { KeyID := 0, Errcode := 10004, Errmsg := "" }) =
      .ok (sampleClient (sampleCredential "a" "r" 7200), .error (.api (NewError 10004))) :=
  ⟨(C10_token_unauthorized_everywhere sampleDigest (sampleClient (sampleCredential "a" "r" 7200))
      (by decide)).2.2.2.1 "r" _ _ rfl rfl,
   (C10_token_unauthorized_everywhere sampleDigest (sampleClient (sampleCredential "a" "r" 7200))
      (by decide)).2.2.2.2.1 1 200 "" 0 1700000000000 _ _ rfl rfl,
   (C10_token_unauthorized_everywhere sampleDigest (sampleClient (sampleCredential "a" "r" 7200))
      (by decide)).2.2.2.2.2.2.2.2 7 "bob" "front door" 0 0 none 1700000000000 _ _ rfl rfl⟩

/-! ## The credential store under concurrent access -/

theorem countP_set_add {α : Type} (p : α → Bool) (l : List α) (i : Nat) (a b : α)
    (h : l[i]? = some a) :
    (l.set i b).countP p + (if p a then 1 else 0) = l.countP p + (if p b then 1 else 0) := by
  induction l generalizing i with
  | nil => simp at h
  | cons x xs ih =>
    cases i with
    | zero =>
      simp only [List.getElem?_cons_zero, Option.some.injEq] at h
      subst h
      simp only [List.set_cons_zero, List.countP_cons]
      omega
    | succ i =>
      simp only [List.getElem?_cons_succ] at h
      have := ih i h
      simp only [List.set_cons_succ, List.countP_cons]
      omega

theorem mem_of_getElem_eq_some {α : Type} (l : List α) (i : Nat) (a : α)
    (h : l[i]? = some a) : a ∈ l := by
  obtain ⟨hi, rfl⟩ := List.getElem?_eq_some.1 h
  exact List.getElem_mem hi

theorem copiedUpTo_six (store resp : AccessTokenResponse) (h : copiedUpTo 6 store resp) :
    store = resp := by
  obtain ⟨h0, h1, h2, h3, h4, h5⟩ := h
  cases store
  cases resp
  simp only [AccessTokenResponse.mk.injEq]
  simp only at h0 h1 h2 h3 h4 h5
  exact ⟨h0 (by decide), h1 (by decide), h2 (by decide), h3 (by decide), h4 (by decide),
    h5 (by decide)⟩

theorem copiedUpTo_copyField (k : Nat) (store resp : AccessTokenResponse) (hk : k < 6)
    (h : copiedUpTo k store resp) : copiedUpTo (k + 1) (store.copyField k resp) resp := by
  obtain ⟨h0, h1, h2, h3, h4, h5⟩ := h
  have : k = 0 ∨ k = 1 ∨ k = 2 ∨ k = 3 ∨ k = 4 ∨ k = 5 := by omega
  rcases this with rfl | rfl | rfl | rfl | rfl | rfl <;>
    simp [copiedUpTo, AccessTokenResponse.copyField] at * <;>
    simp [*]

theorem Shared.Inv_start (old new : AccessTokenResponse) (kinds : List ReaderKind) :
    Shared.Inv old new (Shared.start old kinds) where
  writer := by simp [writerInv, Shared.start, RWMutex.zero]
  count := by
    simp only [Shared.start, RWMutex.zero]
    symm
    rw [List.countP_eq_zero]
    intro r hr
    obtain ⟨k, _, rfl⟩ := List.mem_map.1 hr
    simp [Reader.start, Reader.holdsRLock]
  exclusive := by simp [Shared.start, RWMutex.zero]
  readers := by
    intro r hr
    obtain ⟨k, _, rfl⟩ := List.mem_map.1 hr
    simp [readerInv, Reader.start, Reader.holdsRLock, Reader.readFrom]

theorem Shared.no_reader_inside (old new : AccessTokenResponse) (s : Shared)
    (hinv : Shared.Inv old new s) (hw : s.lock.writer = true) :
    ∀ r ∈ s.readers, r.holdsRLock = false := by
  have h0 : s.readers.countP Reader.holdsRLock = 0 := by
    rw [← hinv.count]
    exact hinv.exclusive hw
  intro r hr
  have := (List.countP_eq_zero.1 h0) r hr
  simpa using this

theorem readerInv_of_not_inside (old new store store1 : AccessTokenResponse) (r : Reader)
    (h : readerInv old new store r) (hout : r.holdsRLock = false) :
    readerInv old new store1 r := by
  refine ⟨?_, h.2.1, h.2.2⟩
  intro hin
  rw [hout] at hin
  exact absurd hin (by decide)

theorem Shared.Inv_stepWriter (old new : AccessTokenResponse) (s s1 : Shared)
    (hinv : Shared.Inv old new s) (h : s.stepWriter new = some s1) :
    Shared.Inv old new s1 := by
  obtain ⟨hwr, hcount, hexcl, hreaders⟩ := hinv
  obtain ⟨store, lock, writer, readers⟩ := s
  obtain ⟨nreaders, wheld⟩ := lock
  cases writer with
  | atLock =>
    simp only [writerInv] at hwr
    obtain ⟨hw, hstore⟩ := hwr
    simp only at hw hstore hcount hexcl hreaders
    subst hw
    by_cases hn : nreaders = 0
    · subst hn
      simp [Shared.stepWriter, RWMutex.Lock] at h
      subst h
      exact
        { writer := by simp [writerInv, copiedUpTo]
          count := hcount
          exclusive := by simp
          readers := hreaders }
    · simp [Shared.stepWriter, RWMutex.Lock, hn] at h
  | assigning k =>
    simp only [writerInv] at hwr
    obtain ⟨hw, hk, hcop⟩ := hwr
    simp only at hw hcop hcount hexcl hreaders
    simp only [Shared.stepWriter, Option.some.injEq] at h
    have hnone := Shared.no_reader_inside old new
      { store := store, lock := { readers := nreaders, writer := wheld },
        writer := .assigning k, readers := readers }
      ⟨by simp [writerInv]; exact ⟨hw, hk, hcop⟩, hcount, hexcl, hreaders⟩ hw
    have hcop1 := copiedUpTo_copyField k store new hk hcop
    subst h
    refine
      { writer := ?_
        count := hcount
        exclusive := hexcl
        readers := fun r hr =>
          readerInv_of_not_inside old new store _ r (hreaders r hr) (hnone r hr) }
    by_cases hk1 : k + 1 < 6
    · simp [writerInv, hk1, hw, hcop1]
    · have hk5 : k + 1 = 6 := by omega
      rw [hk5] at hcop1
      simp [writerInv, hw, hk5, copiedUpTo_six _ _ hcop1]
  | atUnlock =>
    simp only [writerInv] at hwr
    obtain ⟨hw, hstore⟩ := hwr
    simp only at hw hstore hcount hexcl hreaders
    subst hw
    simp [Shared.stepWriter, RWMutex.Unlock] at h
    subst h
    exact
      { writer := by simp [writerInv, hstore]
        count := hcount
        exclusive := by simp
        readers := hreaders }
  | returned =>
    simp [Shared.stepWriter] at h

theorem Shared.store_whole_of_reader_inside (old new : AccessTokenResponse) (s : Shared)
    (hinv : Shared.Inv old new s) (r : Reader) (hr : r ∈ s.readers)
    (hin : r.holdsRLock = true) :
    s.lock.writer = false ∧ (s.store = old ∨ s.store = new) := by
  have hpos : 0 < s.readers.countP Reader.holdsRLock :=
    List.countP_pos_iff.2 ⟨r, hr, hin⟩
  have hw : s.lock.writer = false := by
    cases hwr : s.lock.writer with
    | false => rfl
    | true =>
      have := hinv.exclusive hwr
      rw [hinv.count] at this
      omega
  refine ⟨hw, ?_⟩
  have hwi := hinv.writer
  unfold writerInv at hwi
  split at hwi
  · exact Or.inl hwi.2
  · rw [hw] at hwi
    exact absurd hwi.1 (by decide)
  · rw [hw] at hwi
    exact absurd hwi.1 (by decide)
  · exact Or.inr hwi.2

theorem writerInv_congr (old new : AccessTokenResponse) (s s1 : Shared)
    (h : writerInv old new s) (hwr : s1.writer = s.writer) (hst : s1.store = s.store)
    (hl : s1.lock.writer = s.lock.writer) : writerInv old new s1 := by
  unfold writerInv at h ⊢
  rw [hwr, hst, hl]
  exact h

theorem Shared.Inv_set_reader (old new : AccessTokenResponse) (s : Shared)
    (hinv : Shared.Inv old new s) (i : Nat) (r r1 : Reader) (m : RWMutex)
    (hget : s.readers[i]? = some r)
    (hmw : m.writer = s.lock.writer)
    (hmr : m.readers + (if r.holdsRLock then 1 else 0) =
      s.lock.readers + (if r1.holdsRLock then 1 else 0))
    (hex : m.writer = true → m.readers = 0)
    (hr1 : readerInv old new s.store r1) :
    Shared.Inv old new { s with lock := m, readers := s.readers.set i r1 } where
  writer := writerInv_congr old new s _ hinv.writer rfl rfl hmw
  count := by
    have := countP_set_add Reader.holdsRLock s.readers i r r1 hget
    have hc := hinv.count
    simp only
    omega
  exclusive := hex
  readers := by
    intro x hx
    rcases List.mem_or_eq_of_mem_set hx with hx | rfl
    · exact hinv.readers x hx
    · exact hr1

theorem Shared.Inv_stepReader (old new : AccessTokenResponse) (s s1 : Shared) (i : Nat)
    (hinv : Shared.Inv old new s) (h : s.step new (i + 1) = some s1) :
    Shared.Inv old new s1 := by
  simp only [Shared.step] at h
  cases hget : s.readers[i]? with
  | none => simp [hget] at h
  | some r =>
    have hmem : r ∈ s.readers := mem_of_getElem_eq_some _ _ _ hget
    have hrinv := hinv.readers r hmem
    simp only [hget] at h
    cases hstep : r.step s.store s.lock with
    | none => simp [hstep] at h
    | some res =>
      obtain ⟨m, r1⟩ := res
      simp only [hstep, Option.some.injEq] at h
      subst h
      obtain ⟨kind, pc, result, expiresIn, refreshToken⟩ := r
      cases pc with
      | atRLock =>
        obtain ⟨hnone1, hnone2, hnone3⟩ := hrinv.2.2 rfl
        simp only at hnone1 hnone2 hnone3
        subst hnone1 hnone2 hnone3
        cases hlw : s.lock.writer with
        | true => simp [Reader.step, RWMutex.RLock, hlw] at hstep
        | false =>
          simp [Reader.step, RWMutex.RLock, hlw] at hstep
          obtain ⟨rfl, rfl⟩ := hstep
          apply Shared.Inv_set_reader old new s hinv i _ _ _ hget
          · simp [hlw]
          · simp [Reader.holdsRLock]
          · simp [hlw]
          · simp [readerInv, Reader.readFrom]
      | readFirst =>
        obtain ⟨hlw, hwhole⟩ := Shared.store_whole_of_reader_inside old new s hinv _ hmem rfl
        have hfrom := hrinv.1 rfl
        cases kind with
        | AccessToken =>
          simp [Reader.step] at hstep
          obtain ⟨rfl, rfl⟩ := hstep
          have hnew : Reader.readFrom
              { kind := .AccessToken, pc := .atRUnlock, result := some s.store.AccessToken,
                expiresIn := expiresIn, refreshToken := refreshToken } s.store := by
            refine ⟨?_, hfrom.2.1, hfrom.2.2⟩
            intro v hv
            simp only [Option.some.injEq] at hv
            exact hv.symm
          apply Shared.Inv_set_reader old new s hinv i _ _ _ hget rfl
          · simp [Reader.holdsRLock]
          · intro hw
            rw [hlw] at hw
            exact absurd hw (by decide)
          · refine ⟨fun _ => hnew, ?_, by simp⟩
            rcases hwhole with hs | hs
            · exact Or.inl (hs ▸ hnew)
            · exact Or.inr (hs ▸ hnew)
        | refresh_access_token =>
          simp [Reader.step] at hstep
          obtain ⟨rfl, rfl⟩ := hstep
          have hnew : Reader.readFrom
              { kind := .refresh_access_token, pc := .readSecond, result := result,
                expiresIn := some s.store.ExpiresIn, refreshToken := refreshToken } s.store := by
            refine ⟨hfrom.1, ?_, hfrom.2.2⟩
            intro v hv
            simp only [Option.some.injEq] at hv
            exact hv.symm
          apply Shared.Inv_set_reader old new s hinv i _ _ _ hget rfl
          · simp [Reader.holdsRLock]
          · intro hw
            rw [hlw] at hw
            exact absurd hw (by decide)
          · refine ⟨fun _ => hnew, ?_, by simp⟩
            rcases hwhole with hs | hs
            · exact Or.inl (hs ▸ hnew)
            · exact Or.inr (hs ▸ hnew)
      | readSecond =>
        obtain ⟨hlw, hwhole⟩ := Shared.store_whole_of_reader_inside old new s hinv _ hmem rfl
        have hfrom := hrinv.1 rfl
        simp [Reader.step] at hstep
        obtain ⟨rfl, rfl⟩ := hstep
        have hnew : Reader.readFrom
            { kind := kind, pc := .atRUnlock, result := result,
              expiresIn := expiresIn, refreshToken := some s.store.RefreshToken } s.store := by
          refine ⟨hfrom.1, hfrom.2.1, ?_⟩
          intro v hv
          simp only [Option.some.injEq] at hv
          exact hv.symm
        apply Shared.Inv_set_reader old new s hinv i _ _ _ hget rfl
        · simp [Reader.holdsRLock]
        · intro hw
          rw [hlw] at hw
          exact absurd hw (by decide)
        · refine ⟨fun _ => hnew, ?_, by simp⟩
          rcases hwhole with hs | hs
          · exact Or.inl (hs ▸ hnew)
          · exact Or.inr (hs ▸ hnew)
      | atRUnlock =>
        obtain ⟨hlw, _⟩ := Shared.store_whole_of_reader_inside old new s hinv _ hmem rfl
        by_cases hz : s.lock.readers = 0
        · simp [Reader.step, RWMutex.RUnlock, hz] at hstep
        · simp [Reader.step, RWMutex.RUnlock, hz] at hstep
          obtain ⟨rfl, rfl⟩ := hstep
          apply Shared.Inv_set_reader old new s hinv i _ _ _ hget
          · rfl
          · simp [Reader.holdsRLock]
            omega
          · intro hw
            simp only at hw
            rw [hlw] at hw
            exact absurd hw (by decide)
          · exact ⟨by simp [Reader.holdsRLock], hrinv.2.1, by simp⟩
      | returned => simp [Reader.step] at hstep

theorem Shared.Inv_step (old new : AccessTokenResponse) (s s1 : Shared) (tid : Nat)
    (hinv : Shared.Inv old new s) (h : s.step new tid = some s1) :
    Shared.Inv old new s1 := by
  cases tid with
  | zero => exact Shared.Inv_stepWriter old new s s1 hinv (by simpa [Shared.step] using h)
  | succ i => exact Shared.Inv_stepReader old new s s1 i hinv h

theorem Shared.Inv_run (old new : AccessTokenResponse) (schedule : List Nat) (s : Shared)
    (hinv : Shared.Inv old new s) : Shared.Inv old new (Shared.run new schedule s) := by
  induction schedule generalizing s with
  | nil => exact hinv
  | cons tid rest ih =>
    simp only [Shared.run]
    apply ih
    cases h : s.step new tid with
    | none => exact hinv
    | some s1 => exact Shared.Inv_step old new s s1 tid hinv h

/-- C7: in every interleaving of one update_access_token_resp(new) on a store holding
old with any number of concurrent reads (AccessToken, and the read of ExpiresIn and
RefreshToken at the head of refresh_access_token), all that a read has observed comes
from one credential, old or new: an access token is that of old or that of new, and
an ExpiresIn and a RefreshToken read together are both of old or both of new. -/
theorem C7_reads_are_whole (old new : AccessTokenResponse) (kinds : List ReaderKind)
    (schedule : List Nat) :
    ∀ r ∈ (Shared.run new schedule (Shared.start old kinds)).readers,
      (r.readFrom old ∨ r.readFrom new) ∧
      (∀ v, r.result = some v → v = old.AccessToken ∨ v = new.AccessToken) ∧
      (∀ e t, r.expiresIn = some e → r.refreshToken = some t →
        (e = old.ExpiresIn ∧ t = old.RefreshToken) ∨
        (e = new.ExpiresIn ∧ t = new.RefreshToken)) := by
  intro r hr
  have hinv := Shared.Inv_run old new schedule _ (Shared.Inv_start old new kinds)
  have h := (hinv.readers r hr).2.1
  refine ⟨h, ?_, ?_⟩
  · intro v hv
    rcases h with h | h
    · exact Or.inl (h.1 v hv)
    · exact Or.inr (h.1 v hv)
  · intro e t he ht
    rcases h with h | h
    · exact Or.inl ⟨h.2.1 e he, h.2.2 t ht⟩
    · exact Or.inr ⟨h.2.1 e he, h.2.2 t ht⟩

theorem C7_reads_are_whole_witness :
    ({ kind := .AccessToken, pc := .returned, result := some "a1", expiresIn := none,
        refreshToken := none } : Reader) ∈
      (Shared.run (sampleCredential "a1" "r1" 200000)
        [2, 2, 0, 0, 0, 2, 2, 0, 0, 0, 0, 0, 0, 0, 0, 1, 1, 1]
        (Shared.start (sampleCredential "a" "r" 7200)
          [.AccessToken, .refresh_access_token])).readers ∧
    ({ kind := .refresh_access_token, pc := .returned, result := none, expiresIn := some 7200,
        refreshToken := some "r" } : Reader) ∈
      (Shared.run (sampleCredential "a1" "r1" 200000)
        [2, 2, 0, 0, 0, 2, 2, 0, 0, 0, 0, 0, 0, 0, 0, 1, 1, 1]
        (Shared.start (sampleCredential "a" "r" 7200)
          [.AccessToken, .refresh_access_token])).readers ∧
    ((7200 = (sampleCredential "a" "r" 7200).ExpiresIn ∧
        "r" = (sampleCredential "a" "r" 7200).RefreshToken) ∨
      (7200 = (sampleCredential "a1" "r1" 200000).ExpiresIn ∧
        "r" = (sampleCredential "a1" "r1" 200000).RefreshToken)) :=
  ⟨by decide, by decide,
   (C7_reads_are_whole (sampleCredential "a" "r" 7200) (sampleCredential "a1" "r1" 200000)
      [.AccessToken, .refresh_access_token]
      [2, 2, 0, 0, 0, 2, 2, 0, 0, 0, 0, 0, 0, 0, 0, 1, 1, 1]
      { kind := .refresh_access_token, pc := .returned, result := none, expiresIn := some 7200,
        refreshToken := some "r" } (by decide)).2.2 7200 "r" rfl rfl⟩

/-! ## Testing an error for a named condition -/

theorem NewError_Code (c : ErrorCode) : (NewError c).Code = c := by
  unfold NewError
  cases errorMessages.lookup c <;> rfl

/-- C11: IsErrorCode(NewError(c), d) is true exactly when c = d; on an error that is not a
`*Error` (an error wrapped by fmt.Errorf, or nil) it is false for every code; and on
two `*Error` values with the same Code it gives the same answer whatever their
Message strings are. -/
theorem C11_IsErrorCode_by_code :
    (∀ c d : ErrorCode, IsErrorCode (some (.api (NewError c))) d = true ↔ c = d) ∧
    (∀ (context cause : String) (d : ErrorCode),
      IsErrorCode (some (.wrapped context cause)) d = false) ∧
    (∀ d : ErrorCode, IsErrorCode none d = false) ∧
    (∀ (code d : ErrorCode) (m1 m2 : String),
      IsErrorCode (some (.api { Code := code, Message := m1 })) d =
        IsErrorCode (some (.api { Code := code, Message := m2 })) d) := by
  refine ⟨?_, ?_, ?_, ?_⟩
  · intro c d
    simp only [IsErrorCode, NewError_Code, beq_iff_eq]
  · intro context cause d
    rfl
  · intro d
    rfl
  · intro code d m1 m2
    rfl

/-! ## The refresh interval is short enough -/

theorem wrapInt64_le_self (x : Int) (hx : 0 ≤ x) : wrapInt64 x ≤ x := by
  unfold wrapInt64
  omega

theorem refreshInterval_bounds (expiresIn : Int) (h0 : 0 ≤ expiresIn) :
    refreshInterval expiresIn ≤ goDiv expiresIn 2 * Second ∧
    refreshInterval expiresIn ≤ 24 * Hour ∧
    (0 < expiresIn → refreshInterval expiresIn < expiresIn * Second) := by
  have hdiv0 : 0 ≤ goDiv expiresIn 2 := Int.tdiv_nonneg h0 (by decide)
  have hdiv : goDiv expiresIn 2 * 2 ≤ expiresIn := by
    have := Int.tdiv_add_tmod expiresIn 2
    have hm : 0 ≤ Int.tmod expiresIn 2 := Int.tmod_nonneg 2 h0
    unfold goDiv
    omega
  have hsec : Second = 1000000000 := by decide
  have hhour : 24 * Hour = 86400000000000 := by decide
  have hprod0 : 0 ≤ goDiv expiresIn 2 * Second := by rw [hsec]; omega
  have hw := wrapInt64_le_self _ hprod0
  have hle : refreshInterval expiresIn ≤ goDiv expiresIn 2 * Second := by
    unfold refreshInterval
    simp only
    split <;> omega
  refine ⟨hle, ?_, ?_⟩
  · unfold refreshInterval
    simp only
    split <;> omega
  · intro hpos
    rw [hsec] at hle ⊢
    omega

/-- C16: when the store holds a non-negative ExpiresIn, the duration the pass of the
renewal loop sleeps for, computed with the product in 64-bit arithmetic, is at most
ExpiresIn / 2 seconds and at most 24 hours; and when ExpiresIn is positive it is
strictly less than ExpiresIn seconds, so the attempt starts before the declared expiry. -/
theorem C16_sleep_bounds
    (net : Nat → HTTPRequest → Exchange AccessTokenResponse) (s : Sched)
    (hw : s.c.access_token_resp_lock.writer = false)
    (h0 : 0 ≤ s.c.access_token_resp.ExpiresIn) :
    ∃ d rest,
      finalTrace (refresh_access_token_round net s) = s.trace ++ .Sleep d :: rest ∧
      d = refreshInterval s.c.access_token_resp.ExpiresIn ∧
      d ≤ goDiv s.c.access_token_resp.ExpiresIn 2 * Second ∧
      d ≤ 24 * Hour ∧
      (0 < s.c.access_token_resp.ExpiresIn → d < s.c.access_token_resp.ExpiresIn * Second) := by
  obtain ⟨rest, hrest⟩ := refresh_access_token_round_sleeps net s hw
  obtain ⟨h1, h2, h3⟩ := refreshInterval_bounds _ h0
  exact ⟨_, rest, hrest, rfl, h1, h2, h3⟩

theorem C16_sleep_bounds_witness :
    ∃ d rest,
      finalTrace (refresh_access_token_round (fun _ _ => .sendError "timeout")
        (Sched.start (sampleClient (sampleCredential "a" "r" 18446744074)))) =
        [] ++ .Sleep d :: rest ∧
      d = refreshInterval 18446744074 ∧
      d ≤ goDiv 18446744074 2 * Second ∧
      d ≤ 24 * Hour ∧
      (0 < (18446744074 : Int) → d < 18446744074 * Second) :=
  C16_sleep_bounds (fun _ _ => .sendError "timeout")
    (Sched.start (sampleClient (sampleCredential "a" "r" 18446744074))) (by decide) (by decide)

/-! ## The feature bits -/

theorem bigDigitVal_of_isHexDigit (ch : Char) (h : isHexDigit ch = true) :
    bigDigitVal ch = some (hexDigitValue ch) ∧ hexDigitValue ch < 16 ∧ ch ≠ '-' ∧ ch ≠ '+' := by
  simp only [isHexDigit, decide_eq_true_eq, List.mem_cons, List.mem_singleton,
    List.not_mem_nil, or_false] at h
  rcases h with h | h | h | h | h | h | h | h | h | h | h | h | h | h | h | h | h | h | h | h |
    h | h <;> subst h <;> decide

theorem bigScanHex_of_hex (l : List Char) (acc : Nat)
    (h : ∀ ch ∈ l, isHexDigit ch = true) :
    bigScanHex l acc =
      some (acc * 16 ^ l.length + Nat.ofDigits 16 (l.reverse.map hexDigitValue)) := by
  induction l generalizing acc with
  | nil => simp [bigScanHex]
  | cons ch rest ih =>
    obtain ⟨hv, hlt, _, _⟩ := bigDigitVal_of_isHexDigit ch (h ch (List.mem_cons_self _ _))
    have hrest : ∀ x ∈ rest, isHexDigit x = true :=
      fun x hx => h x (List.mem_cons_of_mem _ hx)
    simp only [bigScanHex, hv, hlt, if_true, ih _ hrest, List.reverse_cons, List.map_append,
      List.map_cons, List.map_nil, Nat.ofDigits_append, Nat.ofDigits_singleton,
      List.length_map, List.length_reverse, List.length_cons, Option.some.injEq]
    ring

theorem bigSetString16_of_hex (s : String) (hne : s ≠ "")
    (h : ∀ ch ∈ s.data, isHexDigit ch = true) :
    bigSetString16 s = some (hexNumber s : Int) := by
  obtain ⟨l⟩ := s
  cases l with
  | nil => exact absurd rfl hne
  | cons ch rest =>
    obtain ⟨_, _, hminus, hplus⟩ := bigDigitVal_of_isHexDigit ch (h ch (List.mem_cons_self _ _))
    have hscan := bigScanHex_of_hex (ch :: rest) 0 h
    unfold bigSetString16
    simp only
    split
    · rename_i heq
      cases heq
    · rename_i heq
      simp only [List.cons.injEq] at heq
      exact absurd heq.1 hminus
    · rename_i heq
      simp only [List.cons.injEq] at heq
      exact absurd heq.1 hplus
    · rw [hscan]
      simp [hexNumber]

/-- C12: for a non-empty string s of hexadecimal digits (0-9, a-f, A-F) denoting the
number n, and a feature f that is not negative, HasFeature(s, f) is true if and only if
bit f of n is 1, that is, floor(n / 2^f) is odd; and HasFeature("", f) is false for
every f. SupportsFeature of a Lock or LockDetail is HasFeature of its FeatureValue. -/
theorem C12_HasFeature_bit (valOnFailure : Int) (s : String) (f : LockFeature)
    (hne : s ≠ "") (hhex : ∀ ch ∈ s.data, isHexDigit ch = true) (hf : 0 ≤ f) :
    HasFeature valOnFailure s f = .ok (decide (hexNumber s / 2 ^ f.toNat % 2 = 1)) ∧
    (∀ g : LockFeature, HasFeature valOnFailure "" g = .ok false) ∧
    (∀ l : Lock, l.FeatureValue = s →
      l.SupportsFeature valOnFailure f =
        .ok (decide (hexNumber s / 2 ^ f.toNat % 2 = 1))) ∧
    (∀ l : LockDetail, l.FeatureValue = s →
      l.SupportsFeature valOnFailure f =
        .ok (decide (hexNumber s / 2 ^ f.toNat % 2 = 1))) := by
  have hmain : HasFeature valOnFailure s f =
      .ok (decide (hexNumber s / 2 ^ f.toNat % 2 = 1)) := by
    have hb : (s == "") = false := by simpa using hne
    have hnf : ¬ f < 0 := not_lt.mpr hf
    have hcast : ∀ (n i : Nat), (n : Int).testBit i = n.testBit i := fun _ _ => rfl
    simp only [HasFeature, hb, bigSetString16_of_hex s hne hhex, Option.getD_some, hnf,
      if_false, Bool.false_eq_true, bigBit, hcast, Nat.testBit_to_div_mod]
    congr 1
    by_cases hbit : hexNumber s / 2 ^ f.toNat % 2 = 1 <;> simp [hbit]
  refine ⟨hmain, ?_, ?_, ?_⟩
  · intro g
    rfl
  · intro l hl
    rw [Lock.SupportsFeature, hl, hmain]
  · intro l hl
    rw [LockDetail.SupportsFeature, hl, hmain]

theorem C12_HasFeature_bit_witness :
    HasFeature 0 "1F" 4 = .ok (decide (hexNumber "1F" / 2 ^ (4 : Int).toNat % 2 = 1)) ∧
    HasFeature 0 "" 4 = .ok false ∧
    hexNumber "1F" = 31 ∧
    HasFeature 0 "1F" 5 = .ok false :=
  ⟨(C12_HasFeature_bit 0 "1F" 4 (by decide) (by decide) (by decide)).1,
   (C12_HasFeature_bit 0 "1F" 4 (by decide) (by decide) (by decide)).2.1 4,
   by decide, by rfl⟩

/-! ## The four ways a pass of the renewal loop can go -/

theorem refresh_access_token_round_first
    (net : Nat → HTTPRequest → Exchange AccessTokenResponse) (s : Sched)
    (r : AccessTokenResponse)
    (hfree : s.c.access_token_resp_lock = RWMutex.zero)
    (h0 : s.c.RefreshAccessToken s.c.access_token_resp.RefreshToken (net s.calls) = .ok r) :
    refresh_access_token_round net s = .ok
      { c := { s.c with access_token_resp := r }, calls := s.calls + 1,
        trace := s.trace ++
          [.Sleep (refreshInterval s.c.access_token_resp.ExpiresIn),
           .RefreshAccessToken s.c.access_token_resp.RefreshToken,
           .update_access_token_resp r] } := by
  have hw : s.c.access_token_resp_lock.writer = false := by rw [hfree]; rfl
  rw [refresh_access_token_round_eq net s hw,
    refresh_access_token_retry_ok net _ 0 [1, 2] none _ _ _ r h0 hfree]
  simp only [List.append_assoc, List.cons_append, List.nil_append]

theorem refresh_access_token_round_second
    (net : Nat → HTTPRequest → Exchange AccessTokenResponse) (s : Sched)
    (e0 : GoError) (r : AccessTokenResponse)
    (hfree : s.c.access_token_resp_lock = RWMutex.zero)
    (h0 : s.c.RefreshAccessToken s.c.access_token_resp.RefreshToken (net s.calls) = .error e0)
    (h1 : s.c.RefreshAccessToken s.c.access_token_resp.RefreshToken (net (s.calls + 1)) = .ok r) :
    refresh_access_token_round net s = .ok
      { c := { s.c with access_token_resp := r }, calls := s.calls + 2,
        trace := s.trace ++
          [.Sleep (refreshInterval s.c.access_token_resp.ExpiresIn),
           .RefreshAccessToken s.c.access_token_resp.RefreshToken,
           .Printf ("failed to refresh access token (attempt 1): " ++ e0.Error ++ "\n"),
           .Sleep (2 * Second),
           .RefreshAccessToken s.c.access_token_resp.RefreshToken,
           .update_access_token_resp r] } := by
  have hw : s.c.access_token_resp_lock.writer = false := by rw [hfree]; rfl
  have a1 : "failed to refresh access token (attempt " ++ toString ((0 : Int) + 1) ++ "): " =
      "failed to refresh access token (attempt 1): " := by decide
  rw [refresh_access_token_round_eq net s hw,
    refresh_access_token_retry_fail net _ 0 [1, 2] none _ _ _ e0 h0,
    refresh_access_token_retry_ok net _ 1 [2] (some e0) _ _ _ r h1 hfree, a1]
  simp only [List.append_assoc, List.cons_append, List.nil_append]

theorem refresh_access_token_round_third
    (net : Nat → HTTPRequest → Exchange AccessTokenResponse) (s : Sched)
    (e0 e1 : GoError) (r : AccessTokenResponse)
    (hfree : s.c.access_token_resp_lock = RWMutex.zero)
    (h0 : s.c.RefreshAccessToken s.c.access_token_resp.RefreshToken (net s.calls) = .error e0)
    (h1 : s.c.RefreshAccessToken s.c.access_token_resp.RefreshToken (net (s.calls + 1)) =
      .error e1)
    (h2 : s.c.RefreshAccessToken s.c.access_token_resp.RefreshToken (net (s.calls + 2)) = .ok r) :
    refresh_access_token_round net s = .ok
      { c := { s.c with access_token_resp := r }, calls := s.calls + 3,
        trace := s.trace ++
          [.Sleep (refreshInterval s.c.access_token_resp.ExpiresIn),
           .RefreshAccessToken s.c.access_token_resp.RefreshToken,
           .Printf ("failed to refresh access token (attempt 1): " ++ e0.Error ++ "\n"),
           .Sleep (2 * Second),
           .RefreshAccessToken s.c.access_token_resp.RefreshToken,
           .Printf ("failed to refresh access token (attempt 2): " ++ e1.Error ++ "\n"),
           .Sleep (2 * Second),
           .RefreshAccessToken s.c.access_token_resp.RefreshToken,
           .update_access_token_resp r] } := by
  have hw : s.c.access_token_resp_lock.writer = false := by rw [hfree]; rfl
  have a1 : "failed to refresh access token (attempt " ++ toString ((0 : Int) + 1) ++ "): " =
      "failed to refresh access token (attempt 1): " := by decide
  have a2 : "failed to refresh access token (attempt " ++ toString ((1 : Int) + 1) ++ "): " =
      "failed to refresh access token (attempt 2): " := by decide
  rw [refresh_access_token_round_eq net s hw,
    refresh_access_token_retry_fail net _ 0 [1, 2] none _ _ _ e0 h0,
    refresh_access_token_retry_fail net _ 1 [2] (some e0) _ _ _ e1 h1,
    refresh_access_token_retry_ok net _ 2 [] (some e1) _ _ _ r h2 hfree, a1, a2]
  simp only [List.append_assoc, List.cons_append, List.nil_append]

theorem refresh_access_token_round_exhausted
    (net : Nat → HTTPRequest → Exchange AccessTokenResponse) (s : Sched)
    (e0 e1 e2 : GoError)
    (hw : s.c.access_token_resp_lock.writer = false)
    (h0 : s.c.RefreshAccessToken s.c.access_token_resp.RefreshToken (net s.calls) = .error e0)
    (h1 : s.c.RefreshAccessToken s.c.access_token_resp.RefreshToken (net (s.calls + 1)) =
      .error e1)
    (h2 : s.c.RefreshAccessToken s.c.access_token_resp.RefreshToken (net (s.calls + 2)) =
      .error e2) :
    refresh_access_token_round net s = .error
      (.panic ("failed to refresh access token after 3 attempts: " ++ e2.Error),
      { c := s.c, calls := s.calls + 3,
        trace := s.trace ++
          [.Sleep (refreshInterval s.c.access_token_resp.ExpiresIn),
           .RefreshAccessToken s.c.access_token_resp.RefreshToken,
           .Printf ("failed to refresh access token (attempt 1): " ++ e0.Error ++ "\n"),
           .Sleep (2 * Second),
           .RefreshAccessToken s.c.access_token_resp.RefreshToken,
           .Printf ("failed to refresh access token (attempt 2): " ++ e1.Error ++ "\n"),
           .Sleep (2 * Second),
           .RefreshAccessToken s.c.access_token_resp.RefreshToken,
           .Printf ("failed to refresh access token (attempt 3): " ++ e2.Error ++ "\n"),
           .Sleep (2 * Second)] }) := by
  have a1 : "failed to refresh access token (attempt " ++ toString ((0 : Int) + 1) ++ "): " =
      "failed to refresh access token (attempt 1): " := by decide
  have a2 : "failed to refresh access token (attempt " ++ toString ((1 : Int) + 1) ++ "): " =
      "failed to refresh access token (attempt 2): " := by decide
  have a3 : "failed to refresh access token (attempt " ++ toString ((2 : Int) + 1) ++ "): " =
      "failed to refresh access token (attempt 3): " := by decide
  rw [refresh_access_token_round_eq net s hw,
    refresh_access_token_retry_fail net _ 0 [1, 2] none _ _ _ e0 h0,
    refresh_access_token_retry_fail net _ 1 [2] (some e0) _ _ _ e1 h1,
    refresh_access_token_retry_fail net _ 2 [] (some e1) _ _ _ e2 h2, a1, a2, a3]
  simp only [refresh_access_token_retry, List.append_assoc, List.cons_append, List.nil_append]

/-! ## How many attempts a pass makes -/

/-- C19: whatever the outcomes of the RefreshAccessToken calls of one pass are, the pass
makes min(k, 3) attempts, k being the position of the first success, and 3 when there
is none; it stops at the first success, the update being the last thing it does; and
it ends in the panic if and only if the first three outcomes are all failures. -/
theorem C19_attempts_until_first_success
    (net : Nat → HTTPRequest → Exchange AccessTokenResponse) (s : Sched)
    (hfree : s.c.access_token_resp_lock = RWMutex.zero) :
    (∀ k, 1 ≤ k →
      (∃ r, s.c.RefreshAccessToken s.c.access_token_resp.RefreshToken
        (net (s.calls + (k - 1))) = .ok r) →
      (∀ j, j < k - 1 → ∃ e, s.c.RefreshAccessToken s.c.access_token_resp.RefreshToken
        (net (s.calls + j)) = .error e) →
      countCalls (finalTrace (refresh_access_token_round net s)) =
        countCalls s.trace + min k 3) ∧
    ((∀ j, ∃ e, s.c.RefreshAccessToken s.c.access_token_resp.RefreshToken
        (net (s.calls + j)) = .error e) →
      countCalls (finalTrace (refresh_access_token_round net s)) = countCalls s.trace + 3) ∧
    ((∃ msg s1, refresh_access_token_round net s = .error (.panic msg, s1)) ↔
      ∀ j, j < 3 → ∃ e, s.c.RefreshAccessToken s.c.access_token_resp.RefreshToken
        (net (s.calls + j)) = .error e) ∧
    (∀ k r, 1 ≤ k → k ≤ 3 →
      s.c.RefreshAccessToken s.c.access_token_resp.RefreshToken
        (net (s.calls + (k - 1))) = .ok r →
      (∀ j, j < k - 1 → ∃ e, s.c.RefreshAccessToken s.c.access_token_resp.RefreshToken
        (net (s.calls + j)) = .error e) →
      ∃ s1, refresh_access_token_round net s = .ok s1 ∧ s1.calls = s.calls + k ∧
        s1.trace.getLast? = some (.update_access_token_resp r) ∧
        s1.c.access_token_resp = r) := by
  have hw : s.c.access_token_resp_lock.writer = false := by rw [hfree]; rfl
  cases h0 : s.c.RefreshAccessToken s.c.access_token_resp.RefreshToken (net s.calls) with
  | ok r0 =>
    have hres := refresh_access_token_round_first net s r0 hfree h0
    have hk1 : ∀ k, 1 ≤ k →
        (∀ j, j < k - 1 → ∃ e, s.c.RefreshAccessToken s.c.access_token_resp.RefreshToken
          (net (s.calls + j)) = .error e) → k = 1 := by
      intro k hk hf
      by_contra hne
      obtain ⟨e, he⟩ := hf 0 (by omega)
      rw [Nat.add_zero, h0] at he
      cases he
    refine ⟨?_, ?_, ?_, ?_⟩
    · intro k hk _ hf
      obtain rfl := hk1 k hk hf
      rw [hres]
      simp [finalTrace, countCalls, List.countP_append, List.countP_cons]
    · intro hall
      obtain ⟨e, he⟩ := hall 0
      rw [Nat.add_zero, h0] at he
      cases he
    · rw [hres]
      constructor
      · rintro ⟨msg, s1, h⟩
        cases h
      · intro hall
        obtain ⟨e, he⟩ := hall 0 (by decide)
        rw [Nat.add_zero, h0] at he
        cases he
    · intro k r hk _ hr hf
      obtain rfl := hk1 k hk hf
      rw [Nat.sub_self, Nat.add_zero, h0] at hr
      cases hr
      exact ⟨_, hres, rfl, by simp, rfl⟩
  | error e0 =>
    cases h1 : s.c.RefreshAccessToken s.c.access_token_resp.RefreshToken
        (net (s.calls + 1)) with
    | ok r1 =>
      have hres := refresh_access_token_round_second net s e0 r1 hfree h0 h1
      have hk2 : ∀ k, 1 ≤ k →
          (∃ r, s.c.RefreshAccessToken s.c.access_token_resp.RefreshToken
            (net (s.calls + (k - 1))) = .ok r) →
          (∀ j, j < k - 1 → ∃ e, s.c.RefreshAccessToken s.c.access_token_resp.RefreshToken
            (net (s.calls + j)) = .error e) → k = 2 := by
        intro k hk hs hf
        by_contra hne
        by_cases hk1 : k = 1
        · subst hk1
          obtain ⟨r, hr⟩ := hs
          rw [Nat.sub_self, Nat.add_zero, h0] at hr
          cases hr
        · obtain ⟨e, he⟩ := hf 1 (by omega)
          rw [h1] at he
          cases he
      refine ⟨?_, ?_, ?_, ?_⟩
      · intro k hk hs hf
        obtain rfl := hk2 k hk hs hf
        rw [hres]
        simp [finalTrace, countCalls, List.countP_append, List.countP_cons]
      · intro hall
        obtain ⟨e, he⟩ := hall 1
        rw [h1] at he
        cases he
      · rw [hres]
        constructor
        · rintro ⟨msg, s1, h⟩
          cases h
        · intro hall
          obtain ⟨e, he⟩ := hall 1 (by decide)
          rw [h1] at he
          cases he
      · intro k r hk _ hr hf
        obtain rfl := hk2 k hk ⟨r, hr⟩ hf
        rw [h1] at hr
        cases hr
        exact ⟨_, hres, rfl, by simp, rfl⟩
    | error e1 =>
      cases h2 : s.c.RefreshAccessToken s.c.access_token_resp.RefreshToken
          (net (s.calls + 2)) with
      | ok r2 =>
        have hres := refresh_access_token_round_third net s e0 e1 r2 hfree h0 h1 h2
        have hk3 : ∀ k, 1 ≤ k →
            (∃ r, s.c.RefreshAccessToken s.c.access_token_resp.RefreshToken
              (net (s.calls + (k - 1))) = .ok r) →
            (∀ j, j < k - 1 → ∃ e, s.c.RefreshAccessToken s.c.access_token_resp.RefreshToken
              (net (s.calls + j)) = .error e) → k = 3 := by
          intro k hk hs hf
          by_contra hne
          by_cases hk1 : k = 1
          · subst hk1
            obtain ⟨r, hr⟩ := hs
            rw [Nat.sub_self, Nat.add_zero, h0] at hr
            cases hr
          · by_cases hk2 : k = 2
            · subst hk2
              obtain ⟨r, hr⟩ := hs
              rw [h1] at hr
              cases hr
            · obtain ⟨e, he⟩ := hf 2 (by omega)
              rw [h2] at he
              cases he
        refine ⟨?_, ?_, ?_, ?_⟩
        · intro k hk hs hf
          obtain rfl := hk3 k hk hs hf
          rw [hres]
          simp [finalTrace, countCalls, List.countP_append, List.countP_cons]
        · intro hall
          obtain ⟨e, he⟩ := hall 2
          rw [h2] at he
          cases he
        · rw [hres]
          constructor
          · rintro ⟨msg, s1, h⟩
            cases h
          · intro hall
            obtain ⟨e, he⟩ := hall 2 (by decide)
            rw [h2] at he
            cases he
        · intro k r hk _ hr hf
          obtain rfl := hk3 k hk ⟨r, hr⟩ hf
          rw [h2] at hr
          cases hr
          exact ⟨_, hres, rfl, by simp, rfl⟩
      | error e2 =>
        have hres := refresh_access_token_round_exhausted net s e0 e1 e2 hw h0 h1 h2
        have hk4 : ∀ k, 1 ≤ k →
            (∃ r, s.c.RefreshAccessToken s.c.access_token_resp.RefreshToken
              (net (s.calls + (k - 1))) = .ok r) → 3 < k := by
          intro k hk hs
          obtain ⟨r, hr⟩ := hs
          by_contra hle
          have : k = 1 ∨ k = 2 ∨ k = 3 := by omega
          rcases this with rfl | rfl | rfl
          · rw [Nat.sub_self, Nat.add_zero, h0] at hr
            cases hr
          · rw [h1] at hr
            cases hr
          · rw [h2] at hr
            cases hr
        refine ⟨?_, ?_, ?_, ?_⟩
        · intro k hk hs _
          have := hk4 k hk hs
          rw [hres, Nat.min_eq_right (by omega)]
          simp [finalTrace, countCalls, List.countP_append, List.countP_cons]
        · intro _
          rw [hres]
          simp [finalTrace, countCalls, List.countP_append, List.countP_cons]
        · rw [hres]
          constructor
          · intro _ j hj
            have : j = 0 ∨ j = 1 ∨ j = 2 := by omega
            rcases this with rfl | rfl | rfl
            · exact ⟨e0, by rw [Nat.add_zero]; exact h0⟩
            · exact ⟨e1, h1⟩
            · exact ⟨e2, h2⟩
          · intro _
            exact ⟨_, _, rfl⟩
        · intro k r hk hk3 hr _
          have := hk4 k hk ⟨r, hr⟩
          omega

theorem C19_attempts_until_first_success_witness :
    countCalls (finalTrace (refresh_access_token_round
        (fun k _ => if k < 1 then .sendError "timeout"
          else .decoded (sampleCredential "a1" "r1" 200000))
        (Sched.start (sampleClient (sampleCredential "a" "r" 7200))))) =
      countCalls [] + min 2 3 ∧
    ((∃ msg s1, refresh_access_token_round (fun _ _ => .sendError "timeout")
        (Sched.start (sampleClient (sampleCredential "a" "r" 7200))) =
        .error (.panic msg, s1))) :=
  ⟨(C19_attempts_until_first_success
      (fun k _ => if k < 1 then .sendError "timeout"
        else .decoded (sampleCredential "a1" "r1" 200000))
      (Sched.start (sampleClient (sampleCredential "a" "r" 7200))) rfl).1 2 (by decide)
      ⟨sampleCredential "a1" "r1" 200000, rfl⟩
      (fun j hj => by
        have hj0 : j = 0 := by omega
        subst hj0
        exact ⟨.wrapped "failed to send request" "timeout", rfl⟩),
   (C19_attempts_until_first_success (fun _ _ => .sendError "timeout")
      (Sched.start (sampleClient (sampleCredential "a" "r" 7200))) rfl).2.2.1.2
      (fun _ _ => ⟨.wrapped "failed to send request" "timeout", rfl⟩)⟩

/-! ## The pauses of a pass -/

/-- C20, evaluated where it fails: a pass whose three RefreshAccessToken calls all fail.
The claim, like the source comment "Wait before retrying", has a pause only between two
attempts, so two pauses for three attempts; the pass pauses 2 seconds after each of
the three failures, the third pause being followed by no attempt but by the panic. -/
theorem C20_three_failures_pause_three_times :
    refresh_access_token_round (fun _ _ => .sendError "timeout")
        (Sched.start (sampleClient (sampleCredential "a" "r" 7200))) =
      .error (.panic
        "failed to refresh access token after 3 attempts: failed to send request: timeout",
        { c := sampleClient (sampleCredential "a" "r" 7200), calls := 3,
          trace :=
            [.Sleep (3600 * Second),
             .RefreshAccessToken "r",
             .Printf "failed to refresh access token (attempt 1): failed to send request: timeout\n",
             .Sleep (2 * Second),
             .RefreshAccessToken "r",
             .Printf "failed to refresh access token (attempt 2): failed to send request: timeout\n",
             .Sleep (2 * Second),
             .RefreshAccessToken "r",
             .Printf "failed to refresh access token (attempt 3): failed to send request: timeout\n",
             .Sleep (2 * Second)] }) ∧
    countCalls (finalTrace (refresh_access_token_round (fun _ _ => .sendError "timeout")
        (Sched.start (sampleClient (sampleCredential "a" "r" 7200))))) = 3 ∧
    countSleeps ((finalTrace (refresh_access_token_round (fun _ _ => .sendError "timeout")
        (Sched.start (sampleClient (sampleCredential "a" "r" 7200))))).drop 1) = 3 ∧
    (finalTrace (refresh_access_token_round (fun _ _ => .sendError "timeout")
        (Sched.start (sampleClient (sampleCredential "a" "r" 7200))))).getLast? =
      some (.Sleep (2 * Second)) := by
  refine ⟨by rfl, by rfl, by rfl, by rfl⟩

/-! ## The query of GetLockList -/

/-- C18: the request GetLockList sends has the parameters clientId, accessToken, pageNo,
pageSize and date whatever the arguments are, pageNo and pageSize being the decimal
renderings of the arguments; it has lockAlias exactly when lockAlias is not empty, with
that value; it has groupId exactly when groupId is not 0, with its decimal rendering;
and it has no other parameter. GetLockList puts exactly this request to the
transport. -/
theorem C18_GetLockList_params (c : Client) (accessToken : String) (pageNo pageSize : Int)
    (lockAlias : String) (groupId : Int) (now : Int) :
    (c.GetLockListRequest accessToken pageNo pageSize lockAlias groupId now).Params.Get
      "clientId" = some c.ClientID ∧
    (c.GetLockListRequest accessToken pageNo pageSize lockAlias groupId now).Params.Get
      "accessToken" = some accessToken ∧
    (c.GetLockListRequest accessToken pageNo pageSize lockAlias groupId now).Params.Get
      "pageNo" = some (toString pageNo) ∧
    (c.GetLockListRequest accessToken pageNo pageSize lockAlias groupId now).Params.Get
      "pageSize" = some (toString pageSize) ∧
    (c.GetLockListRequest accessToken pageNo pageSize lockAlias groupId now).Params.Get
      "date" = some (toString now) ∧
    (c.GetLockListRequest accessToken pageNo pageSize lockAlias groupId now).Params.Get
      "lockAlias" = (if lockAlias = "" then none else some lockAlias) ∧
    (c.GetLockListRequest accessToken pageNo pageSize lockAlias groupId now).Params.Get
      "groupId" = (if groupId = 0 then none else some (toString groupId)) ∧
    (∀ key, key ∈ (c.GetLockListRequest accessToken pageNo pageSize lockAlias groupId
        now).Params.map Prod.fst →
      key ∈ ["clientId", "accessToken", "pageNo", "pageSize", "date", "lockAlias", "groupId"]) ∧
    (c.access_token_resp_lock.writer = false → ∀ resp : LockListResponse, resp.Errcode = 0 →
      c.GetLockList pageNo pageSize lockAlias groupId now
        (fun q =>
          if q = c.GetLockListRequest c.access_token_resp.AccessToken pageNo pageSize lockAlias
            groupId now then .decoded resp
          else .sendError "another request") = .ok (c, .ok resp)) := by
  refine ⟨?_, ?_, ?_, ?_, ?_, ?_, ?_, ?_, ?_⟩
  · by_cases ha : lockAlias = "" <;> by_cases hg : groupId = 0 <;>
      simp [Client.GetLockListRequest, Values.Set, Values.Get, ha, hg, List.lookup]
  · by_cases ha : lockAlias = "" <;> by_cases hg : groupId = 0 <;>
      simp [Client.GetLockListRequest, Values.Set, Values.Get, ha, hg, List.lookup]
  · by_cases ha : lockAlias = "" <;> by_cases hg : groupId = 0 <;>
      simp [Client.GetLockListRequest, Values.Set, Values.Get, ha, hg, List.lookup]
  · by_cases ha : lockAlias = "" <;> by_cases hg : groupId = 0 <;>
      simp [Client.GetLockListRequest, Values.Set, Values.Get, ha, hg, List.lookup]
  · by_cases ha : lockAlias = "" <;> by_cases hg : groupId = 0 <;>
      simp [Client.GetLockListRequest, Values.Set, Values.Get, ha, hg, List.lookup]
  · by_cases ha : lockAlias = "" <;> by_cases hg : groupId = 0 <;>
      simp [Client.GetLockListRequest, Values.Set, Values.Get, ha, hg, List.lookup]
  · by_cases ha : lockAlias = "" <;> by_cases hg : groupId = 0 <;>
      simp [Client.GetLockListRequest, Values.Set, Values.Get, ha, hg, List.lookup]
  · by_cases ha : lockAlias = "" <;> by_cases hg : groupId = 0 <;>
      simp [Client.GetLockListRequest, Values.Set, ha, hg]
  · intro hw resp hz
    simp [Client.GetLockList, Client.AccessToken_of_not_writer c hw, bind, Except.bind, pure,
      Except.pure, hz]

/-! ## The credential lifecycle -/

theorem latestAcquired_of_ok
    (net : Nat → HTTPRequest → Exchange AccessTokenResponse) (c : Client) (k : Nat)
    (r : AccessTokenResponse)
    (h : c.RefreshAccessToken (latestAcquired net c k).RefreshToken (net k) = .ok r) :
    latestAcquired net c (k + 1) = r := by
  simp only [latestAcquired, h]

theorem latestAcquired_of_error
    (net : Nat → HTTPRequest → Exchange AccessTokenResponse) (c : Client) (k : Nat)
    (e : GoError)
    (h : c.RefreshAccessToken (latestAcquired net c k).RefreshToken (net k) = .error e) :
    latestAcquired net c (k + 1) = latestAcquired net c k := by
  simp only [latestAcquired, h]

/-- The state of the renewal goroutine agrees with the history of acquisitions: the
client is the one it was started on, with the latest acquired credential in the store. -/
theorem lifecycle_round
    (net : Nat → HTTPRequest → Exchange AccessTokenResponse) (c0 : Client) (s : Sched)
    (hlock : c0.access_token_resp_lock = RWMutex.zero)
    (hs : s.c = { c0 with access_token_resp := latestAcquired net c0 s.calls }) :
    (∃ s1, refresh_access_token_round net s = .ok s1 ∧ s.calls < s1.calls ∧
      s1.c = { c0 with access_token_resp := latestAcquired net c0 s1.calls }) ∨
    (∃ msg s1, refresh_access_token_round net s = .error (.panic msg, s1) ∧
      s1.calls = s.calls + 3 ∧
      latestAcquired net c0 s1.calls = latestAcquired net c0 s.calls ∧
      s1.c = { c0 with access_token_resp := latestAcquired net c0 s1.calls }) := by
  have hfree : s.c.access_token_resp_lock = RWMutex.zero := by rw [hs]; exact hlock
  have hw : s.c.access_token_resp_lock.writer = false := by rw [hfree]; rfl
  have hcall : ∀ k, s.c.RefreshAccessToken s.c.access_token_resp.RefreshToken (net k) =
      c0.RefreshAccessToken (latestAcquired net c0 s.calls).RefreshToken (net k) := by
    intro k
    rw [hs]
    rfl
  have hset : ∀ r, ({ s.c with access_token_resp := r } : Client) =
      { c0 with access_token_resp := r } := by
    intro r
    rw [hs]
  cases h0 : s.c.RefreshAccessToken s.c.access_token_resp.RefreshToken (net s.calls) with
  | ok r0 =>
    left
    refine ⟨_, refresh_access_token_round_first net s r0 hfree h0, by simp, ?_⟩
    rw [hcall] at h0
    simp only [latestAcquired_of_ok net c0 _ r0 h0, hset]
  | error e0 =>
    have hl1 : latestAcquired net c0 (s.calls + 1) = latestAcquired net c0 s.calls := by
      rw [hcall] at h0
      exact latestAcquired_of_error net c0 _ e0 h0
    cases h1 : s.c.RefreshAccessToken s.c.access_token_resp.RefreshToken
        (net (s.calls + 1)) with
    | ok r1 =>
      left
      refine ⟨_, refresh_access_token_round_second net s e0 r1 hfree h0 h1, by simp, ?_⟩
      rw [hcall] at h1
      have : latestAcquired net c0 (s.calls + 2) = r1 :=
        latestAcquired_of_ok net c0 (s.calls + 1) r1 (by rw [hl1]; exact h1)
      simp only [this, hset]
    | error e1 =>
      have hl2 : latestAcquired net c0 (s.calls + 2) = latestAcquired net c0 s.calls := by
        rw [hcall] at h1
        exact (latestAcquired_of_error net c0 (s.calls + 1) e1 (by rw [hl1]; exact h1)).trans hl1
      cases h2 : s.c.RefreshAccessToken s.c.access_token_resp.RefreshToken
          (net (s.calls + 2)) with
      | ok r2 =>
        left
        refine ⟨_, refresh_access_token_round_third net s e0 e1 r2 hfree h0 h1 h2, by simp, ?_⟩
        rw [hcall] at h2
        have : latestAcquired net c0 (s.calls + 3) = r2 :=
          latestAcquired_of_ok net c0 (s.calls + 2) r2 (by rw [hl2]; exact h2)
        simp only [this, hset]
      | error e2 =>
        right
        have hl3 : latestAcquired net c0 (s.calls + 3) = latestAcquired net c0 s.calls := by
          rw [hcall] at h2
          exact (latestAcquired_of_error net c0 (s.calls + 2) e2
            (by rw [hl2]; exact h2)).trans hl2
        refine ⟨_, _, refresh_access_token_round_exhausted net s e0 e1 e2 hw h0 h1 h2, rfl,
          hl3, ?_⟩
        simp only [hl3]
        exact hs

theorem lifecycle_run
    (net : Nat → HTTPRequest → Exchange AccessTokenResponse) (c0 : Client)
    (hlock : c0.access_token_resp_lock = RWMutex.zero) (n : Nat) (s : Sched)
    (hs : s.c = { c0 with access_token_resp := latestAcquired net c0 s.calls }) :
    ∃ s1, (refresh_access_token net n s = .ok s1 ∨
        ∃ msg, refresh_access_token net n s = .error (.panic msg, s1)) ∧
      s1.c = { c0 with access_token_resp := latestAcquired net c0 s1.calls } := by
  induction n generalizing s with
  | zero => exact ⟨s, Or.inl rfl, hs⟩
  | succ n ih =>
    rcases lifecycle_round net c0 s hlock hs with ⟨s1, hr, _, hs1⟩ | ⟨msg, s1, hr, _, _, hs1⟩
    · obtain ⟨s2, hrun, hs2⟩ := ih s1 hs1
      refine ⟨s2, ?_, hs2⟩
      simp only [refresh_access_token, hr]
      exact hrun
    · refine ⟨s1, Or.inr ⟨msg, ?_⟩, hs1⟩
      simp only [refresh_access_token, hr]

theorem NewClient_ok (md5hex : String → String)
    (clientID clientSecret username password : String)
    (send : HTTPRequest → Exchange AccessTokenResponse) (c0 : Client)
    (h : NewClient md5hex clientID clientSecret username password send = .ok c0) :
    ∃ r0, (NewClient.literal clientID clientSecret username password).GetAccessToken
        md5hex send = .ok r0 ∧
      c0 = { NewClient.literal clientID clientSecret username password with
        access_token_resp := r0 } := by
  unfold NewClient at h
  cases hg : (NewClient.literal clientID clientSecret username password).GetAccessToken
      md5hex send with
  | error e => simp [hg] at h
  | ok r0 =>
    simp only [hg] at h
    rw [Client.update_access_token_resp_of_free _ r0 rfl] at h
    cases h
    exact ⟨r0, rfl, rfl⟩

/-- C17: a client that NewClient returned holds the bootstrap response; and however many
passes of the renewal loop have run on it, ended by the panic or not, the client is
the same but for its store, which holds the response of the most recent successful
acquisition, the bootstrap GetAccessToken or the latest RefreshAccessToken that
succeeded. A failed attempt changes nothing: after it the latest acquired credential
is what it was before. -/
theorem C17_store_holds_latest_acquired (md5hex : String → String)
    (clientID clientSecret username password : String)
    (send : HTTPRequest → Exchange AccessTokenResponse)
    (net : Nat → HTTPRequest → Exchange AccessTokenResponse) (c0 : Client) (n : Nat)
    (h : NewClient md5hex clientID clientSecret username password send = .ok c0) :
    (∃ r0, (NewClient.literal clientID clientSecret username password).GetAccessToken
        md5hex send = .ok r0 ∧ c0.access_token_resp = r0 ∧
        latestAcquired net c0 0 = r0) ∧
    (∃ s, (refresh_access_token net n (Sched.start c0) = .ok s ∨
        ∃ msg, refresh_access_token net n (Sched.start c0) = .error (.panic msg, s)) ∧
      s.c.access_token_resp = latestAcquired net c0 s.calls ∧
      s.c = { c0 with access_token_resp := latestAcquired net c0 s.calls }) ∧
    (∀ k e, c0.RefreshAccessToken (latestAcquired net c0 k).RefreshToken (net k) = .error e →
      latestAcquired net c0 (k + 1) = latestAcquired net c0 k) ∧
    (∀ k r, c0.RefreshAccessToken (latestAcquired net c0 k).RefreshToken (net k) = .ok r →
      latestAcquired net c0 (k + 1) = r) := by
  obtain ⟨r0, hget, hc0⟩ := NewClient_ok md5hex clientID clientSecret username password send c0 h
  have hlock : c0.access_token_resp_lock = RWMutex.zero := by rw [hc0]; rfl
  refine ⟨⟨r0, hget, by rw [hc0], by rw [hc0]; rfl⟩, ?_, ?_, ?_⟩
  · obtain ⟨s, hrun, hs⟩ := lifecycle_run net c0 hlock n (Sched.start c0) rfl
    exact ⟨s, hrun, by rw [hs], hs⟩
  · intro k e he
    exact latestAcquired_of_error net c0 k e he
  · intro k r hr
    exact latestAcquired_of_ok net c0 k r hr

theorem C17_store_holds_latest_acquired_witness :
    ∃ s, (refresh_access_token
          (fun k _ => if k < 2 then .sendError "timeout"
            else if k < 3 then .decoded (sampleCredential "a1" "r1" 200000)
            else .sendError "timeout") 2
          (Sched.start (sampleClient (sampleCredential "a" "r" 7200))) = .ok s ∨
        ∃ msg, refresh_access_token
          (fun k _ => if k < 2 then .sendError "timeout"
            else if k < 3 then .decoded (sampleCredential "a1" "r1" 200000)
            else .sendError "timeout") 2
          (Sched.start (sampleClient (sampleCredential "a" "r" 7200))) =
          .error (.panic msg, s)) ∧
      s.c.access_token_resp = latestAcquired
        (fun k _ => if k < 2 then .sendError "timeout"
          else if k < 3 then .decoded (sampleCredential "a1" "r1" 200000)
          else .sendError "timeout") (sampleClient (sampleCredential "a" "r" 7200)) s.calls ∧
      s.c = { sampleClient (sampleCredential "a" "r" 7200) with
        access_token_resp := latestAcquired
          (fun k _ => if k < 2 then .sendError "timeout"
            else if k < 3 then .decoded (sampleCredential "a1" "r1" 200000)
            else .sendError "timeout") (sampleClient (sampleCredential "a" "r" 7200)) s.calls } :=
  (C17_store_holds_latest_acquired sampleDigest "id" "secret" "user" "password"
    (fun _ => .decoded (sampleCredential "a" "r" 7200))
    (fun k _ => if k < 2 then .sendError "timeout"
      else if k < 3 then .decoded (sampleCredential "a1" "r1" 200000)
      else .sendError "timeout")
    (sampleClient (sampleCredential "a" "r" 7200)) 2 rfl).2.1

/-! ## Iterating over a paged listing -/

theorem pagedItems_self {α : Type} (pages : Nat → List α) (n : Nat) :
    pagedItems pages n n = [] := by
  simp [pagedItems]

theorem pagedItems_lt {α : Type} (pages : Nat → List α) (k n : Nat) (h : k < n) :
    pagedItems pages k n = pages (k + 1) ++ pagedItems pages (k + 1) n := by
  unfold pagedItems
  have : n - k = (n - (k + 1)) + 1 := by omega
  rw [this, List.range'_succ, List.flatMap_cons]

theorem pagedRequests_self (n : Nat) : pagedRequests n n = [] := by
  simp [pagedRequests]

theorem pagedRequests_lt (k n : Nat) (h : k < n) :
    pagedRequests k n = (((k + 1 : Nat) : Int), 200) :: pagedRequests (k + 1) n := by
  unfold pagedRequests
  have : n - k = (n - (k + 1)) + 1 := by omega
  rw [this, List.range'_succ, List.map_cons]

theorem Client.GetLockList_ok (c : Client) (pageNo pageSize : Int) (lockAlias : String)
    (groupId : Int) (now : Int) (send : HTTPRequest → Exchange LockListResponse)
    (resp : LockListResponse)
    (hw : c.access_token_resp_lock.writer = false)
    (h : send (c.GetLockListRequest c.access_token_resp.AccessToken pageNo pageSize lockAlias
      groupId now) = .decoded resp)
    (hz : resp.Errcode = 0) :
    c.GetLockList pageNo pageSize lockAlias groupId now send = .ok (c, .ok resp) := by
  simp [Client.GetLockList, Client.AccessToken_of_not_writer c hw, bind, Except.bind, pure,
    Except.pure, h, hz]

theorem LockIterator_takeItem_of_lt (it : LockIterator) (c : Client)
    (fetched : List (Int × Int)) (h0 : 0 ≤ it.index) (hlt : it.index < it.items.length) :
    ∃ x, it.items.drop it.index.toNat = x :: it.items.drop (it.index.toNat + 1) ∧
      it.takeItem c fetched = .ok
        { c := c, it := { it with index := it.index + 1 }, fetched := fetched,
          result := .ok (some x) } := by
  have hn : it.index.toNat < it.items.length := by omega
  refine ⟨it.items[it.index.toNat], List.drop_eq_getElem_cons hn, ?_⟩
  have hneg : ¬ it.index < 0 := by omega
  simp only [LockIterator.takeItem, hneg, if_false, List.getElem?_eq_getElem hn]

/-- One Next call on a paged listing: at the end it returns `(nil, nil)`, requests nothing
and changes nothing; before the end it returns the first item still to come,
requesting the next page when the buffered one is used up. -/
theorem LockIterator_Next_paging (c : Client) (lockAlias : String) (groupId : Int)
    (send : HTTPRequest → Exchange LockListResponse) (n : Nat) (resp : Nat → LockListResponse)
    (hw : c.access_token_resp_lock.writer = false)
    (hresp : ∀ k : Nat, 1 ≤ k → k ≤ n → ∀ now,
      send (c.GetLockListRequest c.access_token_resp.AccessToken k 200 lockAlias groupId now) =
        .decoded (resp k))
    (hok : ∀ k : Nat, 1 ≤ k → k ≤ n →
      (resp k).Errcode = 0 ∧ (resp k).Pages = n ∧ (resp k).List ≠ [])
    (it : LockIterator) (k : Nat) (hJ : LockIterator.Paging lockAlias groupId n k it)
    (now : Int) :
    (it.items.drop it.index.toNat ++ pagedItems (fun j => (resp j).List) k n = [] →
      it.Next c now send = .ok { c := c, it := it, fetched := [], result := .ok none } ∧
      pagedRequests k n = []) ∧
    (∀ x xs, it.items.drop it.index.toNat ++ pagedItems (fun j => (resp j).List) k n = x :: xs →
      ∃ it1 k1 fetched,
        it.Next c now send =
          .ok { c := c, it := it1, fetched := fetched, result := .ok (some x) } ∧
        LockIterator.Paging lockAlias groupId n k1 it1 ∧
        it1.items.drop it1.index.toNat ++ pagedItems (fun j => (resp j).List) k1 n = xs ∧
        fetched ++ pagedRequests k1 n = pagedRequests k n) := by
  obtain ⟨hpage, hle, hsize, halias, hgroup, hidx0, hidxle, hdone⟩ := hJ
  by_cases hlt : it.index < it.items.length
  · -- an item is buffered
    obtain ⟨y, hdrop, htake⟩ := LockIterator_takeItem_of_lt it c [] hidx0 hlt
    have hnext : it.Next c now send = .ok
        { c := c, it := { it with index := it.index + 1 }, fetched := [],
          result := .ok (some y) } := by
      have : ¬ it.index ≥ it.items.length := by omega
      simp only [LockIterator.Next, this, if_false, htake]
    constructor
    · intro hnil
      rw [hdrop] at hnil
      simp at hnil
    · intro x xs hx
      rw [hdrop, List.cons_append, List.cons.injEq] at hx
      obtain ⟨rfl, rfl⟩ := hx
      refine ⟨_, k, [], hnext, ⟨hpage, hle, hsize, halias, hgroup, by simp only; omega,
        by simp only; omega, hdone⟩, ?_, by simp⟩
      have : (it.index + 1).toNat = it.index.toNat + 1 := by omega
      simp only [this]
  · -- the buffer is used up
    have hge : it.index ≥ it.items.length := by omega
    have hdrop : it.items.drop it.index.toNat = [] := by
      apply List.drop_eq_nil_of_le
      omega
    by_cases hkn : k = n
    · subst hkn
      have hd : it.done = true := by simp [hdone]
      constructor
      · intro _
        exact ⟨by simp only [LockIterator.Next, hge, if_true, hd], pagedRequests_self k⟩
      · intro x xs hx
        rw [hdrop, pagedItems_self] at hx
        simp at hx
    · have hklt : k < n := by omega
      have hd : it.done = false := by simp [hdone, hklt]
      obtain ⟨hz, hpages, hne⟩ := hok (k + 1) (by omega) (by omega)
      obtain ⟨y, ys, hys⟩ := List.exists_cons_of_ne_nil hne
      have hitems : pagedItems (fun j => (resp j).List) k n =
          y :: (ys ++ pagedItems (fun j => (resp j).List) (k + 1) n) := by
        rw [pagedItems_lt _ k n hklt]
        simp only [hys, List.cons_append]
      constructor
      · intro hnil
        rw [hdrop, hitems] at hnil
        simp at hnil
      · intro x xs hx
        rw [hdrop, hitems, List.nil_append, List.cons.injEq] at hx
        obtain ⟨rfl, rfl⟩ := hx
        have hget := Client.GetLockList_ok c ((k + 1 : Nat) : Int) 200 lockAlias groupId now send
          (resp (k + 1)) hw (hresp (k + 1) (by omega) (by omega) now) hz
        have hpno : it.pageNo + 1 = ((k + 1 : Nat) : Int) := by rw [hpage]; push_cast; rfl
        have hlen : ¬ (resp (k + 1)).List.length = 0 := by rw [hys]; simp
        refine ⟨{ it with pageNo := ((k + 1 : Nat) : Int), items := (resp (k + 1)).List,
                          index := 0 + 1, done := decide (n ≤ k + 1) },
          k + 1, [(((k + 1 : Nat) : Int), 200)], ?_, ?_, ?_, ?_⟩
        · simp only [LockIterator.Next, hge, if_true, hd, Bool.false_eq_true, if_false, hpno,
            hsize, halias, hgroup, hget, hlen, hpages]
          by_cases hlast : (n : Int) ≤ (k : Int) + 1
          · have hnk : n ≤ k + 1 := by omega
            simp [LockIterator.takeItem, hlast, hys, hnk]
          · have hnk : ¬ n ≤ k + 1 := by omega
            simp [LockIterator.takeItem, hlast, hys, hnk, hd]
        · exact ⟨rfl, by omega, hsize, halias, hgroup, by simp, by simp [hys], rfl⟩
        · simp [hys]
        · rw [pagedRequests_lt k n hklt]
          rfl

/-- Any number of Next calls on a paged listing return the items still to come, in
order, then `(nil, nil)`; the pages they request are the next ones in order. -/
theorem LockIterator_NextTimes_paging (c : Client) (lockAlias : String) (groupId : Int)
    (send : HTTPRequest → Exchange LockListResponse) (n : Nat) (resp : Nat → LockListResponse)
    (hw : c.access_token_resp_lock.writer = false)
    (hresp : ∀ k : Nat, 1 ≤ k → k ≤ n → ∀ now,
      send (c.GetLockListRequest c.access_token_resp.AccessToken k 200 lockAlias groupId now) =
        .decoded (resp k))
    (hok : ∀ k : Nat, 1 ≤ k → k ≤ n →
      (resp k).Errcode = 0 ∧ (resp k).Pages = n ∧ (resp k).List ≠ [])
    (m : Nat) (clock : Nat → Int) (it : LockIterator) (k : Nat)
    (hJ : LockIterator.Paging lockAlias groupId n k it) :
    ∃ it1 k1 fetched,
      LockIterator.NextTimes send m clock c it = .ok (c, it1, fetched,
        ((it.items.drop it.index.toNat ++ pagedItems (fun j => (resp j).List) k n).take m).map
          (fun x => .ok (some x)) ++
        List.replicate
          (m - (it.items.drop it.index.toNat ++ pagedItems (fun j => (resp j).List) k n).length)
          (.ok none)) ∧
      LockIterator.Paging lockAlias groupId n k1 it1 ∧
      it1.items.drop it1.index.toNat ++ pagedItems (fun j => (resp j).List) k1 n =
        (it.items.drop it.index.toNat ++ pagedItems (fun j => (resp j).List) k n).drop m ∧
      fetched ++ pagedRequests k1 n = pagedRequests k n := by
  induction m generalizing clock it k with
  | zero => exact ⟨it, k, [], by simp [LockIterator.NextTimes], hJ, by simp, by simp⟩
  | succ m ih =>
    obtain ⟨hend, hmore⟩ := LockIterator_Next_paging c lockAlias groupId send n resp hw hresp hok
      it k hJ (clock 0)
    cases hrem : it.items.drop it.index.toNat ++ pagedItems (fun j => (resp j).List) k n with
    | nil =>
      obtain ⟨hnext, _⟩ := hend hrem
      obtain ⟨it1, k1, fetched, hrun, hJ1, hrem1, hf1⟩ := ih (fun j => clock (j + 1)) it k hJ
      rw [hrem] at hrun hrem1
      refine ⟨it1, k1, fetched, ?_, hJ1, by simpa using hrem1, hf1⟩
      simp only [LockIterator.NextTimes, hnext, hrun]
      simp [List.replicate_succ]
    | cons x xs =>
      obtain ⟨it1, k1, f1, hnext, hJ1, hrem1, hf1⟩ := hmore x xs hrem
      obtain ⟨it2, k2, f2, hrun, hJ2, hrem2, hf2⟩ := ih (fun j => clock (j + 1)) it1 k1 hJ1
      rw [hrem1] at hrun hrem2
      refine ⟨it2, k2, f1 ++ f2, ?_, hJ2, by simpa using hrem2, ?_⟩
      · simp only [LockIterator.NextTimes, hnext, hrun]
        simp
      · rw [List.append_assoc, hf2, hf1]

/-- A fresh iterator of IterateLocks: on a server that never errors, reports n pages, n at least 1, and
returns a non-empty list for each page 1..n, m successive Next calls on a fresh
iterator return the items of page 1, page 2, ..., page n in order, each once, and
`(nil, nil)` from then on; the pages they request are 1, 2, ... in order, each with
page size 200, never a page after n, and all n of them once the items are used up. -/
theorem LockIterator_fresh_paging (c : Client) (lockAlias : String) (groupId : Int)
    (send : HTTPRequest → Exchange LockListResponse) (n : Nat) (resp : Nat → LockListResponse)
    (m : Nat) (clock : Nat → Int)
    (hw : c.access_token_resp_lock.writer = false)
    (hn : 1 ≤ n)
    (hresp : ∀ k : Nat, 1 ≤ k → k ≤ n → ∀ now,
      send (c.GetLockListRequest c.access_token_resp.AccessToken k 200 lockAlias groupId now) =
        .decoded (resp k))
    (hok : ∀ k : Nat, 1 ≤ k → k ≤ n →
      (resp k).Errcode = 0 ∧ (resp k).Pages = n ∧ (resp k).List ≠ []) :
    ∃ it0 it1 fetched,
      c.IterateLocks lockAlias groupId = .ok (c, it0) ∧
      LockIterator.NextTimes send m clock c it0 = .ok (c, it1, fetched,
        ((pagedItems (fun j => (resp j).List) 0 n).take m).map (fun x => .ok (some x)) ++
        List.replicate (m - (pagedItems (fun j => (resp j).List) 0 n).length) (.ok none)) ∧
      fetched <+: pagedRequests 0 n ∧
      ((pagedItems (fun j => (resp j).List) 0 n).length ≤ m → fetched = pagedRequests 0 n) ∧
      pagedItems (fun j => (resp j).List) 0 n =
        (List.range' 1 n).flatMap (fun j => (resp j).List) ∧
      pagedRequests 0 n = (List.range' 1 n).map (fun (j : Nat) => ((j : Int), (200 : Int))) := by
  have hJ0 : LockIterator.Paging lockAlias groupId n 0
      { accessToken := c.access_token_resp.AccessToken, lockAlias := lockAlias,
        groupId := groupId, pageNo := 0, pageSize := 200, items := [], index := 0,
        done := false } :=
    ⟨rfl, by omega, rfl, rfl, rfl, by simp, by simp, by
      have : ¬ n ≤ 0 := by omega
      simp [this]⟩
  obtain ⟨it1, k1, fetched, hrun, hJ1, hrem1, hf1⟩ :=
    LockIterator_NextTimes_paging c lockAlias groupId send n resp hw hresp hok m clock _ 0 hJ0
  simp only [List.drop_nil, List.nil_append, Int.toNat_zero] at hrun hrem1
  refine ⟨_, it1, fetched, ?_, hrun, ⟨_, hf1⟩, ?_, rfl, rfl⟩
  · simp [Client.IterateLocks, Client.AccessToken_of_not_writer c hw, bind, Except.bind, pure,
      Except.pure]
  · intro hlen
    have hnil : it1.items.drop it1.index.toNat ++ pagedItems (fun j => (resp j).List) k1 n =
        [] := by
      rw [hrem1]
      exact List.drop_eq_nil_of_le hlen
    obtain ⟨hend, _⟩ := LockIterator_Next_paging c lockAlias groupId send n resp hw hresp hok
      it1 k1 hJ1 0
    obtain ⟨_, hreq⟩ := hend hnil
    rw [hreq, List.append_nil] at hf1
    exact hf1

theorem Client.GetPasscodeList_ok (c : Client) (lockID pageNo pageSize orderBy : Int)
    (searchStr : String) (now : Int) (send : HTTPRequest → Exchange PasscodeListResponse)
    (resp : PasscodeListResponse)
    (hw : c.access_token_resp_lock.writer = false)
    (h : send (c.GetPasscodeListRequest c.access_token_resp.AccessToken lockID pageNo pageSize
      orderBy searchStr now) = .decoded resp)
    (hz : resp.Errcode = 0) :
    c.GetPasscodeList lockID pageNo pageSize orderBy searchStr now send = .ok (c, .ok resp) := by
  simp [Client.GetPasscodeList, Client.AccessToken_of_not_writer c hw, bind, Except.bind, pure,
    Except.pure, h, hz]

theorem PasscodeIterator_takeItem_of_lt (it : PasscodeIterator) (c : Client)
    (fetched : List (Int × Int)) (h0 : 0 ≤ it.index) (hlt : it.index < it.items.length) :
    ∃ x, it.items.drop it.index.toNat = x :: it.items.drop (it.index.toNat + 1) ∧
      it.takeItem c fetched = .ok
        { c := c, it := { it with index := it.index + 1 }, fetched := fetched,
          result := .ok (some x) } := by
  have hn : it.index.toNat < it.items.length := by omega
  refine ⟨it.items[it.index.toNat], List.drop_eq_getElem_cons hn, ?_⟩
  have hneg : ¬ it.index < 0 := by omega
  simp only [PasscodeIterator.takeItem, hneg, if_false, List.getElem?_eq_getElem hn]

/-- One Next call on a paged listing: at the end it returns `(nil, nil)`, requests nothing
and changes nothing; before the end it returns the first item still to come,
requesting the next page when the buffered one is used up. -/
theorem PasscodeIterator_Next_paging (c : Client) (lockID orderBy : Int) (searchStr : String)
    (send : HTTPRequest → Exchange PasscodeListResponse) (n : Nat) (resp : Nat → PasscodeListResponse)
    (hw : c.access_token_resp_lock.writer = false)
    (hresp : ∀ k : Nat, 1 ≤ k → k ≤ n → ∀ now,
      send (c.GetPasscodeListRequest c.access_token_resp.AccessToken lockID k 200 orderBy searchStr now) =
        .decoded (resp k))
    (hok : ∀ k : Nat, 1 ≤ k → k ≤ n →
      (resp k).Errcode = 0 ∧ (resp k).Pages = n ∧ (resp k).List ≠ [])
    (it : PasscodeIterator) (k : Nat) (hJ : PasscodeIterator.Paging lockID orderBy searchStr n k it)
    (now : Int) :
    (it.items.drop it.index.toNat ++ pagedItems (fun j => (resp j).List) k n = [] →
      it.Next c now send = .ok { c := c, it := it, fetched := [], result := .ok none } ∧
      pagedRequests k n = []) ∧
    (∀ x xs, it.items.drop it.index.toNat ++ pagedItems (fun j => (resp j).List) k n = x :: xs →
      ∃ it1 k1 fetched,
        it.Next c now send =
          .ok { c := c, it := it1, fetched := fetched, result := .ok (some x) } ∧
        PasscodeIterator.Paging lockID orderBy searchStr n k1 it1 ∧
        it1.items.drop it1.index.toNat ++ pagedItems (fun j => (resp j).List) k1 n = xs ∧
        fetched ++ pagedRequests k1 n = pagedRequests k n) := by
  obtain ⟨hpage, hle, hsize, hlock, horder, hsearch, hidx0, hidxle, hdone⟩ := hJ
  by_cases hlt : it.index < it.items.length
  · -- an item is buffered
    obtain ⟨y, hdrop, htake⟩ := PasscodeIterator_takeItem_of_lt it c [] hidx0 hlt
    have hnext : it.Next c now send = .ok
        { c := c, it := { it with index := it.index + 1 }, fetched := [],
          result := .ok (some y) } := by
      have : ¬ it.index ≥ it.items.length := by omega
      simp only [PasscodeIterator.Next, this, if_false, htake]
    constructor
    · intro hnil
      rw [hdrop] at hnil
      simp at hnil
    · intro x xs hx
      rw [hdrop, List.cons_append, List.cons.injEq] at hx
      obtain ⟨rfl, rfl⟩ := hx
      refine ⟨_, k, [], hnext, ⟨hpage, hle, hsize, hlock, horder, hsearch, by simp only; omega,
        by simp only; omega, hdone⟩, ?_, by simp⟩
      have : (it.index + 1).toNat = it.index.toNat + 1 := by omega
      simp only [this]
  · -- the buffer is used up
    have hge : it.index ≥ it.items.length := by omega
    have hdrop : it.items.drop it.index.toNat = [] := by
      apply List.drop_eq_nil_of_le
      omega
    by_cases hkn : k = n
    · subst hkn
      have hd : it.done = true := by simp [hdone]
      constructor
      · intro _
        exact ⟨by simp only [PasscodeIterator.Next, hge, if_true, hd], pagedRequests_self k⟩
      · intro x xs hx
        rw [hdrop, pagedItems_self] at hx
        simp at hx
    · have hklt : k < n := by omega
      have hd : it.done = false := by simp [hdone, hklt]
      obtain ⟨hz, hpages, hne⟩ := hok (k + 1) (by omega) (by omega)
      obtain ⟨y, ys, hys⟩ := List.exists_cons_of_ne_nil hne
      have hitems : pagedItems (fun j => (resp j).List) k n =
          y :: (ys ++ pagedItems (fun j => (resp j).List) (k + 1) n) := by
        rw [pagedItems_lt _ k n hklt]
        simp only [hys, List.cons_append]
      constructor
      · intro hnil
        rw [hdrop, hitems] at hnil
        simp at hnil
      · intro x xs hx
        rw [hdrop, hitems, List.nil_append, List.cons.injEq] at hx
        obtain ⟨rfl, rfl⟩ := hx
        have hget := Client.GetPasscodeList_ok c lockID ((k + 1 : Nat) : Int) 200 orderBy searchStr now send
          (resp (k + 1)) hw (hresp (k + 1) (by omega) (by omega) now) hz
        have hpno : it.pageNo + 1 = ((k + 1 : Nat) : Int) := by rw [hpage]; push_cast; rfl
        have hlen : ¬ (resp (k + 1)).List.length = 0 := by rw [hys]; simp
        refine ⟨{ it with pageNo := ((k + 1 : Nat) : Int), items := (resp (k + 1)).List,
                          index := 0 + 1, done := decide (n ≤ k + 1) },
          k + 1, [(((k + 1 : Nat) : Int), 200)], ?_, ?_, ?_, ?_⟩
        · simp only [PasscodeIterator.Next, hge, if_true, hd, Bool.false_eq_true, if_false, hpno,
            hsize, hlock, horder, hsearch, hget, hlen, hpages]
          by_cases hlast : (n : Int) ≤ (k : Int) + 1
          · have hnk : n ≤ k + 1 := by omega
            simp [PasscodeIterator.takeItem, hlast, hys, hnk]
          · have hnk : ¬ n ≤ k + 1 := by omega
            simp [PasscodeIterator.takeItem, hlast, hys, hnk, hd]
        · exact ⟨rfl, by omega, hsize, hlock, horder, hsearch, by simp, by simp [hys], rfl⟩
        · simp [hys]
        · rw [pagedRequests_lt k n hklt]
          rfl

/-- Any number of Next calls on a paged listing return the items still to come, in
order, then `(nil, nil)`; the pages they request are the next ones in order. -/
theorem PasscodeIterator_NextTimes_paging (c : Client) (lockID orderBy : Int) (searchStr : String)
    (send : HTTPRequest → Exchange PasscodeListResponse) (n : Nat) (resp : Nat → PasscodeListResponse)
    (hw : c.access_token_resp_lock.writer = false)
    (hresp : ∀ k : Nat, 1 ≤ k → k ≤ n → ∀ now,
      send (c.GetPasscodeListRequest c.access_token_resp.AccessToken lockID k 200 orderBy searchStr now) =
        .decoded (resp k))
    (hok : ∀ k : Nat, 1 ≤ k → k ≤ n →
      (resp k).Errcode = 0 ∧ (resp k).Pages = n ∧ (resp k).List ≠ [])
    (m : Nat) (clock : Nat → Int) (it : PasscodeIterator) (k : Nat)
    (hJ : PasscodeIterator.Paging lockID orderBy searchStr n k it) :
    ∃ it1 k1 fetched,
      PasscodeIterator.NextTimes send m clock c it = .ok (c, it1, fetched,
        ((it.items.drop it.index.toNat ++ pagedItems (fun j => (resp j).List) k n).take m).map
          (fun x => .ok (some x)) ++
        List.replicate
          (m - (it.items.drop it.index.toNat ++ pagedItems (fun j => (resp j).List) k n).length)
          (.ok none)) ∧
      PasscodeIterator.Paging lockID orderBy searchStr n k1 it1 ∧
      it1.items.drop it1.index.toNat ++ pagedItems (fun j => (resp j).List) k1 n =
        (it.items.drop it.index.toNat ++ pagedItems (fun j => (resp j).List) k n).drop m ∧
      fetched ++ pagedRequests k1 n = pagedRequests k n := by
  induction m generalizing clock it k with
  | zero => exact ⟨it, k, [], by simp [PasscodeIterator.NextTimes], hJ, by simp, by simp⟩
  | succ m ih =>
    obtain ⟨hend, hmore⟩ := PasscodeIterator_Next_paging c lockID orderBy searchStr send n resp hw hresp hok
      it k hJ (clock 0)
    cases hrem : it.items.drop it.index.toNat ++ pagedItems (fun j => (resp j).List) k n with
    | nil =>
      obtain ⟨hnext, _⟩ := hend hrem
      obtain ⟨it1, k1, fetched, hrun, hJ1, hrem1, hf1⟩ := ih (fun j => clock (j + 1)) it k hJ
      rw [hrem] at hrun hrem1
      refine ⟨it1, k1, fetched, ?_, hJ1, by simpa using hrem1, hf1⟩
      simp only [PasscodeIterator.NextTimes, hnext, hrun]
      simp [List.replicate_succ]
    | cons x xs =>
      obtain ⟨it1, k1, f1, hnext, hJ1, hrem1, hf1⟩ := hmore x xs hrem
      obtain ⟨it2, k2, f2, hrun, hJ2, hrem2, hf2⟩ := ih (fun j => clock (j + 1)) it1 k1 hJ1
      rw [hrem1] at hrun hrem2
      refine ⟨it2, k2, f1 ++ f2, ?_, hJ2, by simpa using hrem2, ?_⟩
      · simp only [PasscodeIterator.NextTimes, hnext, hrun]
        simp
      · rw [List.append_assoc, hf2, hf1]

/-- A fresh iterator of IteratePasscodes: on a server that never errors, reports n pages, n at least 1, and
returns a non-empty list for each page 1..n, m successive Next calls on a fresh
iterator return the items of page 1, page 2, ..., page n in order, each once, and
`(nil, nil)` from then on; the pages they request are 1, 2, ... in order, each with
page size 200, never a page after n, and all n of them once the items are used up. -/
theorem PasscodeIterator_fresh_paging (c : Client) (lockID orderBy : Int) (searchStr : String)
    (send : HTTPRequest → Exchange PasscodeListResponse) (n : Nat) (resp : Nat → PasscodeListResponse)
    (m : Nat) (clock : Nat → Int)
    (hw : c.access_token_resp_lock.writer = false)
    (hn : 1 ≤ n)
    (hresp : ∀ k : Nat, 1 ≤ k → k ≤ n → ∀ now,
      send (c.GetPasscodeListRequest c.access_token_resp.AccessToken lockID k 200 orderBy searchStr now) =
        .decoded (resp k))
    (hok : ∀ k : Nat, 1 ≤ k → k ≤ n →
      (resp k).Errcode = 0 ∧ (resp k).Pages = n ∧ (resp k).List ≠ []) :
    ∃ it0 it1 fetched,
      c.IteratePasscodes lockID orderBy searchStr = .ok (c, it0) ∧
      PasscodeIterator.NextTimes send m clock c it0 = .ok (c, it1, fetched,
        ((pagedItems (fun j => (resp j).List) 0 n).take m).map (fun x => .ok (some x)) ++
        List.replicate (m - (pagedItems (fun j => (resp j).List) 0 n).length) (.ok none)) ∧
      fetched <+: pagedRequests 0 n ∧
      ((pagedItems (fun j => (resp j).List) 0 n).length ≤ m → fetched = pagedRequests 0 n) ∧
      pagedItems (fun j => (resp j).List) 0 n =
        (List.range' 1 n).flatMap (fun j => (resp j).List) ∧
      pagedRequests 0 n = (List.range' 1 n).map (fun (j : Nat) => ((j : Int), (200 : Int))) := by
  have hJ0 : PasscodeIterator.Paging lockID orderBy searchStr n 0
      { accessToken := c.access_token_resp.AccessToken, lockID := lockID,
        orderBy := orderBy, searchStr := searchStr, pageNo := 0, pageSize := 200, items := [], index := 0,
        done := false } :=
    ⟨rfl, by omega, rfl, rfl, rfl, rfl, by simp, by simp, by
      have : ¬ n ≤ 0 := by omega
      simp [this]⟩
  obtain ⟨it1, k1, fetched, hrun, hJ1, hrem1, hf1⟩ :=
    PasscodeIterator_NextTimes_paging c lockID orderBy searchStr send n resp hw hresp hok m clock _ 0 hJ0
  simp only [List.drop_nil, List.nil_append, Int.toNat_zero] at hrun hrem1
  refine ⟨_, it1, fetched, ?_, hrun, ⟨_, hf1⟩, ?_, rfl, rfl⟩
  · simp [Client.IteratePasscodes, Client.AccessToken_of_not_writer c hw, bind, Except.bind, pure,
      Except.pure]
  · intro hlen
    have hnil : it1.items.drop it1.index.toNat ++ pagedItems (fun j => (resp j).List) k1 n =
        [] := by
      rw [hrem1]
      exact List.drop_eq_nil_of_le hlen
    obtain ⟨hend, _⟩ := PasscodeIterator_Next_paging c lockID orderBy searchStr send n resp hw hresp hok
      it1 k1 hJ1 0
    obtain ⟨_, hreq⟩ := hend hnil
    rw [hreq, List.append_nil] at hf1
    exact hf1

/-- C13: on a server that never errors, reports n pages, n at least 1, and returns a
non-empty list for each page 1..n, m successive Next calls on a fresh iterator of
IterateLocks, and likewise of IteratePasscodes, return the items of page 1, page 2,
..., page n in order, each once, and `(nil, nil)` from then on; the pages they request
are 1, 2, ... in order, each with page size 200, never a page after n, and all n of them
once the items are used up. -/
theorem C13_iterators_walk_the_pages (c : Client)
    (lockAlias : String) (groupId : Int)
    (send : HTTPRequest → Exchange LockListResponse) (n : Nat) (resp : Nat → LockListResponse)
    (lockID orderBy : Int) (searchStr : String)
    (sendP : HTTPRequest → Exchange PasscodeListResponse) (nP : Nat)
    (respP : Nat → PasscodeListResponse)
    (m : Nat) (clock : Nat → Int)
    (hw : c.access_token_resp_lock.writer = false)
    (hn : 1 ≤ n)
    (hresp : ∀ k : Nat, 1 ≤ k → k ≤ n → ∀ now,
      send (c.GetLockListRequest c.access_token_resp.AccessToken k 200 lockAlias groupId now) =
        .decoded (resp k))
    (hok : ∀ k : Nat, 1 ≤ k → k ≤ n →
      (resp k).Errcode = 0 ∧ (resp k).Pages = n ∧ (resp k).List ≠ [])
    (hnP : 1 ≤ nP)
    (hrespP : ∀ k : Nat, 1 ≤ k → k ≤ nP → ∀ now,
      sendP (c.GetPasscodeListRequest c.access_token_resp.AccessToken lockID k 200 orderBy
        searchStr now) = .decoded (respP k))
    (hokP : ∀ k : Nat, 1 ≤ k → k ≤ nP →
      (respP k).Errcode = 0 ∧ (respP k).Pages = nP ∧ (respP k).List ≠ []) :
    (∃ it0 it1 fetched,
      c.IterateLocks lockAlias groupId = .ok (c, it0) ∧
      LockIterator.NextTimes send m clock c it0 = .ok (c, it1, fetched,
        ((pagedItems (fun j => (resp j).List) 0 n).take m).map (fun x => .ok (some x)) ++
        List.replicate (m - (pagedItems (fun j => (resp j).List) 0 n).length) (.ok none)) ∧
      fetched <+: pagedRequests 0 n ∧
      ((pagedItems (fun j => (resp j).List) 0 n).length ≤ m → fetched = pagedRequests 0 n) ∧
      pagedItems (fun j => (resp j).List) 0 n =
        (List.range' 1 n).flatMap (fun j => (resp j).List) ∧
      pagedRequests 0 n =
        (List.range' 1 n).map (fun (j : Nat) => ((j : Int), (200 : Int)))) ∧
    (∃ it0 it1 fetched,
      c.IteratePasscodes lockID orderBy searchStr = .ok (c, it0) ∧
      PasscodeIterator.NextTimes sendP m clock c it0 = .ok (c, it1, fetched,
        ((pagedItems (fun j => (respP j).List) 0 nP).take m).map (fun x => .ok (some x)) ++
        List.replicate (m - (pagedItems (fun j => (respP j).List) 0 nP).length) (.ok none)) ∧
      fetched <+: pagedRequests 0 nP ∧
      ((pagedItems (fun j => (respP j).List) 0 nP).length ≤ m → fetched = pagedRequests 0 nP) ∧
      pagedItems (fun j => (respP j).List) 0 nP =
        (List.range' 1 nP).flatMap (fun j => (respP j).List) ∧
      pagedRequests 0 nP =
        (List.range' 1 nP).map (fun (j : Nat) => ((j : Int), (200 : Int)))) :=
  ⟨LockIterator_fresh_paging c lockAlias groupId send n resp m clock hw hn hresp hok,
   PasscodeIterator_fresh_paging c lockID orderBy searchStr sendP nP respP m clock hw hnP hrespP
     hokP⟩

theorem sampleLockServer_pages (k : Nat) (h1 : 1 ≤ k) (h2 : k ≤ 2) (now : Int) :
    sampleLockServer ((sampleClient (sampleCredential "a" "r" 7200)).GetLockListRequest
      (sampleClient (sampleCredential "a" "r" 7200)).access_token_resp.AccessToken k 200 "" 0
      now) = .decoded (sampleLockPage k) := by
  have : k = 1 ∨ k = 2 := by omega
  rcases this with rfl | rfl <;> rfl

theorem samplePasscodeServer_pages (k : Nat) (h1 : 1 ≤ k) (h2 : k ≤ 1) (now : Int) :
    samplePasscodeServer ((sampleClient (sampleCredential "a" "r" 7200)).GetPasscodeListRequest
      (sampleClient (sampleCredential "a" "r" 7200)).access_token_resp.AccessToken 7 k 200 0 ""
      now) = .decoded (samplePasscodePage k) := by
  have : k = 1 := by omega
  subst this
  rfl

theorem C13_iterators_walk_the_pages_witness :
    (∃ it0 it1 fetched,
      (sampleClient (sampleCredential "a" "r" 7200)).IterateLocks "" 0 =
        .ok (sampleClient (sampleCredential "a" "r" 7200), it0) ∧
      LockIterator.NextTimes sampleLockServer 5 (fun _ => 1700000000000)
          (sampleClient (sampleCredential "a" "r" 7200)) it0 =
        .ok (sampleClient (sampleCredential "a" "r" 7200), it1, fetched,
          ((pagedItems (fun j => (sampleLockPage j).List) 0 2).take 5).map
            (fun x => .ok (some x)) ++
          List.replicate (5 - (pagedItems (fun j => (sampleLockPage j).List) 0 2).length)
            (.ok none)) ∧
      fetched <+: pagedRequests 0 2 ∧
      ((pagedItems (fun j => (sampleLockPage j).List) 0 2).length ≤ 5 →
        fetched = pagedRequests 0 2) ∧
      pagedItems (fun j => (sampleLockPage j).List) 0 2 =
        (List.range' 1 2).flatMap (fun j => (sampleLockPage j).List) ∧
      pagedRequests 0 2 =
        (List.range' 1 2).map (fun (j : Nat) => ((j : Int), (200 : Int)))) ∧
    pagedItems (fun j => (sampleLockPage j).List) 0 2 =
      [sampleLock 1, sampleLock 2, sampleLock 3] :=
  ⟨(C13_iterators_walk_the_pages (sampleClient (sampleCredential "a" "r" 7200))
      "" 0 sampleLockServer 2 sampleLockPage 7 0 "" samplePasscodeServer 1 samplePasscodePage
      5 (fun _ => 1700000000000) (by decide) (by decide)
      sampleLockServer_pages
      (fun k h1 h2 => by
        have : k = 1 ∨ k = 2 := by omega
        rcases this with rfl | rfl <;> decide)
      (by decide)
      samplePasscodeServer_pages
      (fun k h1 h2 => by
        have : k = 1 := by omega
        subst this
        decide)).1,
   by decide⟩

/-! ## The token an operation stamps on its request -/

theorem Values.Get_Set_same (v : Values) (key value : String) :
    (v.Set key value).Get key = some value := by
  unfold Values.Set Values.Get
  induction v with
  | nil => simp [List.lookup]
  | cons p rest ih =>
    obtain ⟨a, b⟩ := p
    by_cases h : a = key
    · simp only [List.filter_cons, h, bne_self_eq_false, Bool.false_eq_true, if_false]
      exact ih
    · have h1 : (a != key) = true := by simpa using h
      have h2 : (key == a) = false := by simpa using fun hk => h hk.symm
      simp only [List.filter_cons, h1, if_true, List.cons_append, List.lookup, h2]
      exact ih

theorem Values.Get_Set_other (v : Values) (key value other : String) (hne : other ≠ key) :
    (v.Set key value).Get other = v.Get other := by
  unfold Values.Set Values.Get
  induction v with
  | nil =>
    have h2 : (other == key) = false := by simpa using hne
    simp [List.lookup, h2]
  | cons p rest ih =>
    obtain ⟨a, b⟩ := p
    by_cases h : a = key
    · have h2 : (other == a) = false := by rw [h]; simpa using hne
      simp only [List.filter_cons, h, bne_self_eq_false, Bool.false_eq_true, if_false,
        List.lookup]
      rw [← h, h2]
      simp only
      rw [h]
      exact ih
    · have h1 : (a != key) = true := by simpa using h
      simp only [List.filter_cons, h1, if_true, List.cons_append, List.lookup]
      cases other == a
      · exact ih
      · rfl

theorem Values.Get_ite_Set_other (v : Values) (key value other : String) (b : Prop)
    [Decidable b] (hne : other ≠ key) :
    (if b then v.Set key value else v).Get other = v.Get other := by
  split
  · exact Values.Get_Set_other v key value other hne
  · rfl

theorem LockIterator_Next_fresh_ok (c : Client) (it : LockIterator) (now : Int)
    (send : HTTPRequest → Exchange LockListResponse) (resp : LockListResponse)
    (x : Lock) (xs : List Lock)
    (hit : it.items = [] ∧ it.index = 0 ∧ it.done = false ∧ it.pageNo = 0)
    (hget : c.GetLockList 1 it.pageSize it.lockAlias it.groupId now send = .ok (c, .ok resp))
    (hlist : resp.List = x :: xs) :
    it.Next c now send =
      .ok { c := c,
            it := { it with pageNo := 1, items := x :: xs, index := 1,
                            done := decide (1 ≥ resp.Pages) },
            fetched := [(1, it.pageSize)], result := .ok (some x) } := by
  obtain ⟨h1, h2, h3, h4⟩ := hit
  by_cases hlast : (1 : Int) ≥ resp.Pages <;>
    simp [LockIterator.Next, h1, h2, h3, h4, hget, hlist, hlast, LockIterator.takeItem]

theorem LockIterator_Next_fresh_error (c : Client) (it : LockIterator) (now : Int)
    (send : HTTPRequest → Exchange LockListResponse) (err : GoError)
    (hit : it.items = [] ∧ it.index = 0 ∧ it.done = false ∧ it.pageNo = 0)
    (hget : c.GetLockList 1 it.pageSize it.lockAlias it.groupId now send =
      .ok (c, .error err)) :
    it.Next c now send =
      .ok { c := c, it := { it with pageNo := 1 }, fetched := [(1, it.pageSize)],
            result := .error err } := by
  obtain ⟨h1, h2, h3, h4⟩ := hit
  simp [LockIterator.Next, h1, h2, h3, h4, hget]

theorem PasscodeIterator_Next_fresh_ok (c : Client) (it : PasscodeIterator) (now : Int)
    (send : HTTPRequest → Exchange PasscodeListResponse) (resp : PasscodeListResponse)
    (x : Passcode) (xs : List Passcode)
    (hit : it.items = [] ∧ it.index = 0 ∧ it.done = false ∧ it.pageNo = 0)
    (hget : c.GetPasscodeList it.lockID 1 it.pageSize it.orderBy it.searchStr now send =
      .ok (c, .ok resp))
    (hlist : resp.List = x :: xs) :
    it.Next c now send =
      .ok { c := c,
            it := { it with pageNo := 1, items := x :: xs, index := 1,
                            done := decide (1 ≥ resp.Pages) },
            fetched := [(1, it.pageSize)], result := .ok (some x) } := by
  obtain ⟨h1, h2, h3, h4⟩ := hit
  by_cases hlast : (1 : Int) ≥ resp.Pages <;>
    simp [PasscodeIterator.Next, h1, h2, h3, h4, hget, hlist, hlast, PasscodeIterator.takeItem]

theorem PasscodeIterator_Next_fresh_error (c : Client) (it : PasscodeIterator) (now : Int)
    (send : HTTPRequest → Exchange PasscodeListResponse) (err : GoError)
    (hit : it.items = [] ∧ it.index = 0 ∧ it.done = false ∧ it.pageNo = 0)
    (hget : c.GetPasscodeList it.lockID 1 it.pageSize it.orderBy it.searchStr now send =
      .ok (c, .error err)) :
    it.Next c now send =
      .ok { c := c, it := { it with pageNo := 1 }, fetched := [(1, it.pageSize)],
            result := .error err } := by
  obtain ⟨h1, h2, h3, h4⟩ := hit
  simp [PasscodeIterator.Next, h1, h2, h3, h4, hget]

theorem GetLockListRequest_accessToken (c : Client) (accessToken : String)
    (pageNo pageSize : Int) (lockAlias : String) (groupId : Int) (now : Int) :
    (c.GetLockListRequest accessToken pageNo pageSize lockAlias groupId now).Params.Get
      "accessToken" = some accessToken := by
  simp only [Client.GetLockListRequest]
  split_ifs <;> simp [Values.Get_Set_other, Values.Get_Set_same]

theorem GetLockDetailRequest_accessToken (c : Client) (accessToken : String) (lockId : Int)
    (now : Int) :
    (c.GetLockDetailRequest accessToken lockId now).Params.Get "accessToken" =
      some accessToken := by
  simp [Client.GetLockDetailRequest, Values.Get_Set_other, Values.Get_Set_same]

theorem GetRandomPasscodeRequest_accessToken (c : Client) (accessToken : String)
    (lockID : Int) (pwdType : PasscodeType) (pwdName : String) (startDate endDate : Int)
    (now : Int) :
    (c.GetRandomPasscodeRequest accessToken lockID pwdType pwdName startDate endDate
      now).Params.Get "accessToken" = some accessToken := by
  simp only [Client.GetRandomPasscodeRequest]
  split_ifs <;> simp [Values.Get_Set_other, Values.Get_Set_same]

theorem GetPasscodeListRequest_accessToken (c : Client) (accessToken : String)
    (lockID pageNo pageSize orderBy : Int) (searchStr : String) (now : Int) :
    (c.GetPasscodeListRequest accessToken lockID pageNo pageSize orderBy searchStr
      now).Params.Get "accessToken" = some accessToken := by
  simp only [Client.GetPasscodeListRequest]
  split_ifs <;> simp [Values.Get_Set_other, Values.Get_Set_same]

theorem SendKeyRequest_accessToken (c : Client) (accessToken : String) (lockID : Int)
    (receiverUsername keyName : String) (startDate endDate : Int)
    (options : Option SendKeyOptions) (now : Int) :
    (c.SendKeyRequest accessToken lockID receiverUsername keyName startDate endDate options
      now).Params.Get "accessToken" = some accessToken := by
  cases options with
  | none => simp [Client.SendKeyRequest, Values.Get_Set_other, Values.Get_Set_same]
  | some o =>
    simp only [Client.SendKeyRequest]
    split_ifs <;> simp [Values.Get_Set_other, Values.Get_Set_same]

theorem Client.GetLockList_one_request (c : Client) (pageNo pageSize : Int)
    (lockAlias : String) (groupId : Int) (now : Int)
    (send : HTTPRequest → Exchange LockListResponse)
    (hw : c.access_token_resp_lock.writer = false) :
    c.GetLockList pageNo pageSize lockAlias groupId now send =
      c.GetLockList pageNo pageSize lockAlias groupId now
        (fun _ => send (c.GetLockListRequest c.access_token_resp.AccessToken pageNo pageSize
          lockAlias groupId now)) := by
  simp [Client.GetLockList, Client.AccessToken_of_not_writer c hw, bind, Except.bind, pure,
    Except.pure]

theorem Client.GetPasscodeList_one_request (c : Client) (lockID pageNo pageSize orderBy : Int)
    (searchStr : String) (now : Int) (send : HTTPRequest → Exchange PasscodeListResponse)
    (hw : c.access_token_resp_lock.writer = false) :
    c.GetPasscodeList lockID pageNo pageSize orderBy searchStr now send =
      c.GetPasscodeList lockID pageNo pageSize orderBy searchStr now
        (fun _ => send (c.GetPasscodeListRequest c.access_token_resp.AccessToken lockID pageNo
          pageSize orderBy searchStr now)) := by
  simp [Client.GetPasscodeList, Client.AccessToken_of_not_writer c hw, bind, Except.bind, pure,
    Except.pure]

/-- A Next call that has used up its buffer and is not done asks for page `pageNo + 1`;
when the request succeeds with a non-empty list it buffers the list and returns its
first item. -/
theorem LockIterator_Next_fetch_ok (c : Client) (it : LockIterator) (now : Int)
    (send : HTTPRequest → Exchange LockListResponse) (resp : LockListResponse)
    (x : Lock) (xs : List Lock)
    (hidx : it.index ≥ it.items.length) (hdone : it.done = false)
    (hget : c.GetLockList (it.pageNo + 1) it.pageSize it.lockAlias it.groupId now send =
      .ok (c, .ok resp))
    (hlist : resp.List = x :: xs) :
    it.Next c now send =
      .ok { c := c,
            it := { it with pageNo := it.pageNo + 1, items := x :: xs, index := 1,
                            done := decide (it.pageNo + 1 ≥ resp.Pages) },
            fetched := [(it.pageNo + 1, it.pageSize)], result := .ok (some x) } := by
  by_cases hlast : it.pageNo + 1 ≥ resp.Pages <;>
    simp [LockIterator.Next, hidx, hdone, hget, hlist, hlast, LockIterator.takeItem]

theorem LockIterator_Next_fetch_error (c : Client) (it : LockIterator) (now : Int)
    (send : HTTPRequest → Exchange LockListResponse) (err : GoError)
    (hidx : it.index ≥ it.items.length) (hdone : it.done = false)
    (hget : c.GetLockList (it.pageNo + 1) it.pageSize it.lockAlias it.groupId now send =
      .ok (c, .error err)) :
    it.Next c now send =
      .ok { c := c, it := { it with pageNo := it.pageNo + 1 },
            fetched := [(it.pageNo + 1, it.pageSize)], result := .error err } := by
  simp only [LockIterator.Next, hidx, if_true, hdone, Bool.false_eq_true, if_false, hget]

/-- The one request a Next call can make is the request for page `pageNo + 1` stamped
with the token in the store at the time of the call: the call turns out the same on a
transport that gives the answer to that request whatever it is asked. -/
theorem LockIterator_Next_one_request (c : Client) (it : LockIterator) (now : Int)
    (send : HTTPRequest → Exchange LockListResponse)
    (hw : c.access_token_resp_lock.writer = false) :
    it.Next c now send =
      it.Next c now
        (fun _ => send (c.GetLockListRequest c.access_token_resp.AccessToken (it.pageNo + 1)
          it.pageSize it.lockAlias it.groupId now)) := by
  simp only [LockIterator.Next]
  rw [Client.GetLockList_one_request c (it.pageNo + 1) it.pageSize it.lockAlias it.groupId now
    send hw]

/-- A Next call with an item buffered, or on an iterator that is done, makes no
request. -/
theorem LockIterator_Next_no_request (c : Client) (it : LockIterator) (now : Int)
    (send send1 : HTTPRequest → Exchange LockListResponse)
    (h : it.index < it.items.length ∨ it.done = true) :
    it.Next c now send = it.Next c now send1 ∧
    ∀ nr, it.Next c now send = .ok nr → nr.fetched = [] := by
  by_cases hidx : it.index ≥ it.items.length
  · have hd : it.done = true := by
      rcases h with h | h
      · omega
      · exact h
    simp only [LockIterator.Next, hidx, if_true, hd]
    refine ⟨trivial, ?_⟩
    intro nr hnr
    rw [← Except.ok.inj hnr]
  · simp only [LockIterator.Next, hidx, if_false]
    refine ⟨trivial, ?_⟩
    intro nr hnr
    unfold LockIterator.takeItem at hnr
    split at hnr
    · cases hnr
    · split at hnr
      · cases hnr
      · rw [← Except.ok.inj hnr]

/-- A Next call leaves the token kept in the iterator as it was. -/
theorem LockIterator_Next_accessToken (c : Client) (it : LockIterator) (now : Int)
    (send : HTTPRequest → Exchange LockListResponse) (nr : NextResult LockIterator Lock)
    (h : it.Next c now send = .ok nr) : nr.it.accessToken = it.accessToken := by
  have htake : ∀ (it1 : LockIterator) (c1 : Client) (f : List (Int × Int)),
      it1.takeItem c1 f = .ok nr → nr.it.accessToken = it1.accessToken := by
    intro it1 c1 f hnr
    unfold LockIterator.takeItem at hnr
    split at hnr
    · cases hnr
    · split at hnr
      · cases hnr
      · rw [← Except.ok.inj hnr]
  unfold LockIterator.Next at h
  split at h
  · split at h
    · rw [← Except.ok.inj h]
    · simp only at h
      split at h
      · cases h
      · rw [← Except.ok.inj h]
      · split at h
        · rw [← Except.ok.inj h]
        · split at h
          · have := htake _ _ _ h
            exact this
          · have := htake _ _ _ h
            exact this
  · exact htake _ _ _ h

theorem LockIterator_NextTimes_accessToken (send : HTTPRequest → Exchange LockListResponse)
    (m : Nat) (clock : Nat → Int) (c : Client) (it : LockIterator) (c1 : Client)
    (it1 : LockIterator) (fetched : List (Int × Int))
    (results : List (Except GoError (Option Lock)))
    (h : LockIterator.NextTimes send m clock c it = .ok (c1, it1, fetched, results)) :
    it1.accessToken = it.accessToken := by
  induction m generalizing clock c it fetched results with
  | zero =>
    simp only [LockIterator.NextTimes, Except.ok.injEq, Prod.mk.injEq] at h
    rw [← h.2.1]
  | succ m ih =>
    simp only [LockIterator.NextTimes] at h
    split at h
    · cases h
    · rename_i nr hnr
      split at h
      · cases h
      · rename_i c2 it2 f2 r2 hrun
        simp only [Except.ok.injEq, Prod.mk.injEq] at h
        obtain ⟨rfl, rfl, _, _⟩ := h
        rw [ih _ _ _ _ _ hrun, LockIterator_Next_accessToken c it (clock 0) send nr hnr]

theorem PasscodeIterator_Next_fetch_ok (c : Client) (it : PasscodeIterator) (now : Int)
    (send : HTTPRequest → Exchange PasscodeListResponse) (resp : PasscodeListResponse)
    (x : Passcode) (xs : List Passcode)
    (hidx : it.index ≥ it.items.length) (hdone : it.done = false)
    (hget : c.GetPasscodeList it.lockID (it.pageNo + 1) it.pageSize it.orderBy it.searchStr now
      send = .ok (c, .ok resp))
    (hlist : resp.List = x :: xs) :
    it.Next c now send =
      .ok { c := c,
            it := { it with pageNo := it.pageNo + 1, items := x :: xs, index := 1,
                            done := decide (it.pageNo + 1 ≥ resp.Pages) },
            fetched := [(it.pageNo + 1, it.pageSize)], result := .ok (some x) } := by
  by_cases hlast : it.pageNo + 1 ≥ resp.Pages <;>
    simp [PasscodeIterator.Next, hidx, hdone, hget, hlist, hlast, PasscodeIterator.takeItem]

theorem PasscodeIterator_Next_fetch_error (c : Client) (it : PasscodeIterator) (now : Int)
    (send : HTTPRequest → Exchange PasscodeListResponse) (err : GoError)
    (hidx : it.index ≥ it.items.length) (hdone : it.done = false)
    (hget : c.GetPasscodeList it.lockID (it.pageNo + 1) it.pageSize it.orderBy it.searchStr now
      send = .ok (c, .error err)) :
    it.Next c now send =
      .ok { c := c, it := { it with pageNo := it.pageNo + 1 },
            fetched := [(it.pageNo + 1, it.pageSize)], result := .error err } := by
  simp only [PasscodeIterator.Next, hidx, if_true, hdone, Bool.false_eq_true, if_false, hget]

/-- The one request a Next call can make is the request for page `pageNo + 1` stamped
with the token in the store at the time of the call. -/
theorem PasscodeIterator_Next_one_request (c : Client) (it : PasscodeIterator) (now : Int)
    (send : HTTPRequest → Exchange PasscodeListResponse)
    (hw : c.access_token_resp_lock.writer = false) :
    it.Next c now send =
      it.Next c now
        (fun _ => send (c.GetPasscodeListRequest c.access_token_resp.AccessToken it.lockID
          (it.pageNo + 1) it.pageSize it.orderBy it.searchStr now)) := by
  simp only [PasscodeIterator.Next]
  rw [Client.GetPasscodeList_one_request c it.lockID (it.pageNo + 1) it.pageSize it.orderBy
    it.searchStr now send hw]

/-- A Next call with an item buffered, or on an iterator that is done, makes no
request. -/
theorem PasscodeIterator_Next_no_request (c : Client) (it : PasscodeIterator) (now : Int)
    (send send1 : HTTPRequest → Exchange PasscodeListResponse)
    (h : it.index < it.items.length ∨ it.done = true) :
    it.Next c now send = it.Next c now send1 ∧
    ∀ nr, it.Next c now send = .ok nr → nr.fetched = [] := by
  by_cases hidx : it.index ≥ it.items.length
  · have hd : it.done = true := by
      rcases h with h | h
      · omega
      · exact h
    simp only [PasscodeIterator.Next, hidx, if_true, hd]
    refine ⟨trivial, ?_⟩
    intro nr hnr
    rw [← Except.ok.inj hnr]
  · simp only [PasscodeIterator.Next, hidx, if_false]
    refine ⟨trivial, ?_⟩
    intro nr hnr
    unfold PasscodeIterator.takeItem at hnr
    split at hnr
    · cases hnr
    · split at hnr
      · cases hnr
      · rw [← Except.ok.inj hnr]

/-- A Next call leaves the token kept in the iterator as it was. -/
theorem PasscodeIterator_Next_accessToken (c : Client) (it : PasscodeIterator) (now : Int)
    (send : HTTPRequest → Exchange PasscodeListResponse)
    (nr : NextResult PasscodeIterator Passcode)
    (h : it.Next c now send = .ok nr) : nr.it.accessToken = it.accessToken := by
  have htake : ∀ (it1 : PasscodeIterator) (c1 : Client) (f : List (Int × Int)),
      it1.takeItem c1 f = .ok nr → nr.it.accessToken = it1.accessToken := by
    intro it1 c1 f hnr
    unfold PasscodeIterator.takeItem at hnr
    split at hnr
    · cases hnr
    · split at hnr
      · cases hnr
      · rw [← Except.ok.inj hnr]
  unfold PasscodeIterator.Next at h
  split at h
  · split at h
    · rw [← Except.ok.inj h]
    · simp only at h
      split at h
      · cases h
      · rw [← Except.ok.inj h]
      · split at h
        · rw [← Except.ok.inj h]
        · split at h
          · have := htake _ _ _ h
            exact this
          · have := htake _ _ _ h
            exact this
  · exact htake _ _ _ h

theorem PasscodeIterator_NextTimes_accessToken
    (send : HTTPRequest → Exchange PasscodeListResponse)
    (m : Nat) (clock : Nat → Int) (c : Client) (it : PasscodeIterator) (c1 : Client)
    (it1 : PasscodeIterator) (fetched : List (Int × Int))
    (results : List (Except GoError (Option Passcode)))
    (h : PasscodeIterator.NextTimes send m clock c it = .ok (c1, it1, fetched, results)) :
    it1.accessToken = it.accessToken := by
  induction m generalizing clock c it fetched results with
  | zero =>
    simp only [PasscodeIterator.NextTimes, Except.ok.injEq, Prod.mk.injEq] at h
    rw [← h.2.1]
  | succ m ih =>
    simp only [PasscodeIterator.NextTimes] at h
    split at h
    · cases h
    · rename_i nr hnr
      split at h
      · cases h
      · rename_i c2 it2 f2 r2 hrun
        simp only [Except.ok.injEq, Prod.mk.injEq] at h
        obtain ⟨rfl, rfl, _, _⟩ := h
        rw [ih _ _ _ _ _ hrun, PasscodeIterator_Next_accessToken c it (clock 0) send nr hnr]

/-- C14: every operation stamps its request with the access token in the store at the
time of the call. The accessToken parameter of the request of GetLockList,
GetLockDetail, GetRandomPasscode, GetPasscodeList and SendKey is the token the request
is built with, and each operation builds it with what AccessToken returns then: a
transport that answers only that request is answered. And every page an iterator
fetches after update_access_token_resp(r) is requested with r.AccessToken, not with the
token read when the iterator was made. This holds for the first page of a fresh
iterator of IterateLocks or IteratePasscodes, and for a Next call on an iterator in any
state, whatever its page number, buffer and kept token: when the call fetches (buffer
used up, not done) the one request it makes is the request for page `pageNo + 1`
stamped with r.AccessToken, so a transport that answers only that request is answered
and one that answers only the request stamped with another token, the kept one
included, is not; when it does not fetch it makes no request. And for a whole
iteration with the token replaced midway: after any number of Next calls under the
first token, the Next calls after update_access_token_resp(r) return the remaining
items in order on every transport that serves the pages to requests stamped with
r.AccessToken, while the iterator still keeps the first token. -/
theorem C14_requests_carry_current_token (c : Client) (r : AccessTokenResponse)
    (hfree : c.access_token_resp_lock = RWMutex.zero) :
    c.AccessToken = .ok (c.access_token_resp.AccessToken, c) ∧
    (∀ tok pageNo pageSize lockAlias groupId now,
      (c.GetLockListRequest tok pageNo pageSize lockAlias groupId now).Params.Get "accessToken" =
        some tok) ∧
    (∀ tok lockId now,
      (c.GetLockDetailRequest tok lockId now).Params.Get "accessToken" = some tok) ∧
    (∀ tok lockID pwdType pwdName startDate endDate now,
      (c.GetRandomPasscodeRequest tok lockID pwdType pwdName startDate endDate now).Params.Get
        "accessToken" = some tok) ∧
    (∀ tok lockID pageNo pageSize orderBy searchStr now,
      (c.GetPasscodeListRequest tok lockID pageNo pageSize orderBy searchStr now).Params.Get
        "accessToken" = some tok) ∧
    (∀ tok lockID receiverUsername keyName startDate endDate options now,
      (c.SendKeyRequest tok lockID receiverUsername keyName startDate endDate options
        now).Params.Get "accessToken" = some tok) ∧
    (∀ pageNo pageSize lockAlias groupId now (resp : LockListResponse), resp.Errcode = 0 →
      c.GetLockList pageNo pageSize lockAlias groupId now
        (fun q =>
          if q = c.GetLockListRequest c.access_token_resp.AccessToken pageNo pageSize lockAlias
            groupId now then .decoded resp
          else .sendError "another request") = .ok (c, .ok resp)) ∧
    (∀ lockId now (resp : LockDetail), resp.Errcode = 0 →
      c.GetLockDetail lockId now
        (fun q =>
          if q = c.GetLockDetailRequest c.access_token_resp.AccessToken lockId now
          then .decoded resp
          else .sendError "another request") = .ok (c, .ok resp)) ∧
    (∀ lockID pwdType pwdName startDate endDate now (resp : RandomPasscodeResponse),
      resp.Errcode = 0 →
      c.GetRandomPasscode lockID pwdType pwdName startDate endDate now
        (fun q =>
          if q = c.GetRandomPasscodeRequest c.access_token_resp.AccessToken lockID pwdType
            pwdName startDate endDate now then .decoded resp
          else .sendError "another request") = .ok (c, .ok resp)) ∧
    (∀ lockID pageNo pageSize orderBy searchStr now (resp : PasscodeListResponse),
      resp.Errcode = 0 →
      c.GetPasscodeList lockID pageNo pageSize orderBy searchStr now
        (fun q =>
          if q = c.GetPasscodeListRequest c.access_token_resp.AccessToken lockID pageNo
            pageSize orderBy searchStr now then .decoded resp
          else .sendError "another request") = .ok (c, .ok resp)) ∧
    (∀ lockID receiverUsername keyName startDate endDate options now (resp : SendKeyResponse),
      resp.Errcode = 0 →
      c.SendKey lockID receiverUsername keyName startDate endDate options now
        (fun q =>
          if q = c.SendKeyRequest c.access_token_resp.AccessToken lockID receiverUsername
            keyName startDate endDate options now then .decoded resp
          else .sendError "another request") = .ok (c, .ok resp)) ∧
    (∀ lockAlias groupId now (resp : LockListResponse) x xs,
      resp.Errcode = 0 → resp.List = x :: xs →
      ∃ it c1,
        c.IterateLocks lockAlias groupId = .ok (c, it) ∧
        it.accessToken = c.access_token_resp.AccessToken ∧
        c.update_access_token_resp r = .ok c1 ∧
        (∃ it1, it.Next c1 now
          (fun q =>
            if q = c1.GetLockListRequest r.AccessToken 1 200 lockAlias groupId now
            then .decoded resp
            else .sendError "another request") =
          .ok { c := c1, it := it1, fetched := [(1, 200)], result := .ok (some x) }) ∧
        (c.access_token_resp.AccessToken ≠ r.AccessToken →
          ∃ it1, it.Next c1 now
            (fun q =>
              if q = c1.GetLockListRequest it.accessToken 1 200 lockAlias groupId now
              then .decoded resp
              else .sendError "another request") =
            .ok { c := c1, it := it1, fetched := [(1, 200)],
                  result := .error (.wrapped "failed to send request" "another request") })) ∧
    (∀ lockID orderBy searchStr now (resp : PasscodeListResponse) x xs,
      resp.Errcode = 0 → resp.List = x :: xs →
      ∃ it c1,
        c.IteratePasscodes lockID orderBy searchStr = .ok (c, it) ∧
        it.accessToken = c.access_token_resp.AccessToken ∧
        c.update_access_token_resp r = .ok c1 ∧
        (∃ it1, it.Next c1 now
          (fun q =>
            if q = c1.GetPasscodeListRequest r.AccessToken lockID 1 200 orderBy searchStr now
            then .decoded resp
            else .sendError "another request") =
          .ok { c := c1, it := it1, fetched := [(1, 200)], result := .ok (some x) }) ∧
        (c.access_token_resp.AccessToken ≠ r.AccessToken →
          ∃ it1, it.Next c1 now
            (fun q =>
              if q = c1.GetPasscodeListRequest it.accessToken lockID 1 200 orderBy searchStr
                now
              then .decoded resp
              else .sendError "another request") =
            .ok { c := c1, it := it1, fetched := [(1, 200)],
                  result := .error (.wrapped "failed to send request" "another request") })) ∧
    (∀ (it : LockIterator) now, it.index ≥ it.items.length → it.done = false →
      ∃ c1,
        c.update_access_token_resp r = .ok c1 ∧
        (∀ send, it.Next c1 now send =
          it.Next c1 now
            (fun _ => send (c1.GetLockListRequest r.AccessToken (it.pageNo + 1) it.pageSize
              it.lockAlias it.groupId now))) ∧
        (∀ (resp : LockListResponse) x xs, resp.Errcode = 0 → resp.List = x :: xs →
          it.Next c1 now
            (fun q =>
              if q = c1.GetLockListRequest r.AccessToken (it.pageNo + 1) it.pageSize
                it.lockAlias it.groupId now
              then .decoded resp
              else .sendError "another request") =
            .ok { c := c1,
                  it := { it with pageNo := it.pageNo + 1, items := x :: xs, index := 1,
                                  done := decide (it.pageNo + 1 ≥ resp.Pages) },
                  fetched := [(it.pageNo + 1, it.pageSize)], result := .ok (some x) }) ∧
        (∀ tok (resp : LockListResponse), tok ≠ r.AccessToken →
          it.Next c1 now
            (fun q =>
              if q = c1.GetLockListRequest tok (it.pageNo + 1) it.pageSize it.lockAlias
                it.groupId now
              then .decoded resp
              else .sendError "another request") =
            .ok { c := c1, it := { it with pageNo := it.pageNo + 1 },
                  fetched := [(it.pageNo + 1, it.pageSize)],
                  result := .error (.wrapped "failed to send request" "another request") })) ∧
    (∀ (it : PasscodeIterator) now, it.index ≥ it.items.length → it.done = false →
      ∃ c1,
        c.update_access_token_resp r = .ok c1 ∧
        (∀ send, it.Next c1 now send =
          it.Next c1 now
            (fun _ => send (c1.GetPasscodeListRequest r.AccessToken it.lockID (it.pageNo + 1)
              it.pageSize it.orderBy it.searchStr now))) ∧
        (∀ (resp : PasscodeListResponse) x xs, resp.Errcode = 0 → resp.List = x :: xs →
          it.Next c1 now
            (fun q =>
              if q = c1.GetPasscodeListRequest r.AccessToken it.lockID (it.pageNo + 1)
                it.pageSize it.orderBy it.searchStr now
              then .decoded resp
              else .sendError "another request") =
            .ok { c := c1,
                  it := { it with pageNo := it.pageNo + 1, items := x :: xs, index := 1,
                                  done := decide (it.pageNo + 1 ≥ resp.Pages) },
                  fetched := [(it.pageNo + 1, it.pageSize)], result := .ok (some x) }) ∧
        (∀ tok (resp : PasscodeListResponse), tok ≠ r.AccessToken →
          it.Next c1 now
            (fun q =>
              if q = c1.GetPasscodeListRequest tok it.lockID (it.pageNo + 1) it.pageSize
                it.orderBy it.searchStr now
              then .decoded resp
              else .sendError "another request") =
            .ok { c := c1, it := { it with pageNo := it.pageNo + 1 },
                  fetched := [(it.pageNo + 1, it.pageSize)],
                  result := .error (.wrapped "failed to send request" "another request") })) ∧
    (∀ (it : LockIterator) now send send1,
      it.index < it.items.length ∨ it.done = true →
      ∃ c1,
        c.update_access_token_resp r = .ok c1 ∧
        it.Next c1 now send = it.Next c1 now send1 ∧
        ∀ nr, it.Next c1 now send = .ok nr → nr.fetched = []) ∧
    (∀ (it : PasscodeIterator) now send send1,
      it.index < it.items.length ∨ it.done = true →
      ∃ c1,
        c.update_access_token_resp r = .ok c1 ∧
        it.Next c1 now send = it.Next c1 now send1 ∧
        ∀ nr, it.Next c1 now send = .ok nr → nr.fetched = []) ∧
    (∀ lockAlias groupId (send0 send1 : HTTPRequest → Exchange LockListResponse) (n : Nat)
      (resp : Nat → LockListResponse) (m0 m1 : Nat) (clock0 clock1 : Nat → Int),
      1 ≤ n →
      (∀ k : Nat, 1 ≤ k → k ≤ n → ∀ now,
        send0 (c.GetLockListRequest c.access_token_resp.AccessToken k 200 lockAlias groupId
          now) = .decoded (resp k)) →
      (∀ k : Nat, 1 ≤ k → k ≤ n → ∀ now,
        send1 (c.GetLockListRequest r.AccessToken k 200 lockAlias groupId now) =
          .decoded (resp k)) →
      (∀ k : Nat, 1 ≤ k → k ≤ n →
        (resp k).Errcode = 0 ∧ (resp k).Pages = n ∧ (resp k).List ≠ []) →
      ∃ it0 it1 it2 c1 fetched0 fetched1,
        c.IterateLocks lockAlias groupId = .ok (c, it0) ∧
        LockIterator.NextTimes send0 m0 clock0 c it0 = .ok (c, it1, fetched0,
          ((pagedItems (fun j => (resp j).List) 0 n).take m0).map (fun x => .ok (some x)) ++
          List.replicate (m0 - (pagedItems (fun j => (resp j).List) 0 n).length) (.ok none)) ∧
        it1.accessToken = c.access_token_resp.AccessToken ∧
        c.update_access_token_resp r = .ok c1 ∧
        c1.GetLockListRequest = c.GetLockListRequest ∧
        LockIterator.NextTimes send1 m1 clock1 c1 it1 = .ok (c1, it2, fetched1,
          (((pagedItems (fun j => (resp j).List) 0 n).drop m0).take m1).map
            (fun x => .ok (some x)) ++
          List.replicate (m1 - ((pagedItems (fun j => (resp j).List) 0 n).drop m0).length)
            (.ok none)) ∧
        fetched0 ++ fetched1 <+: pagedRequests 0 n) ∧
    (∀ lockID orderBy searchStr (send0 send1 : HTTPRequest → Exchange PasscodeListResponse)
      (n : Nat) (resp : Nat → PasscodeListResponse) (m0 m1 : Nat) (clock0 clock1 : Nat → Int),
      1 ≤ n →
      (∀ k : Nat, 1 ≤ k → k ≤ n → ∀ now,
        send0 (c.GetPasscodeListRequest c.access_token_resp.AccessToken lockID k 200 orderBy
          searchStr now) = .decoded (resp k)) →
      (∀ k : Nat, 1 ≤ k → k ≤ n → ∀ now,
        send1 (c.GetPasscodeListRequest r.AccessToken lockID k 200 orderBy searchStr now) =
          .decoded (resp k)) →
      (∀ k : Nat, 1 ≤ k → k ≤ n →
        (resp k).Errcode = 0 ∧ (resp k).Pages = n ∧ (resp k).List ≠ []) →
      ∃ it0 it1 it2 c1 fetched0 fetched1,
        c.IteratePasscodes lockID orderBy searchStr = .ok (c, it0) ∧
        PasscodeIterator.NextTimes send0 m0 clock0 c it0 = .ok (c, it1, fetched0,
          ((pagedItems (fun j => (resp j).List) 0 n).take m0).map (fun x => .ok (some x)) ++
          List.replicate (m0 - (pagedItems (fun j => (resp j).List) 0 n).length) (.ok none)) ∧
        it1.accessToken = c.access_token_resp.AccessToken ∧
        c.update_access_token_resp r = .ok c1 ∧
        c1.GetPasscodeListRequest = c.GetPasscodeListRequest ∧
        PasscodeIterator.NextTimes send1 m1 clock1 c1 it1 = .ok (c1, it2, fetched1,
          (((pagedItems (fun j => (resp j).List) 0 n).drop m0).take m1).map
            (fun x => .ok (some x)) ++
          List.replicate (m1 - ((pagedItems (fun j => (resp j).List) 0 n).drop m0).length)
            (.ok none)) ∧
        fetched0 ++ fetched1 <+: pagedRequests 0 n) := by
  have hw : c.access_token_resp_lock.writer = false := by rw [hfree]; rfl
  have htok := Client.AccessToken_of_not_writer c hw
  have hupd := Client.update_access_token_resp_of_free c r hfree
  have hw1 : ({ c with access_token_resp := r } : Client).access_token_resp_lock.writer =
      false := hw
  have htok1 := Client.AccessToken_of_not_writer { c with access_token_resp := r } hw1
  refine ⟨htok, ?_, ?_, ?_, ?_, ?_, ?_, ?_, ?_, ?_, ?_, ?_, ?_, ?_, ?_, ?_, ?_, ?_, ?_⟩
  · intro tok pageNo pageSize lockAlias groupId now
    exact GetLockListRequest_accessToken c tok pageNo pageSize lockAlias groupId now
  · intro tok lockId now
    exact GetLockDetailRequest_accessToken c tok lockId now
  · intro tok lockID pwdType pwdName startDate endDate now
    exact GetRandomPasscodeRequest_accessToken c tok lockID pwdType pwdName startDate endDate now
  · intro tok lockID pageNo pageSize orderBy searchStr now
    exact GetPasscodeListRequest_accessToken c tok lockID pageNo pageSize orderBy searchStr now
  · intro tok lockID receiverUsername keyName startDate endDate options now
    exact SendKeyRequest_accessToken c tok lockID receiverUsername keyName startDate endDate
      options now
  · intro pageNo pageSize lockAlias groupId now resp hz
    simp [Client.GetLockList, htok, bind, Except.bind, pure, Except.pure, hz]
  · intro lockId now resp hz
    simp [Client.GetLockDetail, htok, bind, Except.bind, pure, Except.pure, hz]
  · intro lockID pwdType pwdName startDate endDate now resp hz
    simp [Client.GetRandomPasscode, htok, bind, Except.bind, pure, Except.pure, hz]
  · intro lockID pageNo pageSize orderBy searchStr now resp hz
    simp [Client.GetPasscodeList, htok, bind, Except.bind, pure, Except.pure, hz]
  · intro lockID receiverUsername keyName startDate endDate options now resp hz
    simp [Client.SendKey, htok, bind, Except.bind, pure, Except.pure, hz]
  · intro lockAlias groupId now resp x xs hz hlist
    refine ⟨{ accessToken := c.access_token_resp.AccessToken, lockAlias := lockAlias,
              groupId := groupId, pageNo := 0, pageSize := 200, items := [], index := 0,
              done := false }, { c with access_token_resp := r }, ?_, rfl, hupd, ?_, ?_⟩
    · simp [Client.IterateLocks, htok, bind, Except.bind, pure, Except.pure]
    · refine ⟨_, LockIterator_Next_fresh_ok _ _ now _ resp x xs ⟨rfl, rfl, rfl, rfl⟩ ?_ hlist⟩
      simp [Client.GetLockList, htok1, bind, Except.bind, pure, Except.pure, hz]
    · intro hne
      refine ⟨_, LockIterator_Next_fresh_error _ _ now _ _ ⟨rfl, rfl, rfl, rfl⟩ ?_⟩
      have hreq : ({ c with access_token_resp := r } : Client).GetLockListRequest
          r.AccessToken 1 200 lockAlias groupId now ≠
          ({ c with access_token_resp := r } : Client).GetLockListRequest
            c.access_token_resp.AccessToken 1 200 lockAlias groupId now := by
        intro heq
        have h1 := GetLockListRequest_accessToken { c with access_token_resp := r }
          r.AccessToken 1 200 lockAlias groupId now
        rw [heq, GetLockListRequest_accessToken] at h1
        exact hne (Option.some.inj h1)
      simp [Client.GetLockList, htok1, bind, Except.bind, pure, Except.pure, hreq]
  · intro lockID orderBy searchStr now resp x xs hz hlist
    refine ⟨{ accessToken := c.access_token_resp.AccessToken, lockID := lockID,
              orderBy := orderBy, searchStr := searchStr, pageNo := 0, pageSize := 200,
              items := [], index := 0, done := false },
      { c with access_token_resp := r }, ?_, rfl, hupd, ?_, ?_⟩
    · simp [Client.IteratePasscodes, htok, bind, Except.bind, pure, Except.pure]
    · refine ⟨_, PasscodeIterator_Next_fresh_ok _ _ now _ resp x xs ⟨rfl, rfl, rfl, rfl⟩ ?_
        hlist⟩
      simp [Client.GetPasscodeList, htok1, bind, Except.bind, pure, Except.pure, hz]
    · intro hne
      refine ⟨_, PasscodeIterator_Next_fresh_error _ _ now _ _ ⟨rfl, rfl, rfl, rfl⟩ ?_⟩
      have hreq : ({ c with access_token_resp := r } : Client).GetPasscodeListRequest
          r.AccessToken lockID 1 200 orderBy searchStr now ≠
          ({ c with access_token_resp := r } : Client).GetPasscodeListRequest
            c.access_token_resp.AccessToken lockID 1 200 orderBy searchStr now := by
        intro heq
        have h1 := GetPasscodeListRequest_accessToken { c with access_token_resp := r }
          r.AccessToken lockID 1 200 orderBy searchStr now
        rw [heq, GetPasscodeListRequest_accessToken] at h1
        exact hne (Option.some.inj h1)
      simp [Client.GetPasscodeList, htok1, bind, Except.bind, pure, Except.pure, hreq]
  · intro it now hidx hdone
    refine ⟨{ c with access_token_resp := r }, hupd, ?_, ?_, ?_⟩
    · intro send
      exact LockIterator_Next_one_request _ it now send hw1
    · intro resp x xs hz hlist
      refine LockIterator_Next_fetch_ok _ it now _ resp x xs hidx hdone ?_ hlist
      simp [Client.GetLockList, htok1, bind, Except.bind, pure, Except.pure, hz]
    · intro tok resp hne
      refine LockIterator_Next_fetch_error _ it now _ _ hidx hdone ?_
      have hreq : ({ c with access_token_resp := r } : Client).GetLockListRequest
          r.AccessToken (it.pageNo + 1) it.pageSize it.lockAlias it.groupId now ≠
          ({ c with access_token_resp := r } : Client).GetLockListRequest
            tok (it.pageNo + 1) it.pageSize it.lockAlias it.groupId now := by
        intro heq
        have h1 := GetLockListRequest_accessToken { c with access_token_resp := r }
          r.AccessToken (it.pageNo + 1) it.pageSize it.lockAlias it.groupId now
        rw [heq, GetLockListRequest_accessToken] at h1
        exact hne (Option.some.inj h1)
      simp [Client.GetLockList, htok1, bind, Except.bind, pure, Except.pure, hreq]
  · intro it now hidx hdone
    refine ⟨{ c with access_token_resp := r }, hupd, ?_, ?_, ?_⟩
    · intro send
      exact PasscodeIterator_Next_one_request _ it now send hw1
    · intro resp x xs hz hlist
      refine PasscodeIterator_Next_fetch_ok _ it now _ resp x xs hidx hdone ?_ hlist
      simp [Client.GetPasscodeList, htok1, bind, Except.bind, pure, Except.pure, hz]
    · intro tok resp hne
      refine PasscodeIterator_Next_fetch_error _ it now _ _ hidx hdone ?_
      have hreq : ({ c with access_token_resp := r } : Client).GetPasscodeListRequest
          r.AccessToken it.lockID (it.pageNo + 1) it.pageSize it.orderBy it.searchStr now ≠
          ({ c with access_token_resp := r } : Client).GetPasscodeListRequest
            tok it.lockID (it.pageNo + 1) it.pageSize it.orderBy it.searchStr now := by
        intro heq
        have h1 := GetPasscodeListRequest_accessToken { c with access_token_resp := r }
          r.AccessToken it.lockID (it.pageNo + 1) it.pageSize it.orderBy it.searchStr now
        rw [heq, GetPasscodeListRequest_accessToken] at h1
        exact hne (Option.some.inj h1)
      simp [Client.GetPasscodeList, htok1, bind, Except.bind, pure, Except.pure, hreq]
  · intro it now send send1 h
    exact ⟨{ c with access_token_resp := r }, hupd,
      LockIterator_Next_no_request _ it now send send1 h⟩
  · intro it now send send1 h
    exact ⟨{ c with access_token_resp := r }, hupd,
      PasscodeIterator_Next_no_request _ it now send send1 h⟩
  · intro lockAlias groupId send0 send1 n resp m0 m1 clock0 clock1 hn hresp0 hresp1 hok
    have hJ0 : LockIterator.Paging lockAlias groupId n 0
        { accessToken := c.access_token_resp.AccessToken, lockAlias := lockAlias,
          groupId := groupId, pageNo := 0, pageSize := 200, items := [], index := 0,
          done := false } :=
      ⟨rfl, by omega, rfl, rfl, rfl, by simp, by simp, by
        have : ¬ n ≤ 0 := by omega
        simp [this]⟩
    obtain ⟨it1, k1, f0, hrun0, hJ1, hrem1, hf0⟩ :=
      LockIterator_NextTimes_paging c lockAlias groupId send0 n resp hw hresp0 hok m0 clock0 _ 0
        hJ0
    obtain ⟨it2, k2, f1, hrun1, _, _, hf1⟩ :=
      LockIterator_NextTimes_paging { c with access_token_resp := r } lockAlias groupId send1 n
        resp hw1 hresp1 hok m1 clock1 it1 k1 hJ1
    simp only [List.drop_nil, List.nil_append, Int.toNat_zero] at hrun0 hrem1
    rw [hrem1] at hrun1
    refine ⟨_, it1, it2, { c with access_token_resp := r }, f0, f1, ?_, hrun0,
      LockIterator_NextTimes_accessToken send0 m0 clock0 c _ c it1 f0 _ hrun0, hupd, rfl, hrun1,
      ⟨pagedRequests k2 n, ?_⟩⟩
    · simp [Client.IterateLocks, htok, bind, Except.bind, pure, Except.pure]
    · rw [List.append_assoc, hf1, hf0]
  · intro lockID orderBy searchStr send0 send1 n resp m0 m1 clock0 clock1 hn hresp0 hresp1 hok
    have hJ0 : PasscodeIterator.Paging lockID orderBy searchStr n 0
        { accessToken := c.access_token_resp.AccessToken, lockID := lockID,
          orderBy := orderBy, searchStr := searchStr, pageNo := 0, pageSize := 200,
          items := [], index := 0, done := false } :=
      ⟨rfl, by omega, rfl, rfl, rfl, rfl, by simp, by simp, by
        have : ¬ n ≤ 0 := by omega
        simp [this]⟩
    obtain ⟨it1, k1, f0, hrun0, hJ1, hrem1, hf0⟩ :=
      PasscodeIterator_NextTimes_paging c lockID orderBy searchStr send0 n resp hw hresp0 hok m0
        clock0 _ 0 hJ0
    obtain ⟨it2, k2, f1, hrun1, _, _, hf1⟩ :=
      PasscodeIterator_NextTimes_paging { c with access_token_resp := r } lockID orderBy
        searchStr send1 n resp hw1 hresp1 hok m1 clock1 it1 k1 hJ1
    simp only [List.drop_nil, List.nil_append, Int.toNat_zero] at hrun0 hrem1
    rw [hrem1] at hrun1
    refine ⟨_, it1, it2, { c with access_token_resp := r }, f0, f1, ?_, hrun0,
      PasscodeIterator_NextTimes_accessToken send0 m0 clock0 c _ c it1 f0 _ hrun0, hupd, rfl,
      hrun1, ⟨pagedRequests k2 n, ?_⟩⟩
    · simp [Client.IteratePasscodes, htok, bind, Except.bind, pure, Except.pure]
    · rw [List.append_assoc, hf1, hf0]

/-! ## The renewal goroutine never waits with a lock held -/

theorem SchedState.step_holds (net : Nat → HTTPRequest → Exchange AccessTokenResponse)
    (s s1 : SchedState) (h : s.c.access_token_resp_lock = s.pc.holds)
    (hstep : s.step net = some s1) :
    s1.c.access_token_resp_lock = s1.pc.holds := by
  obtain ⟨pc, c, calls, expiresIn, refreshToken, refreshInterval, i, err, retryErr,
    newTokenResp⟩ := s
  obtain ⟨a, b, d, e, f, g, store, lock⟩ := c
  simp only at h
  subst h
  cases pc <;> simp only [SchedState.step, SchedPC.holds, RWMutex.zero, RWMutex.RLock,
    RWMutex.RUnlock, RWMutex.Lock, RWMutex.Unlock] at hstep
  all_goals first
    | (simp at hstep; done)
    | (simp at hstep; subst hstep; rfl)
    | (split at hstep <;> simp at hstep <;> subst hstep <;> rfl)

theorem SchedState.run_holds (net : Nat → HTTPRequest → Exchange AccessTokenResponse)
    (n : Nat) (s : SchedState) (h : s.c.access_token_resp_lock = s.pc.holds) :
    (SchedState.run net n s).c.access_token_resp_lock = (SchedState.run net n s).pc.holds := by
  induction n generalizing s with
  | zero => exact h
  | succ n ih =>
    simp only [SchedState.run]
    apply ih
    cases hstep : s.step net with
    | none => exact h
    | some s1 => exact SchedState.step_holds net s s1 h hstep

/-- C15: in the step machine of refresh_access_token started on a client whose mutex is
free, whatever the network does and however many steps are taken, the goroutine holds
no lock on the store while it is in the main sleep, in a RefreshAccessToken call or
in the 2-second pause; a read lock is held only between RLock and RUnlock at the head
of the pass, so it is released before the sleep starts; and the write lock is held
only inside update_access_token_resp. -/
theorem C15_no_lock_while_waiting
    (net : Nat → HTTPRequest → Exchange AccessTokenResponse) (c : Client) (n : Nat)
    (hfree : c.access_token_resp_lock = RWMutex.zero) :
    ((SchedState.run net n (SchedState.start c)).pc = .sleeping ∨
      (SchedState.run net n (SchedState.start c)).pc = .calling ∨
      (SchedState.run net n (SchedState.start c)).pc = .pausing →
      (SchedState.run net n (SchedState.start c)).c.access_token_resp_lock = RWMutex.zero) ∧
    ((SchedState.run net n (SchedState.start c)).c.access_token_resp_lock.readers ≠ 0 →
      (SchedState.run net n (SchedState.start c)).pc = .readExpiresIn ∨
      (SchedState.run net n (SchedState.start c)).pc = .readRefreshToken ∨
      (SchedState.run net n (SchedState.start c)).pc = .atRUnlock) ∧
    ((SchedState.run net n (SchedState.start c)).c.access_token_resp_lock.writer = true →
      (SchedState.run net n (SchedState.start c)).pc = .updateAssign ∨
      (SchedState.run net n (SchedState.start c)).pc = .updateUnlock) := by
  have h := SchedState.run_holds net n (SchedState.start c) hfree
  generalize SchedState.run net n (SchedState.start c) = s at h
  rw [h]
  cases s.pc <;> simp [SchedPC.holds, RWMutex.zero]

/-! ## The step machine and the pass agree -/

theorem SchedState.run_add (net : Nat → HTTPRequest → Exchange AccessTokenResponse)
    (m n : Nat) (s : SchedState) :
    SchedState.run net (m + n) s = SchedState.run net n (SchedState.run net m s) := by
  induction m generalizing s with
  | zero => simp [SchedState.run]
  | succ m ih =>
    rw [Nat.succ_add]
    simp only [SchedState.run]
    exact ih _

/-- From the head of the loop to the first test of `i < 3`: six statements. -/
theorem SchedState.run_head (net : Nat → HTTPRequest → Exchange AccessTokenResponse)
    (c : Client) (calls : Nat) (expiresIn : Int) (refreshToken : String)
    (refreshInterval i : Int) (err retryErr : Option GoError)
    (newTokenResp : AccessTokenResponse)
    (hfree : c.access_token_resp_lock = RWMutex.zero) :
    SchedState.run net 6
      { pc := .atRLock, c := c, calls := calls, expiresIn := expiresIn,
        refreshToken := refreshToken, refreshInterval := refreshInterval, i := i, err := err,
        retryErr := retryErr, newTokenResp := newTokenResp } =
      { pc := .loopTest, c := c, calls := calls, expiresIn := c.access_token_resp.ExpiresIn,
        refreshToken := c.access_token_resp.RefreshToken,
        refreshInterval := TTLock.refreshInterval c.access_token_resp.ExpiresIn, i := 0,
        err := none, retryErr := retryErr, newTokenResp := newTokenResp } := by
  obtain ⟨a, b, d, e, f, g, store, lock⟩ := c
  simp only at hfree
  subst hfree
  rfl

/-- A failed attempt: test, call, check, log, pause, and back to the test. -/
theorem SchedState.run_failed_attempt
    (net : Nat → HTTPRequest → Exchange AccessTokenResponse)
    (c : Client) (calls : Nat) (expiresIn : Int) (refreshToken : String)
    (refreshInterval i : Int) (err retryErr : Option GoError)
    (newTokenResp : AccessTokenResponse) (e : GoError)
    (hi : i < 3) (h : c.RefreshAccessToken refreshToken (net calls) = .error e) :
    SchedState.run net 5
      { pc := .loopTest, c := c, calls := calls, expiresIn := expiresIn,
        refreshToken := refreshToken, refreshInterval := refreshInterval, i := i, err := err,
        retryErr := retryErr, newTokenResp := newTokenResp } =
      { pc := .loopTest, c := c, calls := calls + 1, expiresIn := expiresIn,
        refreshToken := refreshToken, refreshInterval := refreshInterval, i := i + 1,
        err := some e, retryErr := some e, newTokenResp := newTokenResp } := by
  simp only [SchedState.run, SchedState.step, hi, if_true, Option.getD_some, h]

/-- A successful attempt: test, call, check, the three statements of
update_access_token_resp, clear `err`, and the test after the loop. -/
theorem SchedState.run_successful_attempt
    (net : Nat → HTTPRequest → Exchange AccessTokenResponse)
    (c : Client) (calls : Nat) (expiresIn : Int) (refreshToken : String)
    (refreshInterval i : Int) (err retryErr : Option GoError)
    (newTokenResp : AccessTokenResponse) (r : AccessTokenResponse)
    (hfree : c.access_token_resp_lock = RWMutex.zero)
    (hi : i < 3) (h : c.RefreshAccessToken refreshToken (net calls) = .ok r) :
    SchedState.run net 8
      { pc := .loopTest, c := c, calls := calls, expiresIn := expiresIn,
        refreshToken := refreshToken, refreshInterval := refreshInterval, i := i, err := err,
        retryErr := retryErr, newTokenResp := newTokenResp } =
      { pc := .atRLock, c := { c with access_token_resp := r }, calls := calls + 1,
        expiresIn := expiresIn, refreshToken := refreshToken,
        refreshInterval := refreshInterval, i := i, err := none, retryErr := none,
        newTokenResp := r } := by
  obtain ⟨a, b, d, e, f, g, store, lock⟩ := c
  simp only at hfree
  subst hfree
  simp only [SchedState.run, SchedState.step, hi, if_true, Option.getD_some, h]
  rfl

/-- The budget is used up: the test `i < 3` fails, `err` is set, panic. -/
theorem SchedState.run_exhausted
    (net : Nat → HTTPRequest → Exchange AccessTokenResponse)
    (c : Client) (calls : Nat) (expiresIn : Int) (refreshToken : String)
    (refreshInterval : Int) (retryErr : Option GoError)
    (newTokenResp : AccessTokenResponse) (e : GoError) :
    SchedState.run net 2
      { pc := .loopTest, c := c, calls := calls, expiresIn := expiresIn,
        refreshToken := refreshToken, refreshInterval := refreshInterval, i := 3,
        err := some e, retryErr := retryErr, newTokenResp := newTokenResp } =
      { pc := .panicked, c := c, calls := calls, expiresIn := expiresIn,
        refreshToken := refreshToken, refreshInterval := refreshInterval, i := 3,
        err := some e, retryErr := retryErr, newTokenResp := newTokenResp } := by
  rfl

/-- A pass of the renewal loop, taken one statement at a time from the head of the loop,
ends where refresh_access_token_round says: back at the head of the loop with the same
client and number of round trips, or in the panic. -/
theorem SchedState.run_agrees_with_round
    (net : Nat → HTTPRequest → Exchange AccessTokenResponse) (s : Sched)
    (expiresIn : Int) (refreshToken : String) (refreshInterval i : Int)
    (err retryErr : Option GoError) (newTokenResp : AccessTokenResponse)
    (hfree : s.c.access_token_resp_lock = RWMutex.zero) :
    ∃ k,
      match refresh_access_token_round net s with
      | .ok s1 =>
        (SchedState.run net k
          { pc := .atRLock, c := s.c, calls := s.calls, expiresIn := expiresIn,
            refreshToken := refreshToken, refreshInterval := refreshInterval, i := i,
            err := err, retryErr := retryErr, newTokenResp := newTokenResp }).pc = .atRLock ∧
        (SchedState.run net k
          { pc := .atRLock, c := s.c, calls := s.calls, expiresIn := expiresIn,
            refreshToken := refreshToken, refreshInterval := refreshInterval, i := i,
            err := err, retryErr := retryErr, newTokenResp := newTokenResp }).c = s1.c ∧
        (SchedState.run net k
          { pc := .atRLock, c := s.c, calls := s.calls, expiresIn := expiresIn,
            refreshToken := refreshToken, refreshInterval := refreshInterval, i := i,
            err := err, retryErr := retryErr, newTokenResp := newTokenResp }).calls = s1.calls
      | .error (_, s1) =>
        (SchedState.run net k
          { pc := .atRLock, c := s.c, calls := s.calls, expiresIn := expiresIn,
            refreshToken := refreshToken, refreshInterval := refreshInterval, i := i,
            err := err, retryErr := retryErr, newTokenResp := newTokenResp }).pc = .panicked ∧
        (SchedState.run net k
          { pc := .atRLock, c := s.c, calls := s.calls, expiresIn := expiresIn,
            refreshToken := refreshToken, refreshInterval := refreshInterval, i := i,
            err := err, retryErr := retryErr, newTokenResp := newTokenResp }).c = s1.c ∧
        (SchedState.run net k
          { pc := .atRLock, c := s.c, calls := s.calls, expiresIn := expiresIn,
            refreshToken := refreshToken, refreshInterval := refreshInterval, i := i,
            err := err, retryErr := retryErr, newTokenResp := newTokenResp }).calls =
          s1.calls := by
  have hw : s.c.access_token_resp_lock.writer = false := by rw [hfree]; rfl
  cases h0 : s.c.RefreshAccessToken s.c.access_token_resp.RefreshToken (net s.calls) with
  | ok r0 =>
    refine ⟨6 + 8, ?_⟩
    rw [refresh_access_token_round_first net s r0 hfree h0, SchedState.run_add,
      SchedState.run_head net _ _ _ _ _ _ _ _ _ hfree,
      SchedState.run_successful_attempt net _ _ _ _ _ _ _ _ _ r0 hfree (by decide) h0]
    exact ⟨rfl, rfl, rfl⟩
  | error e0 =>
    cases h1 : s.c.RefreshAccessToken s.c.access_token_resp.RefreshToken
        (net (s.calls + 1)) with
    | ok r1 =>
      refine ⟨6 + 5 + 8, ?_⟩
      rw [refresh_access_token_round_second net s e0 r1 hfree h0 h1, SchedState.run_add,
        SchedState.run_add, SchedState.run_head net _ _ _ _ _ _ _ _ _ hfree,
        SchedState.run_failed_attempt net _ _ _ _ _ _ _ _ _ e0 (by decide) h0,
        SchedState.run_successful_attempt net _ _ _ _ _ _ _ _ _ r1 hfree (by decide) h1]
      exact ⟨rfl, rfl, rfl⟩
    | error e1 =>
      cases h2 : s.c.RefreshAccessToken s.c.access_token_resp.RefreshToken
          (net (s.calls + 2)) with
      | ok r2 =>
        refine ⟨6 + 5 + 5 + 8, ?_⟩
        rw [refresh_access_token_round_third net s e0 e1 r2 hfree h0 h1 h2, SchedState.run_add,
          SchedState.run_add, SchedState.run_add,
          SchedState.run_head net _ _ _ _ _ _ _ _ _ hfree,
          SchedState.run_failed_attempt net _ _ _ _ _ _ _ _ _ e0 (by decide) h0,
          SchedState.run_failed_attempt net _ _ _ _ _ _ _ _ _ e1 (by decide) h1,
          SchedState.run_successful_attempt net _ _ _ _ _ _ _ _ _ r2 hfree (by decide) h2]
        exact ⟨rfl, rfl, rfl⟩
      | error e2 =>
        refine ⟨6 + 5 + 5 + 5 + 2, ?_⟩
        rw [refresh_access_token_round_exhausted net s e0 e1 e2 hw h0 h1 h2,
          SchedState.run_add, SchedState.run_add, SchedState.run_add, SchedState.run_add,
          SchedState.run_head net _ _ _ _ _ _ _ _ _ hfree,
          SchedState.run_failed_attempt net _ _ _ _ _ _ _ _ _ e0 (by decide) h0,
          SchedState.run_failed_attempt net _ _ _ _ _ _ _ _ _ e1 (by decide) h1,
          SchedState.run_failed_attempt net _ _ _ _ _ _ _ _ _ e2 (by decide) h2]
        exact ⟨rfl, rfl, rfl⟩

/-! ## Sample runs -/

theorem C18_GetLockList_params_witness :
    ((sampleClient (sampleCredential "a" "r" 7200)).GetLockListRequest "a" 1 200 "" 0
      1700000000000).Params.Get "lockAlias" = (if ("" : String) = "" then none else some "") ∧
    ((sampleClient (sampleCredential "a" "r" 7200)).GetLockListRequest "a" 1 200 "front" 7
      1700000000000).Params.Get "groupId" =
      (if (7 : Int) = 0 then none else some (toString (7 : Int))) ∧
    ((sampleClient (sampleCredential "a" "r" 7200)).GetLockListRequest "a" 1 200 "front" 7
      1700000000000).Params.Get "groupId" = some "7" ∧
    (sampleClient (sampleCredential "a" "r" 7200)).GetLockList 1 200 "front" 7 1700000000000
      (fun q =>
        if q = (sampleClient (sampleCredential "a" "r" 7200)).GetLockListRequest
          (sampleClient (sampleCredential "a" "r" 7200)).access_token_resp.AccessToken 1 200
          "front" 7 1700000000000 then .decoded (sampleLockPage 1)
        else .sendError "another request") =
      .ok (sampleClient (sampleCredential "a" "r" 7200), .ok (sampleLockPage 1)) :=
  ⟨(C18_GetLockList_params (sampleClient (sampleCredential "a" "r" 7200)) "a" 1 200 "" 0
      1700000000000).2.2.2.2.2.1,
   (C18_GetLockList_params (sampleClient (sampleCredential "a" "r" 7200)) "a" 1 200 "front" 7
      1700000000000).2.2.2.2.2.2.1,
   by rfl,
   (C18_GetLockList_params (sampleClient (sampleCredential "a" "r" 7200)) "a" 1 200 "front" 7
      1700000000000).2.2.2.2.2.2.2.2 (by decide) (sampleLockPage 1) rfl⟩

theorem C14_requests_carry_current_token_witness :
    (sampleClient (sampleCredential "a" "r" 7200)).AccessToken =
      .ok ("a", sampleClient (sampleCredential "a" "r" 7200)) ∧
    (∃ it c1,
      (sampleClient (sampleCredential "a" "r" 7200)).IterateLocks "" 0 =
        .ok (sampleClient (sampleCredential "a" "r" 7200), it) ∧
      it.accessToken = "a" ∧
      (sampleClient (sampleCredential "a" "r" 7200)).update_access_token_resp
        (sampleCredential "a1" "r1" 200000) = .ok c1 ∧
      (∃ it1, it.Next c1 1700000000000
        (fun q =>
          if q = c1.GetLockListRequest "a1" 1 200 "" 0 1700000000000
          then .decoded (sampleLockPage 1)
          else .sendError "another request") =
        .ok { c := c1, it := it1, fetched := [(1, 200)],
              result := .ok (some (sampleLock 1)) }) ∧
      (("a" : String) ≠ "a1" →
        ∃ it1, it.Next c1 1700000000000
          (fun q =>
            if q = c1.GetLockListRequest it.accessToken 1 200 "" 0 1700000000000
            then .decoded (sampleLockPage 1)
            else .sendError "another request") =
          .ok { c := c1, it := it1, fetched := [(1, 200)],
                result := .error (.wrapped "failed to send request" "another request") })) ∧
    (sampleLockIteratorPage1.accessToken = "a" ∧
      ∃ c1,
      (sampleClient (sampleCredential "a" "r" 7200)).update_access_token_resp
        (sampleCredential "a1" "r1" 200000) = .ok c1 ∧
      sampleLockIteratorPage1.Next c1 1700000000000
        (fun q =>
          if q = c1.GetLockListRequest "a1" 2 200 "" 0 1700000000000
          then .decoded (sampleLockPage 2)
          else .sendError "another request") =
        .ok { c := c1,
              it := { sampleLockIteratorPage1 with pageNo := 2, items := [sampleLock 3],
                                                   index := 1, done := true },
              fetched := [(2, 200)], result := .ok (some (sampleLock 3)) } ∧
      sampleLockIteratorPage1.Next c1 1700000000000
        (fun q =>
          if q = c1.GetLockListRequest "a" 2 200 "" 0 1700000000000
          then .decoded (sampleLockPage 2)
          else .sendError "another request") =
        .ok { c := c1, it := { sampleLockIteratorPage1 with pageNo := 2 },
              fetched := [(2, 200)],
              result := .error (.wrapped "failed to send request" "another request") }) ∧
    (∃ it0 it1 it2 c1 fetched0 fetched1,
      (sampleClient (sampleCredential "a" "r" 7200)).IterateLocks "" 0 =
        .ok (sampleClient (sampleCredential "a" "r" 7200), it0) ∧
      LockIterator.NextTimes (sampleLockServerFor "a") 1 (fun _ => 1700000000000)
          (sampleClient (sampleCredential "a" "r" 7200)) it0 =
        .ok (sampleClient (sampleCredential "a" "r" 7200), it1, fetched0,
          ((pagedItems (fun j => (sampleLockPage j).List) 0 2).take 1).map
            (fun x => .ok (some x)) ++
          List.replicate (1 - (pagedItems (fun j => (sampleLockPage j).List) 0 2).length)
            (.ok none)) ∧
      it1.accessToken = "a" ∧
      (sampleClient (sampleCredential "a" "r" 7200)).update_access_token_resp
        (sampleCredential "a1" "r1" 200000) = .ok c1 ∧
      c1.GetLockListRequest = (sampleClient (sampleCredential "a" "r" 7200)).GetLockListRequest ∧
      LockIterator.NextTimes (sampleLockServerFor "a1") 3 (fun _ => 1700000000000) c1 it1 =
        .ok (c1, it2, fetched1,
          (((pagedItems (fun j => (sampleLockPage j).List) 0 2).drop 1).take 3).map
            (fun x => .ok (some x)) ++
          List.replicate
            (3 - ((pagedItems (fun j => (sampleLockPage j).List) 0 2).drop 1).length)
            (.ok none)) ∧
      fetched0 ++ fetched1 <+: pagedRequests 0 2) ∧
    sampleLockServerFor "a1" ((sampleClient (sampleCredential "a" "r" 7200)).GetLockListRequest
      "a" 2 200 "" 0 1700000000000) = .sendError "invalid access token" :=
  ⟨(C14_requests_carry_current_token (sampleClient (sampleCredential "a" "r" 7200))
      (sampleCredential "a1" "r1" 200000) rfl).1,
   (C14_requests_carry_current_token (sampleClient (sampleCredential "a" "r" 7200))
      (sampleCredential "a1" "r1" 200000) rfl).2.2.2.2.2.2.2.2.2.2.2.1 "" 0 1700000000000
      (sampleLockPage 1) (sampleLock 1) [sampleLock 2] rfl rfl,
   ⟨rfl,
    Exists.imp
      (fun _ h => ⟨h.1, h.2.2.1 (sampleLockPage 2) (sampleLock 3) [] rfl rfl,
        h.2.2.2 "a" (sampleLockPage 2) (by decide)⟩)
      ((C14_requests_carry_current_token (sampleClient (sampleCredential "a" "r" 7200))
        (sampleCredential "a1" "r1" 200000) rfl).2.2.2.2.2.2.2.2.2.2.2.2.2.1
        sampleLockIteratorPage1 1700000000000 (by decide) rfl)⟩,
   (C14_requests_carry_current_token (sampleClient (sampleCredential "a" "r" 7200))
      (sampleCredential "a1" "r1" 200000) rfl).2.2.2.2.2.2.2.2.2.2.2.2.2.2.2.2.2.1 "" 0
      (sampleLockServerFor "a") (sampleLockServerFor "a1") 2 sampleLockPage 1 3
      (fun _ => 1700000000000) (fun _ => 1700000000000) (by decide)
      (fun k h1 h2 now => by
        have : k = 1 ∨ k = 2 := by omega
        rcases this with rfl | rfl <;> rfl)
      (fun k h1 h2 now => by
        have : k = 1 ∨ k = 2 := by omega
        rcases this with rfl | rfl <;> rfl)
      (fun k h1 h2 => by
        have : k = 1 ∨ k = 2 := by omega
        rcases this with rfl | rfl <;> decide),
   by rfl⟩

theorem C15_no_lock_while_waiting_witness :
    (SchedState.run (fun _ _ => .sendError "timeout") 5
      (SchedState.start (sampleClient (sampleCredential "a" "r" 7200)))).pc = .sleeping ∧
    (SchedState.run (fun _ _ => .sendError "timeout") 5
      (SchedState.start (sampleClient (sampleCredential "a" "r" 7200)))).c.access_token_resp_lock =
      RWMutex.zero ∧
    (SchedState.run (fun _ _ => .sendError "timeout") 2
      (SchedState.start (sampleClient (sampleCredential "a" "r" 7200)))).c.access_token_resp_lock =
      { readers := 1, writer := false } :=
  ⟨by rfl,
   (C15_no_lock_while_waiting (fun _ _ => .sendError "timeout")
      (sampleClient (sampleCredential "a" "r" 7200)) 5 rfl).1 (Or.inl (by rfl)),
   by rfl⟩

/-! ## The taxonomy of error codes -/

theorem mem_of_lookup_eq_some {α β : Type} [BEq α] [LawfulBEq α] (l : List (α × β)) (k : α)
    (v : β) (h : l.lookup k = some v) : (k, v) ∈ l := by
  induction l with
  | nil => simp at h
  | cons p rest ih =>
    obtain ⟨a, b⟩ := p
    simp only [List.lookup] at h
    cases hk : k == a with
    | true =>
      rw [hk] at h
      simp only [Option.some.injEq] at h
      have : k = a := by simpa using hk
      subst this
      subst h
      exact List.mem_cons_self _ _
    | false =>
      rw [hk] at h
      exact List.mem_cons_of_mem _ (ih h)

/-- C22: for every error code c, NewError(c).Code is c; NewError(c).Message is "unknown
error" if and only if c is not one of the ErrorCode constants declared in errors.go;
and for each of these constants the Message is its entry in errorMessages, so that code
10004 gets the message of ErrTokenUnauthorized. -/
theorem C22_NewError_taxonomy (c : ErrorCode) :
    (NewError c).Code = c ∧
    ((NewError c).Message = "unknown error" ↔ c ∉ namedErrorCodes) ∧
    (c ∈ namedErrorCodes → errorMessages.lookup c = some (NewError c).Message) ∧
    namedErrorCodes = errorMessages.map Prod.fst ∧
    namedErrorCodes.length = 51 ∧
    namedErrorCodes.Nodup ∧
    (NewError 10004).Message = "token无授权，token已失效或被撤销授权" ∧
    ErrTokenUnauthorized = 10004 := by
  have hkeys : namedErrorCodes = errorMessages.map Prod.fst := by decide
  have hmsgs : ∀ p ∈ errorMessages, p.2 ≠ "unknown error" := by decide
  refine ⟨NewError_Code c, ?_, ?_, hkeys, by decide, by decide, by decide, by decide⟩
  · cases hl : errorMessages.lookup c with
    | none =>
      have hnot : c ∉ namedErrorCodes := by
        rw [hkeys]
        intro hmem
        obtain ⟨p, hp, hpc⟩ := List.mem_map.1 hmem
        have := List.lookup_eq_none_iff.1 hl p hp
        simp [hpc] at this
      simp [NewError, hl, hnot]
    | some msg =>
      have hmem := mem_of_lookup_eq_some errorMessages c msg hl
      have hin : c ∈ namedErrorCodes := by
        rw [hkeys]
        exact List.mem_map.2 ⟨(c, msg), hmem, rfl⟩
      have hne := hmsgs (c, msg) hmem
      simp only [ne_eq] at hne
      simp [NewError, hl, hin, hne]
  · intro _
    cases hl : errorMessages.lookup c with
    | none =>
      exfalso
      rename_i hin
      rw [hkeys] at hin
      obtain ⟨p, hp, hpc⟩ := List.mem_map.1 hin
      have := List.lookup_eq_none_iff.1 hl p hp
      simp [hpc] at this
    | some msg => simp [NewError, hl]

theorem C22_NewError_taxonomy_witness :
    errorMessages.lookup 10011 = some (NewError 10011).Message ∧
    (NewError 12345).Message = "unknown error" ∧
    (NewError 10011).Message = "refresh_token无效" :=
  ⟨(C22_NewError_taxonomy 10011).2.2.1 (by decide),
   (C22_NewError_taxonomy 12345).2.1.2 (by decide),
   by decide⟩

/-! ## The refresh token a pass uses -/

theorem SchedState.step_readOfStore
    (net : Nat → HTTPRequest → Exchange AccessTokenResponse) (s s1 : SchedState)
    (h : s.readOfStore) (hstep : s.step net = some s1) : s1.readOfStore := by
  obtain ⟨pc, c, calls, expiresIn, refreshToken, refreshInterval, i, err, retryErr,
    newTokenResp⟩ := s
  cases pc <;> simp only [SchedState.step] at hstep <;> (try split at hstep) <;>
    (try simp only [Option.some.injEq] at hstep) <;> (try subst hstep) <;>
    simp_all [SchedState.readOfStore]

theorem SchedState.run_readOfStore
    (net : Nat → HTTPRequest → Exchange AccessTokenResponse) (n : Nat) (s : SchedState)
    (h : s.readOfStore) : (SchedState.run net n s).readOfStore := by
  induction n generalizing s with
  | zero => exact h
  | succ n ih =>
    simp only [SchedState.run]
    apply ih
    cases hstep : s.step net with
    | none => exact h
    | some s1 => exact SchedState.step_readOfStore net s s1 h hstep

/-- In a pass started with the mutex free, the sleep comes first, for the interval of the
ExpiresIn in the store at the start, and every RefreshAccessToken call that follows is
passed the RefreshToken in the store at the start. -/
theorem refresh_access_token_round_calls
    (net : Nat → HTTPRequest → Exchange AccessTokenResponse) (s : Sched)
    (hfree : s.c.access_token_resp_lock = RWMutex.zero) :
    ∃ rest,
      finalTrace (refresh_access_token_round net s) =
        s.trace ++ .Sleep (refreshInterval s.c.access_token_resp.ExpiresIn) :: rest ∧
      ∀ refreshToken, Event.RefreshAccessToken refreshToken ∈ rest →
        refreshToken = s.c.access_token_resp.RefreshToken := by
  have hw : s.c.access_token_resp_lock.writer = false := by rw [hfree]; rfl
  cases h0 : s.c.RefreshAccessToken s.c.access_token_resp.RefreshToken (net s.calls) with
  | ok r0 =>
    rw [refresh_access_token_round_first net s r0 hfree h0]
    exact ⟨_, rfl, by simp⟩
  | error e0 =>
    cases h1 : s.c.RefreshAccessToken s.c.access_token_resp.RefreshToken
        (net (s.calls + 1)) with
    | ok r1 =>
      rw [refresh_access_token_round_second net s e0 r1 hfree h0 h1]
      exact ⟨_, rfl, by simp⟩
    | error e1 =>
      cases h2 : s.c.RefreshAccessToken s.c.access_token_resp.RefreshToken
          (net (s.calls + 2)) with
      | ok r2 =>
        rw [refresh_access_token_round_third net s e0 e1 r2 hfree h0 h1 h2]
        exact ⟨_, rfl, by simp⟩
      | error e2 =>
        rw [refresh_access_token_round_exhausted net s e0 e1 e2 hw h0 h1 h2]
        exact ⟨_, rfl, by simp⟩

/-- A pass that returns has installed the response of one of its three calls, and
leaves the mutex free. -/
theorem refresh_access_token_round_installs
    (net : Nat → HTTPRequest → Exchange AccessTokenResponse) (s s1 : Sched)
    (hfree : s.c.access_token_resp_lock = RWMutex.zero)
    (hok : refresh_access_token_round net s = .ok s1) :
    s1.c.access_token_resp_lock = RWMutex.zero ∧
    s1.trace.getLast? = some (.update_access_token_resp s1.c.access_token_resp) ∧
    ∃ j, j < 3 ∧ s.c.RefreshAccessToken s.c.access_token_resp.RefreshToken
      (net (s.calls + j)) = .ok s1.c.access_token_resp := by
  have hw : s.c.access_token_resp_lock.writer = false := by rw [hfree]; rfl
  cases h0 : s.c.RefreshAccessToken s.c.access_token_resp.RefreshToken (net s.calls) with
  | ok r0 =>
    rw [refresh_access_token_round_first net s r0 hfree h0] at hok
    cases hok
    exact ⟨hfree, by simp, 0, by decide, h0⟩
  | error e0 =>
    cases h1 : s.c.RefreshAccessToken s.c.access_token_resp.RefreshToken
        (net (s.calls + 1)) with
    | ok r1 =>
      rw [refresh_access_token_round_second net s e0 r1 hfree h0 h1] at hok
      cases hok
      exact ⟨hfree, by simp, 1, by decide, h1⟩
    | error e1 =>
      cases h2 : s.c.RefreshAccessToken s.c.access_token_resp.RefreshToken
          (net (s.calls + 2)) with
      | ok r2 =>
        rw [refresh_access_token_round_third net s e0 e1 r2 hfree h0 h1 h2] at hok
        cases hok
        exact ⟨hfree, by simp, 2, by decide, h2⟩
      | error e2 =>
        rw [refresh_access_token_round_exhausted net s e0 e1 e2 hw h0 h1 h2] at hok
        cases hok

/-- C21: every RefreshAccessToken call of a pass is passed the refresh token that was in
the store at the start of the pass, read together with the ExpiresIn the sleep is
computed from, and the sleep comes before the calls; in the step machine the token
passed at the call is the one read under the read lock at the head of the pass, the
store being unchanged since; and after a pass that installed a response r, the next
pass sleeps for the interval of r.ExpiresIn and passes r.RefreshToken to its calls. -/
theorem C21_calls_use_token_read_at_start
    (net : Nat → HTTPRequest → Exchange AccessTokenResponse) (s : Sched) (n : Nat)
    (hfree : s.c.access_token_resp_lock = RWMutex.zero) :
    (∃ rest,
      finalTrace (refresh_access_token_round net s) =
        s.trace ++ .Sleep (refreshInterval s.c.access_token_resp.ExpiresIn) :: rest ∧
      ∀ refreshToken, Event.RefreshAccessToken refreshToken ∈ rest →
        refreshToken = s.c.access_token_resp.RefreshToken) ∧
    ((SchedState.run net n (SchedState.start s.c)).pc = .calling →
      (SchedState.run net n (SchedState.start s.c)).refreshToken =
        (SchedState.run net n (SchedState.start s.c)).c.access_token_resp.RefreshToken ∧
      (SchedState.run net n (SchedState.start s.c)).expiresIn =
        (SchedState.run net n (SchedState.start s.c)).c.access_token_resp.ExpiresIn) ∧
    ((SchedState.run net n (SchedState.start s.c)).pc = .sleeping →
      (SchedState.run net n (SchedState.start s.c)).refreshToken =
        (SchedState.run net n (SchedState.start s.c)).c.access_token_resp.RefreshToken ∧
      (SchedState.run net n (SchedState.start s.c)).refreshInterval =
        refreshInterval
          (SchedState.run net n (SchedState.start s.c)).c.access_token_resp.ExpiresIn) ∧
    (∀ s1, refresh_access_token_round net s = .ok s1 →
      ∃ r j, j < 3 ∧
        s.c.RefreshAccessToken s.c.access_token_resp.RefreshToken (net (s.calls + j)) = .ok r ∧
        s1.c.access_token_resp = r ∧
        s1.trace.getLast? = some (.update_access_token_resp r) ∧
        ∃ rest,
          finalTrace (refresh_access_token_round net s1) =
            s1.trace ++ .Sleep (refreshInterval r.ExpiresIn) :: rest ∧
          ∀ refreshToken, Event.RefreshAccessToken refreshToken ∈ rest →
            refreshToken = r.RefreshToken) := by
  have hinv := SchedState.run_readOfStore net n (SchedState.start s.c) trivial
  refine ⟨refresh_access_token_round_calls net s hfree, ?_, ?_, ?_⟩
  · intro hpc
    simp only [SchedState.readOfStore, hpc] at hinv
    exact ⟨hinv.2, hinv.1⟩
  · intro hpc
    simp only [SchedState.readOfStore, hpc] at hinv
    exact ⟨hinv.2.1, hinv.2.2⟩
  · intro s1 hok
    obtain ⟨hfree1, hlast, j, hj, hcall⟩ := refresh_access_token_round_installs net s s1 hfree hok
    exact ⟨s1.c.access_token_resp, j, hj, hcall, rfl, hlast,
      refresh_access_token_round_calls net s1 hfree1⟩

theorem C21_calls_use_token_read_at_start_witness :
    (∃ rest,
      finalTrace (refresh_access_token_round
        (fun k _ => if k < 2 then .sendError "timeout"
          else .decoded (sampleCredential "a1" "r1" 200000))
        (Sched.start (sampleClient (sampleCredential "a" "r" 7200)))) =
        [] ++ .Sleep (refreshInterval 7200) :: rest ∧
      ∀ refreshToken, Event.RefreshAccessToken refreshToken ∈ rest → refreshToken = "r") ∧
    (SchedState.run
        (fun k _ => if k < 2 then .sendError "timeout"
          else .decoded (sampleCredential "a1" "r1" 200000)) 7
        (SchedState.start (sampleClient (sampleCredential "a" "r" 7200)))).pc = .calling ∧
    (SchedState.run
        (fun k _ => if k < 2 then .sendError "timeout"
          else .decoded (sampleCredential "a1" "r1" 200000)) 7
        (SchedState.start (sampleClient (sampleCredential "a" "r" 7200)))).refreshToken = "r" :=
  ⟨(C21_calls_use_token_read_at_start
      (fun k _ => if k < 2 then .sendError "timeout"
        else .decoded (sampleCredential "a1" "r1" 200000))
      (Sched.start (sampleClient (sampleCredential "a" "r" 7200))) 7 rfl).1,
   by rfl,
   ((C21_calls_use_token_read_at_start
      (fun k _ => if k < 2 then .sendError "timeout"
        else .decoded (sampleCredential "a1" "r1" 200000))
      (Sched.start (sampleClient (sampleCredential "a" "r" 7200))) 7 rfl).2.1 (by rfl)).1⟩

/-! ## A page request that fails -/

/-- When the page request of Next fails, Next returns `(nil, err)` with the buffered
items, the index and the done flag as they were, and the page number one higher. -/
theorem LockIterator_Next_of_failed_request (it : LockIterator) (c : Client) (now : Int)
    (send : HTTPRequest → Exchange LockListResponse) (err : GoError)
    (hidx : it.index ≥ it.items.length) (hdone : it.done = false)
    (hget : c.GetLockList (it.pageNo + 1) it.pageSize it.lockAlias it.groupId now send =
      .ok (c, .error err)) :
    it.Next c now send =
      .ok { c := c, it := { it with pageNo := it.pageNo + 1 },
            fetched := [(it.pageNo + 1, it.pageSize)], result := .error err } := by
  simp only [LockIterator.Next, hidx, if_true, hdone, Bool.false_eq_true, if_false, hget]

/-- When the page request of Next fails, Next returns `(nil, err)` with the buffered
items, the index and the done flag as they were, and the page number one higher. -/
theorem PasscodeIterator_Next_of_failed_request (it : PasscodeIterator) (c : Client)
    (now : Int) (send : HTTPRequest → Exchange PasscodeListResponse) (err : GoError)
    (hidx : it.index ≥ it.items.length) (hdone : it.done = false)
    (hget : c.GetPasscodeList it.lockID (it.pageNo + 1) it.pageSize it.orderBy it.searchStr now
      send = .ok (c, .error err)) :
    it.Next c now send =
      .ok { c := c, it := { it with pageNo := it.pageNo + 1 },
            fetched := [(it.pageNo + 1, it.pageSize)], result := .error err } := by
  simp only [PasscodeIterator.Next, hidx, if_true, hdone, Bool.false_eq_true, if_false, hget]

/-- C23, evaluated where it fails: a fresh iterator whose first page request ends in a
transport error. Next returns `(nil, err)`, but the iterator is left with page number
1, not 0; the next call, on a server that now answers, requests page 2 and returns the
first lock of page 2, and the call after the last item returns `(nil, nil)`: page 1 is
never requested again and its locks are skipped. The same for PasscodeIterator. -/
theorem C23_failed_request_skips_the_page :
    (sampleClient (sampleCredential "a" "r" 7200)).IterateLocks "" 0 =
      .ok (sampleClient (sampleCredential "a" "r" 7200), sampleLockIterator) ∧
    sampleLockIterator.Next (sampleClient (sampleCredential "a" "r" 7200)) 1700000000000
        (fun _ => .sendError "timeout") =
      .ok { c := sampleClient (sampleCredential "a" "r" 7200),
            it := { sampleLockIterator with pageNo := 1 },
            fetched := [(1, 200)],
            result := .error (.wrapped "failed to send request" "timeout") } ∧
    ({ sampleLockIterator with pageNo := 1 } : LockIterator) ≠ sampleLockIterator ∧
    LockIterator.NextTimes sampleLockServer 2 (fun _ => 1700000000000)
        (sampleClient (sampleCredential "a" "r" 7200))
        { sampleLockIterator with pageNo := 1 } =
      .ok (sampleClient (sampleCredential "a" "r" 7200),
        { sampleLockIterator with pageNo := 2, items := [sampleLock 3], index := 1,
                                  done := true },
        [(2, 200)], [.ok (some (sampleLock 3)), .ok none]) ∧
    pagedItems (fun j => (sampleLockPage j).List) 0 2 =
      [sampleLock 1, sampleLock 2, sampleLock 3] ∧
    (sampleClient (sampleCredential "a" "r" 7200)).IteratePasscodes 7 0 "" =
      .ok (sampleClient (sampleCredential "a" "r" 7200), samplePasscodeIterator) ∧
    samplePasscodeIterator.Next (sampleClient (sampleCredential "a" "r" 7200)) 1700000000000
        (fun _ => .sendError "timeout") =
      .ok { c := sampleClient (sampleCredential "a" "r" 7200),
            it := { samplePasscodeIterator with pageNo := 1 },
            fetched := [(1, 200)],
            result := .error (.wrapped "failed to send request" "timeout") } ∧
    ({ samplePasscodeIterator with pageNo := 1 } : PasscodeIterator).Next
        (sampleClient (sampleCredential "a" "r" 7200)) 1700000000000 samplePasscodeServer =
      .ok { c := sampleClient (sampleCredential "a" "r" 7200),
            it := { samplePasscodeIterator with pageNo := 2 },
            fetched := [(2, 200)],
            result := .error (.wrapped "failed to send request" "no such page") } := by
  refine ⟨by rfl, by rfl, by decide, by rfl, by decide, by rfl, by rfl, by rfl⟩

end TTLock
